import Mathlib

/-!
# Cellular modem lifecycle state machine (`drivers/modem/modem_cellular.c`)

A shallow embedding of the driver's lifecycle state machine, its event queue,
its power-management entry point, its chat callbacks and its chat scripts,
followed by theorems about them.

Conventions of the embedding

* Every C function of the driver is a Lean function of the same name.
  A C function `int f(struct modem_cellular_data *data)` becomes a function
  returning `Int × modem_cellular_data`; a `void` function returns the data.
* The collaborators of the driver (pipe, chat, CMUX, PPP, GPIO, kernel timer,
  semaphore, network interface) are outside the driver.  Every call to one of
  them is appended to the `trace` field, in program order, and the value the
  call returns is supplied by a `World`, a function of the history of calls so
  far and of the call being made.  Theorems quantified over every `World` hold
  for every behaviour of the collaborators.
* Log lines are collected in the `log` field and never influence control flow.
* `uint8_t` fields are natural numbers below 256.
* The mutex around the event ring is not modelled: every function of the
  embedding runs atomically.
-/

namespace ModemCellular

/-! ## Constants -/

/-- `MODEM_CELLULAR_POWER_GPIO_PULSE`, `K_MSEC(1500)`, in milliseconds. -/
def MODEM_CELLULAR_POWER_GPIO_PULSE : Nat := 1500

/-- `MODEM_CELLULAR_RESET_GPIO_PULSE`, `K_MSEC(100)`, in milliseconds. -/
def MODEM_CELLULAR_RESET_GPIO_PULSE : Nat := 100

/-- `MODEM_CELLULAR_STARTUP_TIME`, `K_MSEC(10000)`, in milliseconds. -/
def MODEM_CELLULAR_STARTUP_TIME : Nat := 10000

/-- `MODEM_CELLULAR_SHUTDOWN_TIME`, `K_MSEC(10000)`, in milliseconds. -/
def MODEM_CELLULAR_SHUTDOWN_TIME : Nat := 10000

/-- `K_MSEC(ms)`: a timeout in milliseconds. -/
def K_MSEC (ms : Nat) : Nat := ms

/-- `K_SECONDS(s)`: a timeout of `s` seconds, in milliseconds. -/
def K_SECONDS (s : Nat) : Nat := 1000 * s

/-- The errno value `EAGAIN` of the C library headers (not part of the driver source). -/
def EAGAIN : Int := 11

/-- The errno value `ENOTSUP` of the C library headers (not part of the driver source). -/
def ENOTSUP : Int := 134

/-! ## Data model -/

/-- `enum modem_cellular_state`. -/
inductive modem_cellular_state where
  | IDLE
  | POWER_ON
  | RUN_INIT_SCRIPT
  | CONNECT_CMUX
  | OPEN_DLCI1
  | OPEN_DLCI2
  | RUN_DIAL_SCRIPT
  | REGISTER
  | CARRIER_ON
  | CARRIER_OFF
  | POWER_OFF
  deriving DecidableEq, Repr

/-- `enum modem_cellular_event`. -/
inductive modem_cellular_event where
  | RESUME
  | SUSPEND
  | SCRIPT_SUCCESS
  | SCRIPT_FAILED
  | CMUX_CONNECTED
  | DLCI1_OPENED
  | DLCI2_OPENED
  | TIMEOUT
  deriving DecidableEq, Repr

/-- The three pipes the driver owns: `data->uart_pipe`, `data->dlci1_pipe`,
`data->dlci2_pipe`. -/
inductive modem_pipe where
  | uart_pipe
  | dlci1_pipe
  | dlci2_pipe
  deriving DecidableEq, Repr

/-- The three chat scripts the driver defines with `MODEM_CHAT_SCRIPT_DEFINE`. -/
inductive chat_script where
  | init_chat_script
  | net_stat_chat_script
  | connect_chat_script
  deriving DecidableEq, Repr

/-- The two GPIO lines of `struct modem_cellular_config`. -/
inductive gpio_line where
  | power_gpio
  | reset_gpio
  deriving DecidableEq, Repr

/-- The two GPIO configuration flags `modem_cellular_init` uses. -/
inductive gpio_flags where
  | GPIO_OUTPUT_INACTIVE
  | GPIO_OUTPUT_ACTIVE
  deriving DecidableEq, Repr

/-- A `struct gpio_dt_spec`, reduced to what the driver looks at: whether
`port` is a device (`some`) or `NULL` (`none`). -/
structure gpio_dt_spec where
  port : Option Nat
  deriving DecidableEq, Repr

/-- `struct modem_cellular_config` (the UART handle plays no role in the state machine). -/
structure modem_cellular_config where
  power_gpio : gpio_dt_spec
  reset_gpio : gpio_dt_spec
  deriving DecidableEq, Repr

/-- A call of the driver to one of its collaborators, with the arguments that
distinguish it.  The receiver objects (`&data->chat`, `&data->cmux`,
`data->ppp`, `&data->timeout_work`, `&data->suspended_sem`,
`&data->event_dispatch_work`) are unique per modem instance and are left out,
and so are the pure accessor `modem_ppp_get_iface` and the mutex calls.
`k_work_schedule` carries the timeout in milliseconds, `net_if_set_link_addr`
the address bytes. -/
inductive Call where
  | modem_pipe_open (p : modem_pipe)
  | modem_pipe_close (p : modem_pipe)
  | modem_pipe_attach (p : modem_pipe)
  | modem_pipe_release (p : modem_pipe)
  | modem_pipe_open_async (p : modem_pipe)
  | modem_chat_attach (p : modem_pipe)
  | modem_chat_release
  | modem_chat_script_run (s : chat_script)
  | modem_chat_script_abort
  | modem_cmux_attach (p : modem_pipe)
  | modem_cmux_connect_async
  | modem_cmux_release
  | modem_ppp_attach (p : modem_pipe)
  | modem_ppp_release
  | gpio_pin_configure_dt (g : gpio_line) (flags : gpio_flags)
  | gpio_pin_set_dt (g : gpio_line) (value : Int)
  | gpio_pin_get_dt (g : gpio_line)
  | k_work_schedule (ms : Nat)
  | k_work_cancel_delayable
  | k_work_submit
  | k_sem_give
  | k_sem_take (ms : Nat)
  | net_if_set_link_addr (addr : List Nat)
  | net_if_carrier_on
  | net_if_carrier_off
  | k_work_init_delayable
  | k_work_init
  | k_sem_init (initial_count limit : Nat)
  | modem_backend_uart_init
  | modem_cmux_init
  | modem_cmux_dlci_init (dlci_address : Nat)
  | modem_chat_init
  | pm_device_init_suspended
  deriving DecidableEq, Repr

/-- The collaborators as seen from the driver: the value returned by a call,
given the calls made before it. -/
abbrev World := List Call → Call → Int

/-- A line of the driver's log. -/
inductive LogMsg where
  | event (evt : modem_cellular_event)
  | state_changed (last_state new_state : modem_cellular_state)
  | failed_to_leave_state (ret : Int)
  | failed_to_enter_state (ret : Int)
  deriving DecidableEq, Repr

/-- Modelled from the spec: `struct ring_buf` of the kernel library, which is
not part of the driver source.  The spec describes the event queue as "a small
ring buffer (capacity 8 event tags)" that "never reorders events" and is
drained "in FIFO order"; `size` is the capacity given to `ring_buf_init`,
`items` the pending entries, oldest first.  One entry is the one-byte tag of
an event. -/
structure ring_buf where
  size : Nat
  items : List modem_cellular_event
  deriving DecidableEq, Repr

/-- `struct modem_cellular_data`: the fields the state machine reads or
writes, the trace of collaborator calls and the log. -/
structure modem_cellular_data where
  imei : List Nat
  hwinfo : List Nat
  access_tech : Nat
  registration_status : Nat
  packet_service_attached : Nat
  state : modem_cellular_state
  suspend_atomic : Int
  event_rb : ring_buf
  trace : List Call
  log : List LogMsg
  deriving DecidableEq, Repr

/-- `sizeof(data->event_buf)`: the event buffer is `uint8_t event_buf[8]`. -/
def sizeof_event_buf : Nat := 8

/-! ## Collaborator calls -/

/-- Perform a collaborator call: ask the world for the return value and
append the call to the trace. -/
def call (w : World) (c : Call) (data : modem_cellular_data) : Int × modem_cellular_data :=
  (w data.trace c, { data with trace := data.trace ++ [c] })

/-- Append a line to the log. -/
def log_line (m : LogMsg) (data : modem_cellular_data) : modem_cellular_data :=
  { data with log := data.log ++ [m] }

/-- Modelled from the spec: `ring_buf_init` of the kernel library, an empty
buffer of the given capacity. -/
def ring_buf_init (size : Nat) : ring_buf :=
  { size := size, items := [] }

/-- Modelled from the spec: `ring_buf_put` of the kernel library for one
entry.  The entry is appended when the buffer has room and dropped when the
buffer is full ("capacity 8 event tags"); the result is the number of entries
written. -/
def ring_buf_put (rb : ring_buf) (x : modem_cellular_event) : Nat × ring_buf :=
  if rb.items.length < rb.size then (1, { rb with items := rb.items ++ [x] })
  else (0, rb)

/-- Modelled from the spec: `ring_buf_get` of the kernel library.  Up to
`size` of the oldest entries are removed and returned, oldest first ("dispatch
drains in FIFO order"), together with their number. -/
def ring_buf_get (rb : ring_buf) (size : Nat) : Nat × List modem_cellular_event × ring_buf :=
  ((rb.items.take size).length, rb.items.take size, { rb with items := rb.items.drop size })

/-! ## The driver -/

/-- `modem_cellular_gpio_is_enabled`: `gpio->port != NULL`. -/
def modem_cellular_gpio_is_enabled (gpio : gpio_dt_spec) : Bool :=
  gpio.port != none

/-- `modem_cellular_log_state_changed`. -/
def modem_cellular_log_state_changed (last_state new_state : modem_cellular_state)
    (data : modem_cellular_data) : modem_cellular_data :=
  log_line (.state_changed last_state new_state) data

/-- `modem_cellular_log_event`. -/
def modem_cellular_log_event (evt : modem_cellular_event)
    (data : modem_cellular_data) : modem_cellular_data :=
  log_line (.event evt) data

/-- `modem_cellular_start_timer`: `k_work_schedule(&data->timeout_work, timeout)`. -/
def modem_cellular_start_timer (w : World) (data : modem_cellular_data) (timeout : Nat) :
    modem_cellular_data :=
  (call w (.k_work_schedule timeout) data).2

/-- `modem_cellular_stop_timer`: `k_work_cancel_delayable(&data->timeout_work)`. -/
def modem_cellular_stop_timer (w : World) (data : modem_cellular_data) : modem_cellular_data :=
  (call w .k_work_cancel_delayable data).2

/-- `modem_cellular_delegate_event`: put the one-byte event tag in the ring
buffer (the number of bytes written is ignored) and submit the dispatch work.
The tag is kept as the event itself: the eight tags 0..7 fit the one byte
that `ring_buf_put(&data->event_rb, (uint8_t *)&evt, 1)` copies. -/
def modem_cellular_delegate_event (w : World) (data : modem_cellular_data)
    (evt : modem_cellular_event) : modem_cellular_data :=
  let data := { data with event_rb := (ring_buf_put data.event_rb evt).2 }
  (call w .k_work_submit data).2

/-- `modem_cellular_on_idle_state_leave`. -/
def modem_cellular_on_idle_state_leave (w : World) (data : modem_cellular_data) :
    Int × modem_cellular_data :=
  call w (.modem_pipe_open .uart_pipe) data

/-- `modem_cellular_on_power_on_state_enter`. -/
def modem_cellular_on_power_on_state_enter (config : modem_cellular_config) (w : World)
    (data : modem_cellular_data) : Int × modem_cellular_data :=
  if modem_cellular_gpio_is_enabled config.power_gpio then
    let data := (call w (.gpio_pin_set_dt .power_gpio 1) data).2
    let data := modem_cellular_start_timer w data MODEM_CELLULAR_POWER_GPIO_PULSE
    (0, data)
  else
    let data := (call w (.gpio_pin_set_dt .reset_gpio 1) data).2
    let data := modem_cellular_start_timer w data MODEM_CELLULAR_RESET_GPIO_PULSE
    (0, data)

/-- `modem_cellular_on_run_init_script_state_enter`. -/
def modem_cellular_on_run_init_script_state_enter (w : World) (data : modem_cellular_data) :
    Int × modem_cellular_data :=
  let (ret, data) := call w (.modem_chat_attach .uart_pipe) data
  if ret < 0 then (-EAGAIN, data)
  else call w (.modem_chat_script_run .init_chat_script) data

/-- `modem_cellular_on_run_init_script_state_leave`. -/
def modem_cellular_on_run_init_script_state_leave (w : World) (data : modem_cellular_data) :
    Int × modem_cellular_data :=
  let data := (call w .modem_chat_release data).2
  (0, data)

/-- `modem_cellular_on_connect_cmux_state_enter`. -/
def modem_cellular_on_connect_cmux_state_enter (w : World) (data : modem_cellular_data) :
    Int × modem_cellular_data :=
  let (ret, data) := call w (.modem_cmux_attach .uart_pipe) data
  if ret < 0 then (-EAGAIN, data)
  else
    let data := modem_cellular_start_timer w data (K_MSEC 500)
    (0, data)

/-- `modem_cellular_on_open_dlci1_state_enter`. -/
def modem_cellular_on_open_dlci1_state_enter (w : World) (data : modem_cellular_data) :
    Int × modem_cellular_data :=
  let data := (call w (.modem_pipe_attach .dlci1_pipe) data).2
  call w (.modem_pipe_open_async .dlci1_pipe) data

/-- `modem_cellular_on_open_dlci1_state_leave`. -/
def modem_cellular_on_open_dlci1_state_leave (w : World) (data : modem_cellular_data) :
    Int × modem_cellular_data :=
  let data := (call w (.modem_pipe_release .dlci1_pipe) data).2
  (0, data)

/-- `modem_cellular_on_open_dlci2_state_enter`. -/
def modem_cellular_on_open_dlci2_state_enter (w : World) (data : modem_cellular_data) :
    Int × modem_cellular_data :=
  let data := (call w (.modem_pipe_attach .dlci2_pipe) data).2
  call w (.modem_pipe_open_async .dlci2_pipe) data

/-- `modem_cellular_on_open_dlci2_state_leave`. -/
def modem_cellular_on_open_dlci2_state_leave (w : World) (data : modem_cellular_data) :
    Int × modem_cellular_data :=
  let data := (call w (.modem_pipe_release .dlci2_pipe) data).2
  (0, data)

/-- `modem_cellular_on_run_dial_script_state_enter`. -/
def modem_cellular_on_run_dial_script_state_enter (w : World) (data : modem_cellular_data) :
    Int × modem_cellular_data :=
  let (ret, data) := call w (.modem_chat_attach .dlci2_pipe) data
  if ret < 0 then (-EAGAIN, data)
  else
    let data := modem_cellular_start_timer w data (K_MSEC 500)
    (0, data)

/-- `modem_cellular_on_run_dial_script_state_leave`. -/
def modem_cellular_on_run_dial_script_state_leave (w : World) (data : modem_cellular_data) :
    Int × modem_cellular_data :=
  let data := (call w .modem_chat_release data).2
  call w (.modem_ppp_attach .dlci2_pipe) data

/-- `modem_cellular_on_register_state_enter`. -/
def modem_cellular_on_register_state_enter (w : World) (data : modem_cellular_data) :
    Int × modem_cellular_data :=
  let (ret, data) := call w (.modem_chat_attach .dlci1_pipe) data
  if ret < 0 then (-EAGAIN, data)
  else
    let data := modem_cellular_start_timer w data (K_SECONDS 2)
    call w (.modem_chat_script_run .net_stat_chat_script) data

/-- `modem_cellular_is_registered`. -/
def modem_cellular_is_registered (data : modem_cellular_data) : Bool :=
  data.registration_status == 5 && data.packet_service_attached == 1

/-- `modem_cellular_on_register_state_leave`. -/
def modem_cellular_on_register_state_leave (w : World) (data : modem_cellular_data) :
    Int × modem_cellular_data :=
  let data := modem_cellular_stop_timer w data
  let data := (call w .modem_chat_release data).2
  (0, data)

/-- `modem_cellular_on_carrier_on_state_enter`. -/
def modem_cellular_on_carrier_on_state_enter (w : World) (data : modem_cellular_data) :
    Int × modem_cellular_data :=
  let data := (call w .net_if_carrier_on data).2
  let data := (call w (.modem_chat_attach .dlci1_pipe) data).2
  let data := (call w (.modem_chat_script_run .net_stat_chat_script) data).2
  let data := modem_cellular_start_timer w data (K_SECONDS 4)
  (0, data)

/-- `modem_cellular_on_carrier_on_state_leave`. -/
def modem_cellular_on_carrier_on_state_leave (w : World) (data : modem_cellular_data) :
    Int × modem_cellular_data :=
  let data := modem_cellular_stop_timer w data
  let data := (call w .modem_chat_script_abort data).2
  let data := (call w .modem_chat_release data).2
  let data := (call w .modem_ppp_release data).2
  (0, data)

/-- `modem_cellular_on_carrier_off_state_enter`. -/
def modem_cellular_on_carrier_off_state_enter (w : World) (data : modem_cellular_data) :
    Int × modem_cellular_data :=
  let data := (call w .net_if_carrier_off data).2
  let data := modem_cellular_start_timer w data (K_SECONDS 1)
  (0, data)

/-- `modem_cellular_on_power_off_state_enter`. -/
def modem_cellular_on_power_off_state_enter (w : World) (data : modem_cellular_data) :
    Int × modem_cellular_data :=
  let data := (call w .modem_cmux_release data).2
  let data := (call w (.modem_pipe_close .uart_pipe) data).2
  let data := (call w (.gpio_pin_set_dt .power_gpio 1) data).2
  let data := modem_cellular_start_timer w data MODEM_CELLULAR_POWER_GPIO_PULSE
  (0, data)

/-- `modem_cellular_on_power_off_state_leave`. -/
def modem_cellular_on_power_off_state_leave (w : World) (data : modem_cellular_data) :
    Int × modem_cellular_data :=
  let data := (call w .k_sem_give data).2
  (0, data)

/-- `modem_cellular_on_state_enter`: the `on_enter` hook of `data->state`. -/
def modem_cellular_on_state_enter (config : modem_cellular_config) (w : World)
    (data : modem_cellular_data) : Int × modem_cellular_data :=
  match data.state with
  | .POWER_ON => modem_cellular_on_power_on_state_enter config w data
  | .RUN_INIT_SCRIPT => modem_cellular_on_run_init_script_state_enter w data
  | .CONNECT_CMUX => modem_cellular_on_connect_cmux_state_enter w data
  | .OPEN_DLCI1 => modem_cellular_on_open_dlci1_state_enter w data
  | .OPEN_DLCI2 => modem_cellular_on_open_dlci2_state_enter w data
  | .RUN_DIAL_SCRIPT => modem_cellular_on_run_dial_script_state_enter w data
  | .REGISTER => modem_cellular_on_register_state_enter w data
  | .CARRIER_ON => modem_cellular_on_carrier_on_state_enter w data
  | .CARRIER_OFF => modem_cellular_on_carrier_off_state_enter w data
  | .POWER_OFF => modem_cellular_on_power_off_state_enter w data
  | _ => (0, data)

/-- `modem_cellular_on_state_leave`: the `on_leave` hook of `data->state`. -/
def modem_cellular_on_state_leave (w : World) (data : modem_cellular_data) :
    Int × modem_cellular_data :=
  match data.state with
  | .IDLE => modem_cellular_on_idle_state_leave w data
  | .RUN_INIT_SCRIPT => modem_cellular_on_run_init_script_state_leave w data
  | .OPEN_DLCI1 => modem_cellular_on_open_dlci1_state_leave w data
  | .OPEN_DLCI2 => modem_cellular_on_open_dlci2_state_leave w data
  | .RUN_DIAL_SCRIPT => modem_cellular_on_run_dial_script_state_leave w data
  | .REGISTER => modem_cellular_on_register_state_leave w data
  | .CARRIER_ON => modem_cellular_on_carrier_on_state_leave w data
  | .POWER_OFF => modem_cellular_on_power_off_state_leave w data
  | _ => (0, data)

/-- `modem_cellular_enter_state`. -/
def modem_cellular_enter_state (config : modem_cellular_config) (w : World)
    (data : modem_cellular_data) (state : modem_cellular_state) : modem_cellular_data :=
  let (ret, data) := modem_cellular_on_state_leave w data
  if ret < 0 then
    log_line (.failed_to_leave_state ret) data
  else
    let data := { data with state := state }
    let (ret, data) := modem_cellular_on_state_enter config w data
    if ret < 0 then log_line (.failed_to_enter_state ret) data
    else data

/-- `modem_cellular_idle_event_handler`. -/
def modem_cellular_idle_event_handler (config : modem_cellular_config) (w : World)
    (data : modem_cellular_data) (evt : modem_cellular_event) : modem_cellular_data :=
  match evt with
  | .RESUME =>
    if modem_cellular_gpio_is_enabled config.power_gpio ||
        modem_cellular_gpio_is_enabled config.reset_gpio then
      modem_cellular_enter_state config w data .POWER_ON
    else
      modem_cellular_enter_state config w data .RUN_INIT_SCRIPT
  | _ => data

/-- `modem_cellular_power_on_event_handler`.  The `&&` of the source reads a
GPIO line only when the line is configured. -/
def modem_cellular_power_on_event_handler (config : modem_cellular_config) (w : World)
    (data : modem_cellular_data) (evt : modem_cellular_event) : modem_cellular_data :=
  match evt with
  | .TIMEOUT =>
    let (power, data) :=
      if modem_cellular_gpio_is_enabled config.power_gpio then
        let (v, data) := call w (.gpio_pin_get_dt .power_gpio) data
        (v != 0, data)
      else (false, data)
    if power then
      let data := (call w (.gpio_pin_set_dt .power_gpio 0) data).2
      modem_cellular_start_timer w data MODEM_CELLULAR_STARTUP_TIME
    else
      let (reset, data) :=
        if modem_cellular_gpio_is_enabled config.reset_gpio then
          let (v, data) := call w (.gpio_pin_get_dt .reset_gpio) data
          (v != 0, data)
        else (false, data)
      if reset then
        let data := (call w (.gpio_pin_set_dt .reset_gpio 0) data).2
        modem_cellular_start_timer w data MODEM_CELLULAR_STARTUP_TIME
      else
        modem_cellular_enter_state config w data .RUN_INIT_SCRIPT
  | _ => data

/-- `modem_cellular_run_init_script_event_handler`. -/
def modem_cellular_run_init_script_event_handler (config : modem_cellular_config) (w : World)
    (data : modem_cellular_data) (evt : modem_cellular_event) : modem_cellular_data :=
  match evt with
  | .SCRIPT_SUCCESS =>
    let data := (call w (.net_if_set_link_addr data.imei) data).2
    modem_cellular_enter_state config w data .CONNECT_CMUX
  | .SCRIPT_FAILED =>
    if modem_cellular_gpio_is_enabled config.power_gpio then
      modem_cellular_enter_state config w data .POWER_ON
    else
      modem_cellular_enter_state config w data .RUN_INIT_SCRIPT
  | _ => data

/-- `modem_cellular_connect_cmux_event_handler`. -/
def modem_cellular_connect_cmux_event_handler (config : modem_cellular_config) (w : World)
    (data : modem_cellular_data) (evt : modem_cellular_event) : modem_cellular_data :=
  match evt with
  | .TIMEOUT => (call w .modem_cmux_connect_async data).2
  | .CMUX_CONNECTED => modem_cellular_enter_state config w data .OPEN_DLCI1
  | _ => data

/-- `modem_cellular_open_dlci1_event_handler`. -/
def modem_cellular_open_dlci1_event_handler (config : modem_cellular_config) (w : World)
    (data : modem_cellular_data) (evt : modem_cellular_event) : modem_cellular_data :=
  match evt with
  | .DLCI1_OPENED => modem_cellular_enter_state config w data .OPEN_DLCI2
  | _ => data

/-- `modem_cellular_open_dlci2_event_handler`. -/
def modem_cellular_open_dlci2_event_handler (config : modem_cellular_config) (w : World)
    (data : modem_cellular_data) (evt : modem_cellular_event) : modem_cellular_data :=
  match evt with
  | .DLCI2_OPENED => modem_cellular_enter_state config w data .RUN_DIAL_SCRIPT
  | _ => data

/-- `modem_cellular_run_dial_script_event_handler`. -/
def modem_cellular_run_dial_script_event_handler (config : modem_cellular_config) (w : World)
    (data : modem_cellular_data) (evt : modem_cellular_event) : modem_cellular_data :=
  match evt with
  | .TIMEOUT => (call w (.modem_chat_script_run .connect_chat_script) data).2
  | .SCRIPT_FAILED => modem_cellular_start_timer w data (K_MSEC 500)
  | .SCRIPT_SUCCESS => modem_cellular_enter_state config w data .REGISTER
  | _ => data

/-- `modem_cellular_register_event_handler`. -/
def modem_cellular_register_event_handler (config : modem_cellular_config) (w : World)
    (data : modem_cellular_data) (evt : modem_cellular_event) : modem_cellular_data :=
  match evt with
  | .SUSPEND =>
    if modem_cellular_gpio_is_enabled config.power_gpio then
      modem_cellular_enter_state config w data .POWER_OFF
    else
      modem_cellular_enter_state config w data .IDLE
  | .SCRIPT_SUCCESS =>
    if modem_cellular_is_registered data then
      modem_cellular_enter_state config w data .CARRIER_ON
    else data
  | .TIMEOUT =>
    let data := modem_cellular_start_timer w data (K_SECONDS 2)
    (call w (.modem_chat_script_run .net_stat_chat_script) data).2
  | _ => data

/-- `modem_cellular_carrier_on_event_handler`. -/
def modem_cellular_carrier_on_event_handler (config : modem_cellular_config) (w : World)
    (data : modem_cellular_data) (evt : modem_cellular_event) : modem_cellular_data :=
  match evt with
  | .SUSPEND => modem_cellular_enter_state config w data .CARRIER_OFF
  | .SCRIPT_SUCCESS =>
    if modem_cellular_is_registered data == false then
      modem_cellular_enter_state config w data .RUN_DIAL_SCRIPT
    else data
  | .TIMEOUT =>
    let data := (call w (.modem_chat_script_run .net_stat_chat_script) data).2
    modem_cellular_start_timer w data (K_SECONDS 4)
  | _ => data

/-- `modem_cellular_carrier_off_event_handler`. -/
def modem_cellular_carrier_off_event_handler (config : modem_cellular_config) (w : World)
    (data : modem_cellular_data) (evt : modem_cellular_event) : modem_cellular_data :=
  match evt with
  | .TIMEOUT =>
    if modem_cellular_gpio_is_enabled config.power_gpio then
      modem_cellular_enter_state config w data .POWER_OFF
    else
      let data :=
        if modem_cellular_gpio_is_enabled config.reset_gpio then
          (call w (.gpio_pin_set_dt .reset_gpio 1) data).2
        else data
      modem_cellular_enter_state config w data .IDLE
  | _ => data

/-- `modem_cellular_power_off_event_handler`. -/
def modem_cellular_power_off_event_handler (config : modem_cellular_config) (w : World)
    (data : modem_cellular_data) (evt : modem_cellular_event) : modem_cellular_data :=
  match evt with
  | .TIMEOUT =>
    let (v, data) := call w (.gpio_pin_get_dt .power_gpio) data
    if v != 0 then
      let data := (call w (.gpio_pin_set_dt .power_gpio 0) data).2
      modem_cellular_start_timer w data MODEM_CELLULAR_SHUTDOWN_TIME
    else
      modem_cellular_enter_state config w data .IDLE
  | _ => data

/-- `modem_cellular_event_handler`. -/
def modem_cellular_event_handler (config : modem_cellular_config) (w : World)
    (data : modem_cellular_data) (evt : modem_cellular_event) : modem_cellular_data :=
  let state := data.state
  let data := modem_cellular_log_event evt data
  let data :=
    match data.state with
    | .IDLE => modem_cellular_idle_event_handler config w data evt
    | .POWER_ON => modem_cellular_power_on_event_handler config w data evt
    | .RUN_INIT_SCRIPT => modem_cellular_run_init_script_event_handler config w data evt
    | .CONNECT_CMUX => modem_cellular_connect_cmux_event_handler config w data evt
    | .OPEN_DLCI1 => modem_cellular_open_dlci1_event_handler config w data evt
    | .OPEN_DLCI2 => modem_cellular_open_dlci2_event_handler config w data evt
    | .RUN_DIAL_SCRIPT => modem_cellular_run_dial_script_event_handler config w data evt
    | .REGISTER => modem_cellular_register_event_handler config w data evt
    | .CARRIER_ON => modem_cellular_carrier_on_event_handler config w data evt
    | .CARRIER_OFF => modem_cellular_carrier_off_event_handler config w data evt
    | .POWER_OFF => modem_cellular_power_off_event_handler config w data evt
  if state != data.state then modem_cellular_log_state_changed state data.state data
  else data

/-- `modem_cellular_event_dispatch_handler`: one drain pass of the worker.
`ring_buf_get` moves up to `sizeof(data->event_buf)` pending tags to the local
array `events`, the count is narrowed to `uint8_t`, the handler runs on
`events[0]`, ..., `events[events_cnt - 1]`, and a final `Suspend` is handled
when `suspend_atomic` is non-zero. -/
def modem_cellular_event_dispatch_handler (config : modem_cellular_config) (w : World)
    (data : modem_cellular_data) : modem_cellular_data :=
  let (cnt, events, rb) := ring_buf_get data.event_rb sizeof_event_buf
  let events_cnt := cnt % 256
  let data := { data with event_rb := rb }
  let data := (events.take events_cnt).foldl (modem_cellular_event_handler config w) data
  if data.suspend_atomic != 0 then modem_cellular_event_handler config w data .SUSPEND
  else data

/-- The actions of `enum pm_device_action` (declared by the power-management
subsystem, not by the driver). -/
inductive pm_device_action where
  | SUSPEND
  | RESUME
  | TURN_OFF
  | TURN_ON
  deriving DecidableEq, Repr

/-- `modem_cellular_pm_action`. -/
def modem_cellular_pm_action (w : World) (data : modem_cellular_data)
    (action : pm_device_action) : Int × modem_cellular_data :=
  match action with
  | .RESUME =>
    let data := { data with suspend_atomic := 0 }
    let data := modem_cellular_delegate_event w data .RESUME
    (0, data)
  | .SUSPEND =>
    let data := { data with suspend_atomic := 1 }
    call w (.k_sem_take (K_SECONDS 30)) data
  | _ => (-ENOTSUP, data)

/-- The statically allocated `struct modem_cellular_data` of
`MODEM_CELLULAR_DEVICE` before `modem_cellular_init`: every field the state
machine uses is zero, so the state is `MODEM_CELLULAR_STATE_IDLE`. -/
def modem_cellular_data_zero : modem_cellular_data :=
  { imei := List.replicate 15 0
    hwinfo := List.replicate 64 0
    access_tech := 0
    registration_status := 0
    packet_service_attached := 0
    state := .IDLE
    suspend_atomic := 0
    event_rb := { size := 0, items := [] }
    trace := []
    log := [] }

/-- `modem_cellular_init`.  `CONFIG_PM_DEVICE` is the build option of the
same name. -/
def modem_cellular_init (CONFIG_PM_DEVICE : Bool) (config : modem_cellular_config) (w : World)
    (data : modem_cellular_data) : Int × modem_cellular_data :=
  let data := (call w .k_work_init_delayable data).2
  let data := (call w .k_work_init data).2
  let data := { data with event_rb := ring_buf_init sizeof_event_buf }
  let data := { data with suspend_atomic := 0 }
  let data := (call w (.k_sem_init 0 1) data).2
  let data :=
    if modem_cellular_gpio_is_enabled config.power_gpio then
      (call w (.gpio_pin_configure_dt .power_gpio .GPIO_OUTPUT_INACTIVE) data).2
    else data
  let data :=
    if modem_cellular_gpio_is_enabled config.reset_gpio then
      (call w (.gpio_pin_configure_dt .reset_gpio .GPIO_OUTPUT_ACTIVE) data).2
    else data
  let data := (call w .modem_backend_uart_init data).2
  let data := (call w .modem_cmux_init data).2
  let data := (call w (.modem_cmux_dlci_init 1) data).2
  let data := (call w (.modem_cmux_dlci_init 2) data).2
  let data := (call w .modem_chat_init data).2
  let data :=
    if CONFIG_PM_DEVICE then (call w .pm_device_init_suspended data).2
    else modem_cellular_delegate_event w data .RESUME
  (0, data)

/-! ## Chat callbacks for the status poll -/

/-- The C library function `atoi` on the digits part: accumulate decimal
digits until the first character that is not one. -/
def atoi_digits (acc : Int) : List Char → Int
  | [] => acc
  | c :: cs =>
    if 48 ≤ c.toNat ∧ c.toNat ≤ 57 then atoi_digits (acc * 10 + ((c.toNat : Int) - 48)) cs
    else acc

/-- The C library function `atoi` (not part of the driver source): skip
leading white space, read an optional sign, then decimal digits.  The result
is the mathematical integer (C leaves overflow undefined). -/
def atoi (s : String) : Int :=
  let cs := s.toList.dropWhile (fun c => c.toNat = 32 ∨ (9 ≤ c.toNat ∧ c.toNat ≤ 13))
  match cs with
  | [] => 0
  | c :: rest =>
    if c.toNat = 45 then - atoi_digits 0 rest
    else if c.toNat = 43 then atoi_digits 0 rest
    else atoi_digits 0 cs

/-- Conversion of an `int` to `uint8_t`. -/
def to_uint8 (v : Int) : Nat := (v % 256).toNat

/-- `modem_cellular_chat_on_creg`: the callback of `creg_match`
(`"+CREG: "`, separator `","`).  `argv[0]` is what the chat engine matched,
`argv[1]`, `argv[2]` are the comma-separated fields after it. -/
def modem_cellular_chat_on_creg (data : modem_cellular_data) (argv : List String)
    (argc : Nat) : modem_cellular_data :=
  if argc != 3 then data
  else
    let data := { data with access_tech := to_uint8 (atoi (argv.getD 1 "")) }
    { data with registration_status := to_uint8 (atoi (argv.getD 2 "")) }

/-- `modem_cellular_chat_on_cgatt`: the callback of `cgatt_match`
(`"+CGATT: "`, separator `","`). -/
def modem_cellular_chat_on_cgatt (data : modem_cellular_data) (argv : List String)
    (argc : Nat) : modem_cellular_data :=
  if argc != 2 then data
  else { data with packet_service_attached := to_uint8 (atoi (argv.getD 1 "")) }

/-! ## Running the machine -/

/-- Handle a list of events one after the other. -/
def run (config : modem_cellular_config) (w : World) (data : modem_cellular_data)
    (evts : List modem_cellular_event) : modem_cellular_data :=
  evts.foldl (modem_cellular_event_handler config w) data

/-- The lifecycle states the machine is in before the first event and after
each event of a list. -/
def run_states (config : modem_cellular_config) (w : World) (data : modem_cellular_data) :
    List modem_cellular_event → List modem_cellular_state
  | [] => [data.state]
  | e :: es => data.state :: run_states config w (modem_cellular_event_handler config w data e) es

/-- The effect of one call on the logical level of the GPIO line `g`:
`gpio_pin_configure_dt` leaves the line active or inactive, `gpio_pin_set_dt`
with a non-zero value leaves it active, with zero inactive; every other call
leaves the level as it is. -/
def gpio_level_step (g : gpio_line) (lvl : Int) (c : Call) : Int :=
  match c with
  | .gpio_pin_configure_dt g1 flags =>
    if g1 = g then (if flags = .GPIO_OUTPUT_ACTIVE then 1 else 0) else lvl
  | .gpio_pin_set_dt g1 value => if g1 = g then (if value != 0 then 1 else 0) else lvl
  | _ => lvl

/-- The logical level of a GPIO line after a history of calls, for a line
that holds what was last written to it (0 before the first write). -/
def gpio_level (g : gpio_line) (history : List Call) : Int :=
  history.foldl (gpio_level_step g) 0

/-- The world in which every collaborator call succeeds: every call returns
0, and reading a GPIO line returns the level last written to it. -/
def ideal_world : World := fun history c =>
  match c with
  | .gpio_pin_get_dt g => gpio_level g history
  | _ => 0

/-- The transition graph as the specification documents it: the states a
state may be left for.  This definition follows the specification's words; it
is what the handlers of the source are compared with. -/
def documented_successors : modem_cellular_state → List modem_cellular_state
  | .IDLE => [.POWER_ON, .RUN_INIT_SCRIPT]
  | .POWER_ON => [.RUN_INIT_SCRIPT]
  | .RUN_INIT_SCRIPT => [.CONNECT_CMUX, .POWER_ON, .RUN_INIT_SCRIPT]
  | .CONNECT_CMUX => [.OPEN_DLCI1]
  | .OPEN_DLCI1 => [.OPEN_DLCI2]
  | .OPEN_DLCI2 => [.RUN_DIAL_SCRIPT]
  | .RUN_DIAL_SCRIPT => [.REGISTER]
  | .REGISTER => [.CARRIER_ON, .POWER_OFF, .IDLE]
  | .CARRIER_ON => [.CARRIER_OFF, .RUN_DIAL_SCRIPT]
  | .CARRIER_OFF => [.POWER_OFF, .IDLE]
  | .POWER_OFF => [.IDLE]

/-- The world in which every call returns the same value `v`. -/
def constant_world (v : Int) : World := fun _ _ => v

/-- The events the handler was invoked with, in order, as recorded by the
log line `modem_cellular_log_event` writes at the start of every invocation
of `modem_cellular_event_handler`. -/
def handled_events (log : List LogMsg) : List modem_cellular_event :=
  log.filterMap (fun m => match m with
    | .event evt => some evt
    | _ => none)

/-- The result `r` differs from `data` in nothing but state, trace and log,
and the log of `r` records the same handled events as the log of `data`. -/
@[reducible] def Framed (data r : modem_cellular_data) : Prop :=
  r.imei = data.imei ∧ r.hwinfo = data.hwinfo ∧ r.access_tech = data.access_tech ∧
  r.registration_status = data.registration_status ∧
  r.packet_service_attached = data.packet_service_attached ∧
  r.suspend_atomic = data.suspend_atomic ∧ r.event_rb = data.event_rb ∧
  handled_events r.log = handled_events data.log

/-- A configuration with a power GPIO and no reset GPIO. -/
def config_power_only : modem_cellular_config :=
  { power_gpio := { port := some 0 }, reset_gpio := { port := none } }

/-- A configuration with neither a power GPIO nor a reset GPIO. -/
def config_no_gpio : modem_cellular_config :=
  { power_gpio := { port := none }, reset_gpio := { port := none } }

/-- The data of a modem instance right after `modem_cellular_init`, built
with `CONFIG_PM_DEVICE`, in the world where every call succeeds: state
`Idle`, empty event queue of capacity 8, suspend flag clear. -/
def initial_data (config : modem_cellular_config) : modem_cellular_data :=
  (modem_cellular_init true config ideal_world modem_cellular_data_zero).2

/-- Delegate a list of events one after the other, with no drain in between. -/
def delegate_all (w : World) (data : modem_cellular_data)
    (evts : List modem_cellular_event) : modem_cellular_data :=
  evts.foldl (modem_cellular_delegate_event w) data

/-- The freshly initialised instance after eight `Timeout` events were
delegated and none was drained: its event queue is full. -/
def full_queue_data : modem_cellular_data :=
  delegate_all ideal_world (initial_data config_power_only) (List.replicate 8 .TIMEOUT)

/-- Whether the PPP network interface has its carrier up after a history of
calls: what the last of `net_if_carrier_on` / `net_if_carrier_off` left (down
before the first of them). -/
def carrier_is_up (history : List Call) : Bool :=
  history.foldl
    (fun up c =>
      match c with
      | .net_if_carrier_on => true
      | .net_if_carrier_off => false
      | _ => up)
    false

/-- The first ten events of the cold bring-up scenario, up to the success of
the dial script. -/
def cold_bring_up_events : List modem_cellular_event :=
  [.RESUME, .TIMEOUT, .TIMEOUT, .SCRIPT_SUCCESS, .TIMEOUT, .CMUX_CONNECTED, .DLCI1_OPENED,
    .DLCI2_OPENED, .TIMEOUT, .SCRIPT_SUCCESS]

/-- The status poll of the cold bring-up scenario: the chat engine matches the
lines `+CREG: 0,5` and `+CGATT: 1` and invokes the two callbacks. -/
def poll_registered (data : modem_cellular_data) : modem_cellular_data :=
  modem_cellular_chat_on_cgatt
    (modem_cellular_chat_on_creg data ["+CREG: ", "0", "5"] 3) ["+CGATT: ", "1"] 2

/-- The cold bring-up scenario: the ten events of `cold_bring_up_events`, the
status poll reporting registration, and the `ScriptSuccess` of the poll. -/
def cold_bring_up (config : modem_cellular_config) (w : World) (data : modem_cellular_data) :
    modem_cellular_data :=
  modem_cellular_event_handler config w
    (poll_registered (run config w data cold_bring_up_events)) .SCRIPT_SUCCESS

/-- A modem instance brought up to `CarrierOn` from `modem_cellular_init` in
the world where every call succeeds. -/
def carrier_on_data (config : modem_cellular_config) : modem_cellular_data :=
  cold_bring_up config ideal_world (initial_data config)

/-- The status poll of the loss-of-registration scenario: the chat engine
matches the line `+CREG: 0,2` and invokes the callback. -/
def poll_not_registered (data : modem_cellular_data) : modem_cellular_data :=
  modem_cellular_chat_on_creg data ["+CREG: ", "0", "2"] 3

/-- The calls a scenario added to the trace of the data it started from. -/
def calls_since (start result : modem_cellular_data) : List Call :=
  result.trace.drop start.trace.length

/-- A modem instance brought up to `Register` from `modem_cellular_init` in
the world where every call succeeds. -/
def register_data (config : modem_cellular_config) : modem_cellular_data :=
  run config ideal_world (initial_data config) cold_bring_up_events

/-- The calls of a list that act on a collaborator: all but the reads of a
GPIO line. -/
def effects (calls : List Call) : List Call :=
  calls.filter (fun c =>
    match c with
    | .gpio_pin_get_dt _ => false
    | _ => true)

/-- The lifecycle states of the cold bring-up scenario: before the first
event, after each of the ten events, and after the last `ScriptSuccess`. -/
def cold_bring_up_states (config : modem_cellular_config) (w : World)
    (data : modem_cellular_data) : List modem_cellular_state :=
  run_states config w data cold_bring_up_events ++ [(cold_bring_up config w data).state]

/-- A modem instance brought up to `ConnectCmux` from `modem_cellular_init` in
the world where every call succeeds. -/
def connect_cmux_data (config : modem_cellular_config) : modem_cellular_data :=
  run config ideal_world (initial_data config) [.RESUME, .TIMEOUT, .TIMEOUT, .SCRIPT_SUCCESS]

/-- A modem instance brought up to `RunDial` from `modem_cellular_init` in the
world where every call succeeds. -/
def run_dial_data (config : modem_cellular_config) : modem_cellular_data :=
  run config ideal_world (initial_data config)
    [.RESUME, .TIMEOUT, .TIMEOUT, .SCRIPT_SUCCESS, .TIMEOUT, .CMUX_CONNECTED, .DLCI1_OPENED,
      .DLCI2_OPENED]

/-- The events of `n` failed dial attempts: `n` times a `ScriptFailed`
followed by the `Timeout` of the retry timer. -/
def dial_retry_events (n : Nat) : List modem_cellular_event :=
  (List.replicate n [.SCRIPT_FAILED, .TIMEOUT]).flatten

/-! ## The IMEI callback -/

/-- The bytes of a string of single-byte characters, as a C string holds them
before its terminating NUL. -/
def c_str (s : String) : List Nat :=
  s.toList.map Char.toNat

/-- `modem_cellular_chat_on_imei`: the callback of `imei_match` (empty prefix,
empty separator, so it matches any line and `argv[1]` is the whole line).
An argument string is the list of its bytes; `strlen` is the length of that
list.  The loop assigns `imei[i] = argv[1][i] - '0'` for every `i < 15`, so
the new array is the list of these 15 values, each narrowed to `uint8_t`. -/
def modem_cellular_chat_on_imei (data : modem_cellular_data) (argv : List (List Nat))
    (argc : Nat) : modem_cellular_data :=
  if argc != 2 then data
  else if (argv.getD 1 []).length != 15 then data
  else
    { data with
      imei := (List.range 15).map (fun i => to_uint8 (((argv.getD 1 []).getD i 0 : Int) - 48)) }

/-! ## The hardware model callback -/

/-- `sizeof(data->hwinfo)`: the buffer is `uint8_t hwinfo[64]`. -/
def sizeof_hwinfo : Nat := 64

/-- The C library function `strncpy` (not part of the driver source), for a
destination array `dest` of at least `n` bytes and a source string given by
its bytes before the terminating NUL: the first `n` bytes of `dest` become the
bytes of `src`, cut after `n` bytes or padded with NUL bytes up to `n`; the
bytes of `dest` from index `n` on stay as they are. -/
def strncpy (dest src : List Nat) (n : Nat) : List Nat :=
  src.take n ++ List.replicate (n - src.length) 0 ++ dest.drop n

/-- `modem_cellular_chat_on_cgmm`: the callback of `cgmm_match` (empty prefix,
empty separator, so it matches any line and `argv[1]` is the whole line):
`strncpy(data->hwinfo, argv[1], sizeof(data->hwinfo) - 1)` when `argc` is 2. -/
def modem_cellular_chat_on_cgmm (data : modem_cellular_data) (argv : List (List Nat))
    (argc : Nat) : modem_cellular_data :=
  if argc != 2 then data
  else { data with hwinfo := strncpy data.hwinfo (argv.getD 1 []) (sizeof_hwinfo - 1) }

/-- One activation of the worker: the events of `batch` are delegated, then
`modem_cellular_event_dispatch_handler` runs one drain pass. -/
def drain_pass (config : modem_cellular_config) (w : World) (data : modem_cellular_data)
    (batch : List modem_cellular_event) : modem_cellular_data :=
  modem_cellular_event_dispatch_handler config w (delegate_all w data batch)

/-- A sequence of activations of the worker, one drain pass per batch of
delegated events. -/
def drain_passes (config : modem_cellular_config) (w : World) (data : modem_cellular_data)
    (batches : List (List modem_cellular_event)) : modem_cellular_data :=
  batches.foldl (drain_pass config w) data

/-- A suspend request made to the instance brought up to `CarrierOn`:
`modem_cellular_pm_action` with `PM_DEVICE_ACTION_SUSPEND` has set the flag. -/
def suspend_requested_data (config : modem_cellular_config) : modem_cellular_data :=
  (modem_cellular_pm_action ideal_world (carrier_on_data config) .SUSPEND).2

/-! ## Attachments of the protocol stacks to the pipes -/

/-- Modelled from the spec: which consumer is attached to which pipe.  The
chat, CMUX and PPP components are not part of the driver source; the spec
gives them the operations `attach(pipe)` ("bind to a Pipe") and `release()`
("detach from Pipe"), and gives a pipe `attach(callback, user_ctx)` and
`release`.  A consumer is attached to a pipe from its attach call until its
release call: `chat`, `cmux` and `ppp` hold the pipe the component is attached
to, `handlers` the pipes the driver's own pipe handler is attached to. -/
structure Attachments where
  chat : Option modem_pipe
  cmux : Option modem_pipe
  ppp : Option modem_pipe
  handlers : List modem_pipe
  deriving DecidableEq, Repr

/-- Modelled from the spec: the effect of one call on the attachments, for a
call that succeeds.  An attach call binds the consumer to the pipe, a release
call detaches it; every other call leaves the attachments as they are. -/
def attach_step (a : Attachments) (c : Call) : Attachments :=
  match c with
  | .modem_chat_attach p => { a with chat := some p }
  | .modem_chat_release => { a with chat := none }
  | .modem_cmux_attach p => { a with cmux := some p }
  | .modem_cmux_release => { a with cmux := none }
  | .modem_ppp_attach p => { a with ppp := some p }
  | .modem_ppp_release => { a with ppp := none }
  | .modem_pipe_attach p => { a with handlers := p :: a.handlers.erase p }
  | .modem_pipe_release p => { a with handlers := a.handlers.erase p }
  | _ => a

/-- Modelled from the spec: the attachments after a history of calls, as the
attach and release calls made so far establish them (an attach call is taken
to succeed); nothing is attached before the first call. -/
def attachments (history : List Call) : Attachments :=
  history.foldl attach_step { chat := none, cmux := none, ppp := none, handlers := [] }

/-- The number of consumers attached to a pipe. -/
def consumers (a : Attachments) (p : modem_pipe) : Nat :=
  (if a.chat = some p then 1 else 0) + (if a.cmux = some p then 1 else 0) +
    (if a.ppp = some p then 1 else 0) + (if p ∈ a.handlers then 1 else 0)

/-- A configuration with a reset GPIO and no power GPIO. -/
def config_reset_only : modem_cellular_config :=
  { power_gpio := { port := none }, reset_gpio := { port := some 0 } }

/-- What the worker and the chat engine do to a modem instance, one step at a
time: an event is handled, or the chat engine invokes one of the callbacks of
the chat matches with the arguments of a response line. -/
inductive Input where
  | event (evt : modem_cellular_event)
  | chat_on_imei (argv : List (List Nat)) (argc : Nat)
  | chat_on_cgmm (argv : List (List Nat)) (argc : Nat)
  | chat_on_creg (argv : List String) (argc : Nat)
  | chat_on_cgatt (argv : List String) (argc : Nat)

/-- One step of a modem instance. -/
def step (config : modem_cellular_config) (w : World) (data : modem_cellular_data) :
    Input → modem_cellular_data
  | .event evt => modem_cellular_event_handler config w data evt
  | .chat_on_imei argv argc => modem_cellular_chat_on_imei data argv argc
  | .chat_on_cgmm argv argc => modem_cellular_chat_on_cgmm data argv argc
  | .chat_on_creg argv argc => modem_cellular_chat_on_creg data argv argc
  | .chat_on_cgatt argv argc => modem_cellular_chat_on_cgatt data argv argc

/-- The modem instance reached from `data` by a sequence of steps. -/
def reach (config : modem_cellular_config) (w : World) (data : modem_cellular_data)
    (inputs : List Input) : modem_cellular_data :=
  inputs.foldl (step config w) data

/-- The events that bring a modem instance up to `Register`, suspend it there
and resume it. -/
def suspend_in_register_events : List modem_cellular_event :=
  cold_bring_up_events ++ [.SUSPEND, .RESUME]

/-- The events that bring a modem instance with a power GPIO up to `Register`,
suspend it there (two `Timeout` events take it through `PowerOff` to `Idle`)
and bring it up again to `RunDial`. -/
def redial_after_suspend_events : List modem_cellular_event :=
  cold_bring_up_events ++
    [.SUSPEND, .TIMEOUT, .TIMEOUT, .RESUME, .TIMEOUT, .TIMEOUT, .SCRIPT_SUCCESS,
      .CMUX_CONNECTED, .DLCI1_OPENED, .DLCI2_OPENED]

/-- The modem data after a sequence of invocations of
`modem_cellular_chat_on_imei`, each given by its `argv` and `argc`. -/
def imei_calls (data : modem_cellular_data) (calls : List (List (List Nat) × Nat)) :
    modem_cellular_data :=
  calls.foldl (fun d c => modem_cellular_chat_on_imei d c.1 c.2) data

/-- An invocation of `modem_cellular_chat_on_imei` that the callback rejects
(`argc ≠ 2` or `argv[1]` not 15 bytes long) or whose `argv[1]` consists of
decimal digit characters. -/
def rejected_or_digits (c : List (List Nat) × Nat) : Prop :=
  c.2 = 2 → (c.1.getD 1 []).length = 15 → ∀ b ∈ c.1.getD 1 [], 48 ≤ b ∧ b ≤ 57

/-- The events that bring a modem instance without GPIOs up to `Register`,
suspend it there (the machine goes straight to `Idle`) and bring it up again
to `RunDial`. -/
def redial_after_suspend_no_gpio_events : List modem_cellular_event :=
  cold_bring_up_events ++
    [.SUSPEND, .RESUME, .SCRIPT_SUCCESS, .CMUX_CONNECTED, .DLCI1_OPENED, .DLCI2_OPENED]

/-! ## The outcomes of a step -/

/-- The calls of the `on_leave` hook of a state, in program order (read off
`modem_cellular_on_state_leave`; they do not depend on what the calls
return). -/
def leave_calls : modem_cellular_state → List Call
  | .IDLE => [.modem_pipe_open .uart_pipe]
  | .RUN_INIT_SCRIPT => [.modem_chat_release]
  | .OPEN_DLCI1 => [.modem_pipe_release .dlci1_pipe]
  | .OPEN_DLCI2 => [.modem_pipe_release .dlci2_pipe]
  | .RUN_DIAL_SCRIPT => [.modem_chat_release, .modem_ppp_attach .dlci2_pipe]
  | .REGISTER => [.k_work_cancel_delayable, .modem_chat_release]
  | .CARRIER_ON =>
    [.k_work_cancel_delayable, .modem_chat_script_abort, .modem_chat_release, .modem_ppp_release]
  | .POWER_OFF => [.k_sem_give]
  | _ => []

/-- The calls of the `on_enter` hook of a state when no call fails, in
program order (read off `modem_cellular_on_state_enter`); `power` tells
whether the power GPIO is configured. -/
def enter_calls (power : Bool) : modem_cellular_state → List Call
  | .POWER_ON =>
    if power then [.gpio_pin_set_dt .power_gpio 1, .k_work_schedule 1500]
    else [.gpio_pin_set_dt .reset_gpio 1, .k_work_schedule 100]
  | .RUN_INIT_SCRIPT => [.modem_chat_attach .uart_pipe, .modem_chat_script_run .init_chat_script]
  | .CONNECT_CMUX => [.modem_cmux_attach .uart_pipe, .k_work_schedule 500]
  | .OPEN_DLCI1 => [.modem_pipe_attach .dlci1_pipe, .modem_pipe_open_async .dlci1_pipe]
  | .OPEN_DLCI2 => [.modem_pipe_attach .dlci2_pipe, .modem_pipe_open_async .dlci2_pipe]
  | .RUN_DIAL_SCRIPT => [.modem_chat_attach .dlci2_pipe, .k_work_schedule 500]
  | .REGISTER =>
    [.modem_chat_attach .dlci1_pipe, .k_work_schedule 2000,
      .modem_chat_script_run .net_stat_chat_script]
  | .CARRIER_ON =>
    [.net_if_carrier_on, .modem_chat_attach .dlci1_pipe,
      .modem_chat_script_run .net_stat_chat_script, .k_work_schedule 4000]
  | .CARRIER_OFF => [.net_if_carrier_off, .k_work_schedule 1000]
  | .POWER_OFF =>
    [.modem_cmux_release, .modem_pipe_close .uart_pipe, .gpio_pin_set_dt .power_gpio 1,
      .k_work_schedule 1500]
  | .IDLE => []

/-- The call lists the `on_enter` hook of a state can make: all of
`enter_calls`, or, in the four states whose hook returns early when its attach
call fails, the attach call alone. -/
def enter_outcomes (power : Bool) (s : modem_cellular_state) : List (List Call) :=
  match s with
  | .RUN_INIT_SCRIPT | .CONNECT_CMUX | .RUN_DIAL_SCRIPT | .REGISTER =>
    [enter_calls power s, (enter_calls power s).take 1]
  | _ => [enter_calls power s]

/-- What the event handler of a state does with an event before a possible
call of `modem_cellular_enter_state`: the alternatives the handler has, each
with the calls it makes itself and the state it asks to enter, if any (read
off the eleven `modem_cellular_*_event_handler` functions; `power` and `reset`
tell whether the GPIOs are configured, `imei` is `data->imei`). -/
def handler_branches (power reset : Bool) (imei : List Nat) :
    modem_cellular_state → modem_cellular_event → List (List Call × Option modem_cellular_state)
  | .IDLE, .RESUME => [([], some (if power || reset then .POWER_ON else .RUN_INIT_SCRIPT))]
  | .POWER_ON, .TIMEOUT =>
    (if power then
      [([.gpio_pin_get_dt .power_gpio, .gpio_pin_set_dt .power_gpio 0, .k_work_schedule 10000],
        none)]
    else []) ++
    (if reset then
      [((if power then [.gpio_pin_get_dt .power_gpio] else []) ++
          [.gpio_pin_get_dt .reset_gpio, .gpio_pin_set_dt .reset_gpio 0, .k_work_schedule 10000],
        none),
       ((if power then [.gpio_pin_get_dt .power_gpio] else []) ++ [.gpio_pin_get_dt .reset_gpio],
        some .RUN_INIT_SCRIPT)]
    else [((if power then [.gpio_pin_get_dt .power_gpio] else []), some .RUN_INIT_SCRIPT)])
  | .RUN_INIT_SCRIPT, .SCRIPT_SUCCESS => [([.net_if_set_link_addr imei], some .CONNECT_CMUX)]
  | .RUN_INIT_SCRIPT, .SCRIPT_FAILED =>
    [([], some (if power then .POWER_ON else .RUN_INIT_SCRIPT))]
  | .CONNECT_CMUX, .TIMEOUT => [([.modem_cmux_connect_async], none)]
  | .CONNECT_CMUX, .CMUX_CONNECTED => [([], some .OPEN_DLCI1)]
  | .OPEN_DLCI1, .DLCI1_OPENED => [([], some .OPEN_DLCI2)]
  | .OPEN_DLCI2, .DLCI2_OPENED => [([], some .RUN_DIAL_SCRIPT)]
  | .RUN_DIAL_SCRIPT, .TIMEOUT => [([.modem_chat_script_run .connect_chat_script], none)]
  | .RUN_DIAL_SCRIPT, .SCRIPT_FAILED => [([.k_work_schedule 500], none)]
  | .RUN_DIAL_SCRIPT, .SCRIPT_SUCCESS => [([], some .REGISTER)]
  | .REGISTER, .SUSPEND => [([], some (if power then .POWER_OFF else .IDLE))]
  | .REGISTER, .SCRIPT_SUCCESS => [([], some .CARRIER_ON), ([], none)]
  | .REGISTER, .TIMEOUT =>
    [([.k_work_schedule 2000, .modem_chat_script_run .net_stat_chat_script], none)]
  | .CARRIER_ON, .SUSPEND => [([], some .CARRIER_OFF)]
  | .CARRIER_ON, .SCRIPT_SUCCESS => [([], some .RUN_DIAL_SCRIPT), ([], none)]
  | .CARRIER_ON, .TIMEOUT =>
    [([.modem_chat_script_run .net_stat_chat_script, .k_work_schedule 4000], none)]
  | .CARRIER_OFF, .TIMEOUT =>
    if power then [([], some .POWER_OFF)]
    else [((if reset then [.gpio_pin_set_dt .reset_gpio 1] else []), some .IDLE)]
  | .POWER_OFF, .TIMEOUT =>
    [([.gpio_pin_get_dt .power_gpio, .gpio_pin_set_dt .power_gpio 0, .k_work_schedule 10000],
      none),
     ([.gpio_pin_get_dt .power_gpio], some .IDLE)]
  | _, _ => [([], none)]

/-- The outcomes of `modem_cellular_enter_state` called in state `s` with
target `t`: the state afterwards and the calls made.  The transition is
aborted after the `on_leave` hook only in `Idle` and `RunDial` (the two hooks
that can return a negative value); otherwise the `on_leave` calls are followed
by one of the call lists of the `on_enter` hook of the target. -/
def transition_outcomes (power : Bool) (s t : modem_cellular_state) :
    List (modem_cellular_state × List Call) :=
  (match s with
    | .IDLE | .RUN_DIAL_SCRIPT => [(s, leave_calls s)]
    | _ => []) ++
  (enter_outcomes power t).map (fun cs => (t, leave_calls s ++ cs))

/-- The outcomes of `modem_cellular_event_handler` in state `s` for event
`evt`: the state afterwards and the calls made, for every alternative of the
handler and of `modem_cellular_enter_state`. -/
def outcomes (power reset : Bool) (imei : List Nat) (s : modem_cellular_state)
    (evt : modem_cellular_event) : List (modem_cellular_state × List Call) :=
  (handler_branches power reset imei s evt).flatMap (fun b =>
    match b.2 with
    | none => [(s, b.1)]
    | some t => (transition_outcomes power s t).map (fun o => (o.1, b.1 ++ o.2)))

/-- What a run of `modem_cellular_event_handler` amounts to for one of the
alternatives of `handler_branches`: the handler made the calls of the
alternative and kept the state, or made them and called
`modem_cellular_enter_state` with the target of the alternative. -/
def branch_taken (config : modem_cellular_config) (w : World) (data : modem_cellular_data)
    (evt : modem_cellular_event) (b : List Call × Option modem_cellular_state) : Prop :=
  match b.2 with
  | none =>
    (modem_cellular_event_handler config w data evt).state = data.state ∧
    (modem_cellular_event_handler config w data evt).trace = data.trace ++ b.1
  | some t =>
    (modem_cellular_event_handler config w data evt).state =
      (modem_cellular_enter_state config w
        { modem_cellular_log_event evt data with trace := data.trace ++ b.1 } t).state ∧
    (modem_cellular_event_handler config w data evt).trace =
      (modem_cellular_enter_state config w
        { modem_cellular_log_event evt data with trace := data.trace ++ b.1 } t).trace

/-! ## The timer -/

/-- The states that document a `Timeout` transition. -/
def timer_states : List modem_cellular_state :=
  [.POWER_ON, .CONNECT_CMUX, .RUN_DIAL_SCRIPT, .REGISTER, .CARRIER_ON, .CARRIER_OFF, .POWER_OFF]

/-- Whether a call is `k_work_schedule`, the call that arms the timer. -/
def is_schedule : Call → Bool
  | .k_work_schedule _ => true
  | _ => false

/-- The timer discipline of one outcome of the event handler in state `s`:
the timer is armed only if the outcome ends in one of `timer_states`; the
timer is cancelled exactly when `Register` or `CarrierOn` is left; and when it
is cancelled, the cancel is the first call of the step and the only cancel. -/
def timer_check (s : modem_cellular_state) (o : modem_cellular_state × List Call) : Bool :=
  decide
    ((o.2.any is_schedule = true → o.1 ∈ timer_states) ∧
      (Call.k_work_cancel_delayable ∈ o.2 ↔ (s = .REGISTER ∨ s = .CARRIER_ON) ∧ o.1 ≠ s) ∧
      (Call.k_work_cancel_delayable ∈ o.2 →
        o.2.head? = some .k_work_cancel_delayable ∧ o.2.count .k_work_cancel_delayable = 1))

/-- Modelled from the spec: the effect of one call on the timer ("one
delayable timer that emits `Timeout`"; the kernel's delayable work is not part
of the driver source).  `k_work_schedule` arms the timer,
`k_work_cancel_delayable` cancels it, every other call leaves it as it is. -/
def timer_step (armed : Bool) (c : Call) : Bool :=
  match c with
  | .k_work_schedule _ => true
  | .k_work_cancel_delayable => false
  | _ => armed

/-- Modelled from the spec: a modem instance together with the condition of
its timer, after a list of events is handled.  A `Timeout` event is the expiry
of the timer (`modem_cellular_timeout_handler` is its only producer), so the
timer counts as not armed when the handler of a `Timeout` starts; the calls of
the handler then arm or cancel it. -/
def timed_run (config : modem_cellular_config) (w : World) :
    modem_cellular_data × Bool → List modem_cellular_event → modem_cellular_data × Bool
  | s, [] => s
  | s, evt :: evts =>
    timed_run config w
      (modem_cellular_event_handler config w s.1 evt,
        (calls_since s.1 (modem_cellular_event_handler config w s.1 evt)).foldl timer_step
          (if evt = .TIMEOUT then false else s.2))
      evts

/-- A modem instance without GPIOs brought to `RunDial` while the `CmuxConnected`
event arrives before the 500 ms timer of `ConnectCmux` has expired. -/
def run_dial_data_early : modem_cellular_data :=
  run config_no_gpio ideal_world (initial_data config_no_gpio)
    [.RESUME, .SCRIPT_SUCCESS, .CMUX_CONNECTED, .DLCI1_OPENED, .DLCI2_OPENED]

/-! ## Attach failures -/

/-- The errno value `EBUSY` of the C library headers (not part of the driver source). -/
def EBUSY : Int := 16

/-- The attach call the `on_enter` hook of a state starts with, for the four
states whose hook returns `-EAGAIN` when that call returns a negative value. -/
def enter_attach_call : modem_cellular_state → Option Call
  | .RUN_INIT_SCRIPT => some (.modem_chat_attach .uart_pipe)
  | .CONNECT_CMUX => some (.modem_cmux_attach .uart_pipe)
  | .RUN_DIAL_SCRIPT => some (.modem_chat_attach .dlci2_pipe)
  | .REGISTER => some (.modem_chat_attach .dlci1_pipe)
  | _ => none

/-- The world in which every attach of the chat or of CMUX fails with
`-EBUSY` and every other call behaves as in `ideal_world`. -/
def busy_world : World := fun history c =>
  match c with
  | .modem_chat_attach _ => -EBUSY
  | .modem_cmux_attach _ => -EBUSY
  | _ => ideal_world history c

/-! ## Response lines -/

/-- The number a string of decimal digits denotes. -/
def decimal_value (s : String) : Nat :=
  s.toList.foldl (fun acc c => acc * 10 + (c.toNat - 48)) 0

/-- Every character of the string is a decimal digit. -/
@[reducible] def is_decimal (s : String) : Prop :=
  ∀ c ∈ s.toList, 48 ≤ c.toNat ∧ c.toNat ≤ 57

/-- Modelled from the spec: the arguments the chat engine (not part of the
driver source) passes to the callback of a match for a response line that
begins with the text of the match.  The engine "splits on separator (if
non-empty), and invokes the callback with argv/argc": `argv[0]` is the matched
text `pfx`, `argv[1]`, `argv[2]`, ... are the fields of the rest of the line
between the separators, and `argc` is the length of the list. -/
def chat_args (pfx : String) (sep : Char) (line : String) : List String :=
  pfx :: ((line.toList.drop pfx.length).splitOn sep).map String.mk

/-- The modem data after a sequence of invocations of
`modem_cellular_chat_on_cgmm`, each given by its `argv` and `argc`. -/
def cgmm_calls (data : modem_cellular_data) (calls : List (List (List Nat) × Nat)) :
    modem_cellular_data :=
  calls.foldl (fun d c => modem_cellular_chat_on_cgmm d c.1 c.2) data

/-! ## Chat matches and scripts -/

/-- The callbacks the chat matches of the driver name. -/
inductive chat_callback where
  | modem_cellular_chat_on_imei
  | modem_cellular_chat_on_cgmm
  | modem_cellular_chat_on_creg
  | modem_cellular_chat_on_cgatt
  deriving DecidableEq, Repr

/-- A chat match as `MODEM_CHAT_MATCH_DEFINE(sym, match, separators, callback)`
and `MODEM_CHAT_MATCH(match, separators, callback)` give it: the text a
response line has to begin with (`match_` for the C field `match`), the
separators the rest of the line is split on, and the callback (`none` for
`NULL`). -/
structure modem_chat_match where
  match_ : String
  separators : String
  callback : Option chat_callback
  deriving DecidableEq, Repr

/-- `MODEM_CHAT_MATCH_DEFINE(ok_match, "OK", "", NULL)`. -/
def ok_match : modem_chat_match :=
  { match_ := "OK", separators := "", callback := none }

/-- `MODEM_CHAT_MATCH_DEFINE(imei_match, "", "", modem_cellular_chat_on_imei)`. -/
def imei_match : modem_chat_match :=
  { match_ := "", separators := "", callback := some .modem_cellular_chat_on_imei }

/-- `MODEM_CHAT_MATCH_DEFINE(cgmm_match, "", "", modem_cellular_chat_on_cgmm)`. -/
def cgmm_match : modem_chat_match :=
  { match_ := "", separators := "", callback := some .modem_cellular_chat_on_cgmm }

/-- `MODEM_CHAT_MATCH_DEFINE(creg_match, "+CREG: ", ",", modem_cellular_chat_on_creg)`. -/
def creg_match : modem_chat_match :=
  { match_ := "+CREG: ", separators := ",", callback := some .modem_cellular_chat_on_creg }

/-- `MODEM_CHAT_MATCH_DEFINE(cgatt_match, "+CGATT: ", ",", modem_cellular_chat_on_cgatt)`. -/
def cgatt_match : modem_chat_match :=
  { match_ := "+CGATT: ", separators := ",", callback := some .modem_cellular_chat_on_cgatt }

/-- `MODEM_CHAT_MATCHES_DEFINE(abort_matches, MODEM_CHAT_MATCH("ERROR", "", NULL))`. -/
def abort_matches : List modem_chat_match :=
  [{ match_ := "ERROR", separators := "", callback := none }]

/-- `MODEM_CHAT_MATCHES_DEFINE(connect_abort_matches, ...)`. -/
def connect_abort_matches : List modem_chat_match :=
  [{ match_ := "ERROR", separators := "", callback := none },
    { match_ := "BUSY", separators := "", callback := none },
    { match_ := "NO ANSWER", separators := "", callback := none },
    { match_ := "NO CARRIER", separators := "", callback := none },
    { match_ := "NO DIALTONE", separators := "", callback := none }]

/-- A script command, by the macro that defines it:
`MODEM_CHAT_SCRIPT_CMD_RESP(request, response_match)` sends the request and
waits for a line the match accepts;
`MODEM_CHAT_SCRIPT_CMD_RESP_NONE(request, timeout)` sends the request and
waits for no response, only for `timeout` milliseconds. -/
inductive modem_chat_script_cmd where
  | MODEM_CHAT_SCRIPT_CMD_RESP (request : String) (response_match : modem_chat_match)
  | MODEM_CHAT_SCRIPT_CMD_RESP_NONE (request : String) (timeout : Nat)
  deriving DecidableEq, Repr

/-- `MODEM_CHAT_SCRIPT_CMDS_DEFINE(init_chat_script_cmds, ...)`. -/
def init_chat_script_cmds : List modem_chat_script_cmd :=
  [.MODEM_CHAT_SCRIPT_CMD_RESP_NONE "AT" 100,
    .MODEM_CHAT_SCRIPT_CMD_RESP_NONE "AT" 100,
    .MODEM_CHAT_SCRIPT_CMD_RESP_NONE "AT" 100,
    .MODEM_CHAT_SCRIPT_CMD_RESP_NONE "AT" 100,
    .MODEM_CHAT_SCRIPT_CMD_RESP "ATE0" ok_match,
    .MODEM_CHAT_SCRIPT_CMD_RESP "AT+CMEE=1" ok_match,
    .MODEM_CHAT_SCRIPT_CMD_RESP "AT+CREG=0" ok_match,
    .MODEM_CHAT_SCRIPT_CMD_RESP "AT+CGSN" imei_match,
    .MODEM_CHAT_SCRIPT_CMD_RESP "" ok_match,
    .MODEM_CHAT_SCRIPT_CMD_RESP "AT+CGMM" cgmm_match,
    .MODEM_CHAT_SCRIPT_CMD_RESP "" ok_match,
    .MODEM_CHAT_SCRIPT_CMD_RESP_NONE "AT+CMUX=0,0,5,127,10,3,30,10,2" 100]

/-- `MODEM_CHAT_SCRIPT_CMDS_DEFINE(net_stat_chat_script_cmds, ...)`. -/
def net_stat_chat_script_cmds : List modem_chat_script_cmd :=
  [.MODEM_CHAT_SCRIPT_CMD_RESP "AT+CREG?" creg_match,
    .MODEM_CHAT_SCRIPT_CMD_RESP "" ok_match,
    .MODEM_CHAT_SCRIPT_CMD_RESP "AT+CGATT?" cgatt_match,
    .MODEM_CHAT_SCRIPT_CMD_RESP "" ok_match]

/-- `MODEM_CHAT_SCRIPT_CMDS_DEFINE(connect_chat_script_cmds, ...)`; the three
arguments are the build options `CONFIG_MODEM_CELLULAR_APN`,
`CONFIG_MODEM_CELLULAR_USERNAME` and `CONFIG_MODEM_CELLULAR_PASSWORD`. -/
def connect_chat_script_cmds (apn username password : String) : List modem_chat_script_cmd :=
  [.MODEM_CHAT_SCRIPT_CMD_RESP
      ("AT+CGDCONT=1,\"IP\"," ++ "\"" ++ apn ++ "\"," ++ "\"" ++ username ++ "\"," ++
        "\"" ++ password ++ "\"")
      ok_match,
    .MODEM_CHAT_SCRIPT_CMD_RESP_NONE "ATD*99#" 0]

/-- A chat script as `MODEM_CHAT_SCRIPT_DEFINE(sym, script_chats,
abort_matches, callback, timeout)` gives it: the commands, the abort matches
and the overall timeout in seconds.  The callback is
`modem_cellular_chat_callback_handler` in all three scripts and is left
out. -/
structure modem_chat_script where
  script_chats : List modem_chat_script_cmd
  abort_matches : List modem_chat_match
  timeout : Nat
  deriving DecidableEq, Repr

/-- `MODEM_CHAT_SCRIPT_DEFINE(init_chat_script, init_chat_script_cmds,
abort_matches, modem_cellular_chat_callback_handler, 10)`. -/
def init_chat_script : modem_chat_script :=
  { script_chats := init_chat_script_cmds, abort_matches := abort_matches, timeout := 10 }

/-- `MODEM_CHAT_SCRIPT_DEFINE(net_stat_chat_script, ...)`. -/
def net_stat_chat_script : modem_chat_script :=
  { script_chats := net_stat_chat_script_cmds, abort_matches := abort_matches, timeout := 10 }

/-- `MODEM_CHAT_SCRIPT_DEFINE(connect_chat_script, ...)`. -/
def connect_chat_script (apn username password : String) : modem_chat_script :=
  { script_chats := connect_chat_script_cmds apn username password
    abort_matches := connect_abort_matches
    timeout := 10 }

/-- What a script command waits for, in the words of the specification. -/
inductive Expectation where
  | no_response (dead_time_ms : Nat)
  | ok
  | imei_line
  | model_line
  | other (m : modem_chat_match)
  deriving DecidableEq, Repr

/-- The init sequence as the specification documents it: the requests in
order, each with what it waits for.  This definition follows the
specification's words; it is what `init_chat_script` of the source is compared
with. -/
def documented_init_sequence : List (String × Expectation) :=
  [("AT", .no_response 100), ("AT", .no_response 100), ("AT", .no_response 100),
    ("AT", .no_response 100),
    ("ATE0", .ok), ("AT+CMEE=1", .ok), ("AT+CREG=0", .ok),
    ("AT+CGSN", .imei_line), ("", .ok),
    ("AT+CGMM", .model_line), ("", .ok),
    ("AT+CMUX=0,0,5,127,10,3,30,10,2", .no_response 100)]

/-- What a match of the source waits for: `OK` for a line that begins with
`OK` and has no callback; the IMEI line for the match whose callback is
`modem_cellular_chat_on_imei`; the model line for the match whose callback is
`modem_cellular_chat_on_cgmm`. -/
def match_expectation (m : modem_chat_match) : Expectation :=
  if m.match_ = "OK" ∧ m.callback = none then .ok
  else if m.callback = some .modem_cellular_chat_on_imei then .imei_line
  else if m.callback = some .modem_cellular_chat_on_cgmm then .model_line
  else .other m

/-- The request of a script command of the source and what the command waits
for. -/
def cmd_expectation : modem_chat_script_cmd → String × Expectation
  | .MODEM_CHAT_SCRIPT_CMD_RESP request response_match =>
    (request, match_expectation response_match)
  | .MODEM_CHAT_SCRIPT_CMD_RESP_NONE request timeout => (request, .no_response timeout)

/-- The script a call `modem_chat_script_run(&data->chat, &script)` names. -/
def script_of (apn username password : String) : chat_script → modem_chat_script
  | .init_chat_script => init_chat_script
  | .net_stat_chat_script => net_stat_chat_script
  | .connect_chat_script => connect_chat_script apn username password

/-! ## GPIO lines -/

/-- The `struct gpio_dt_spec` of a GPIO line in the configuration. -/
def gpio_spec (config : modem_cellular_config) : gpio_line → gpio_dt_spec
  | .power_gpio => config.power_gpio
  | .reset_gpio => config.reset_gpio

/-- Whether a call leaves unconfigured GPIO lines alone: a call that
configures, sets or reads a GPIO line passes when the line is configured
(`power`, `reset` tell which lines are), every other call passes. -/
def gpio_call_ok (power reset : Bool) : Call → Bool
  | .gpio_pin_configure_dt .power_gpio _ => power
  | .gpio_pin_configure_dt .reset_gpio _ => reset
  | .gpio_pin_set_dt .power_gpio _ => power
  | .gpio_pin_set_dt .reset_gpio _ => reset
  | .gpio_pin_get_dt .power_gpio => power
  | .gpio_pin_get_dt .reset_gpio => reset
  | _ => true

/-- What the state says about the configuration: `PowerOff` is only entered
when a power GPIO is configured, `PowerOn` only when a power GPIO or a reset
GPIO is. -/
def gpio_state_ok (power reset : Bool) : modem_cellular_state → Bool
  | .POWER_OFF => power
  | .POWER_ON => power || reset
  | _ => true

/-- The GPIO discipline of one outcome of the event handler in state `s`: if
`s` agrees with the configuration, so does the state of the outcome, and every
call of the outcome leaves unconfigured lines alone. -/
def gpio_check (power reset : Bool) (s : modem_cellular_state)
    (o : modem_cellular_state × List Call) : Bool :=
  !gpio_state_ok power reset s ||
    (gpio_state_ok power reset o.1 && o.2.all (gpio_call_ok power reset))

/-- The invariant of the GPIO discipline: the state agrees with the
configuration and every call made so far leaves unconfigured lines alone. -/
def gpio_inv (config : modem_cellular_config) (data : modem_cellular_data) : Prop :=
  gpio_state_ok (modem_cellular_gpio_is_enabled config.power_gpio)
      (modem_cellular_gpio_is_enabled config.reset_gpio) data.state = true ∧
  data.trace.all (gpio_call_ok (modem_cellular_gpio_is_enabled config.power_gpio)
      (modem_cellular_gpio_is_enabled config.reset_gpio)) = true

/-- A configuration with both a power GPIO and a reset GPIO. -/
def config_both : modem_cellular_config :=
  { power_gpio := { port := some 0 }, reset_gpio := { port := some 0 } }

/-! ## Attachments, given what the attach calls returned -/

/-- Whether a call is an attach of the chat, of CMUX or of PPP that failed:
these three return an `int`, negative on failure (the source tests
`modem_chat_attach(...) < 0` and `modem_cmux_attach(...) < 0`, and a negative
`modem_ppp_attach` aborts the transition); `history` is the calls made before
the call, so `w history c` is the value the call returned. -/
def attach_failed (w : World) (history : List Call) (c : Call) : Bool :=
  match c with
  | .modem_chat_attach _ => decide (w history c < 0)
  | .modem_cmux_attach _ => decide (w history c < 0)
  | .modem_ppp_attach _ => decide (w history c < 0)
  | _ => false

/-- Modelled from the spec: the effect of one call on the attachments, given
what the call returned.  The state is the attachments, the calls made so far,
and whether every attach so far has succeeded; an attach that failed leaves
the attachments as they are, every other call acts as in `attach_step`. -/
def attach_scan (w : World) (s : Attachments × List Call × Bool) (c : Call) :
    Attachments × List Call × Bool :=
  (if attach_failed w s.2.1 c then s.1 else attach_step s.1 c,
    s.2.1 ++ [c],
    s.2.2 && !attach_failed w s.2.1 c)

/-- Modelled from the spec: the attachments after a history of calls in the
world `w`, together with the history and with whether every attach
succeeded. -/
def attach_run (w : World) (history : List Call) : Attachments × List Call × Bool :=
  history.foldl (attach_scan w)
    ({ chat := none, cmux := none, ppp := none, handlers := [] }, [], true)

end ModemCellular

/-! ## Theorems -/

namespace ModemCellular

/-! ### Basic facts about calls and hooks -/

@[simp] theorem call_fst (w : World) (c : Call) (data : modem_cellular_data) :
    (call w c data).1 = w data.trace c := rfl

@[simp] theorem call_snd (w : World) (c : Call) (data : modem_cellular_data) :
    (call w c data).2 = { data with trace := data.trace ++ [c] } := rfl

@[simp] theorem log_line_state (m : LogMsg) (data : modem_cellular_data) :
    (log_line m data).state = data.state := rfl

@[simp] theorem log_line_trace (m : LogMsg) (data : modem_cellular_data) :
    (log_line m data).trace = data.trace := rfl

/-- The `on_leave` hook never writes the state field. -/
theorem on_state_leave_state (w : World) (data : modem_cellular_data) :
    (modem_cellular_on_state_leave w data).2.state = data.state := by
  unfold modem_cellular_on_state_leave
  split <;> rfl

/-- The `on_leave` hook only appends to the trace. -/
theorem on_state_leave_trace (w : World) (data : modem_cellular_data) :
    data.trace <+: (modem_cellular_on_state_leave w data).2.trace := by
  unfold modem_cellular_on_state_leave
  split <;>
    simp [modem_cellular_on_idle_state_leave, modem_cellular_on_run_init_script_state_leave,
      modem_cellular_on_open_dlci1_state_leave, modem_cellular_on_open_dlci2_state_leave,
      modem_cellular_on_run_dial_script_state_leave, modem_cellular_on_register_state_leave,
      modem_cellular_on_carrier_on_state_leave, modem_cellular_on_power_off_state_leave,
      modem_cellular_stop_timer, List.append_assoc]

/-- The `on_enter` hook never writes the state field. -/
theorem on_state_enter_state (config : modem_cellular_config) (w : World)
    (data : modem_cellular_data) :
    (modem_cellular_on_state_enter config w data).2.state = data.state := by
  unfold modem_cellular_on_state_enter
  split <;>
    simp only [modem_cellular_on_power_on_state_enter,
      modem_cellular_on_run_init_script_state_enter, modem_cellular_on_connect_cmux_state_enter,
      modem_cellular_on_open_dlci1_state_enter, modem_cellular_on_open_dlci2_state_enter,
      modem_cellular_on_run_dial_script_state_enter, modem_cellular_on_register_state_enter,
      modem_cellular_on_carrier_on_state_enter, modem_cellular_on_carrier_off_state_enter,
      modem_cellular_on_power_off_state_enter, modem_cellular_start_timer, call_snd, call] <;>
    (try split) <;> rfl

/-- The `on_enter` hook only appends to the trace. -/
theorem on_state_enter_trace (config : modem_cellular_config) (w : World)
    (data : modem_cellular_data) :
    data.trace <+: (modem_cellular_on_state_enter config w data).2.trace := by
  unfold modem_cellular_on_state_enter
  split <;>
    simp only [modem_cellular_on_power_on_state_enter,
      modem_cellular_on_run_init_script_state_enter, modem_cellular_on_connect_cmux_state_enter,
      modem_cellular_on_open_dlci1_state_enter, modem_cellular_on_open_dlci2_state_enter,
      modem_cellular_on_run_dial_script_state_enter, modem_cellular_on_register_state_enter,
      modem_cellular_on_carrier_on_state_enter, modem_cellular_on_carrier_off_state_enter,
      modem_cellular_on_power_off_state_enter, modem_cellular_start_timer, call_snd, call] <;>
    (try split) <;> simp [List.append_assoc]

/-- What `modem_cellular_enter_state` does when the `on_leave` hook returns a
negative value. -/
theorem enter_state_of_leave_neg (config : modem_cellular_config) (w : World)
    (data : modem_cellular_data) (state : modem_cellular_state)
    (h : (modem_cellular_on_state_leave w data).1 < 0) :
    modem_cellular_enter_state config w data state =
      log_line (.failed_to_leave_state (modem_cellular_on_state_leave w data).1)
        (modem_cellular_on_state_leave w data).2 := by
  simp only [modem_cellular_enter_state]
  rw [if_pos h]

/-- What `modem_cellular_enter_state` does when the `on_leave` hook returns
zero or a positive value: state and trace are those after the `on_enter` hook
of the target. -/
theorem enter_state_of_leave_nonneg (config : modem_cellular_config) (w : World)
    (data : modem_cellular_data) (state : modem_cellular_state)
    (h : 0 ≤ (modem_cellular_on_state_leave w data).1) :
    (modem_cellular_enter_state config w data state).state = state ∧
    (modem_cellular_enter_state config w data state).trace =
      (modem_cellular_on_state_enter config w
        { (modem_cellular_on_state_leave w data).2 with state := state }).2.trace := by
  simp only [modem_cellular_enter_state]
  rw [if_neg (not_lt.mpr h)]
  constructor
  · split <;> simp [on_state_enter_state]
  · split <;> simp


/-- The state-change log line at the end of `modem_cellular_event_handler`
leaves the state field alone. -/
@[simp] theorem log_state_changed_ite_state (s : modem_cellular_state)
    (data : modem_cellular_data) :
    (if (s != data.state) = true then modem_cellular_log_state_changed s data.state data
      else data).state = data.state := by
  split <;> rfl

/-- The state-change log line at the end of `modem_cellular_event_handler`
leaves the trace alone. -/
@[simp] theorem log_state_changed_ite_trace (s : modem_cellular_state)
    (data : modem_cellular_data) :
    (if (s != data.state) = true then modem_cellular_log_state_changed s data.state data
      else data).trace = data.trace := by
  split <;> rfl

/-- Every run of `modem_cellular_event_handler` either keeps the state field
or ends in a call of `modem_cellular_enter_state` made in the old state, with
a target that is a documented successor. -/
theorem event_handler_cases
    (config : modem_cellular_config) (w : World)
    (data : modem_cellular_data) (evt : modem_cellular_event) :
    (modem_cellular_event_handler config w data evt).state = data.state ∨
    ∃ pre s, pre.state = data.state ∧ data.trace <+: pre.trace ∧ s ∈ documented_successors data.state ∧
      (modem_cellular_event_handler config w data evt).state =
        (modem_cellular_enter_state config w pre s).state ∧
      (modem_cellular_event_handler config w data evt).trace =
        (modem_cellular_enter_state config w pre s).trace := by
  obtain ⟨im, hw, act, rs, ps, st, sa, rb, tr, lg⟩ := data
  cases hp : modem_cellular_gpio_is_enabled config.power_gpio <;>
  cases hr : modem_cellular_gpio_is_enabled config.reset_gpio <;>
  cases st <;> cases evt <;>
    simp only [modem_cellular_event_handler, modem_cellular_log_event, log_line,
      log_state_changed_ite_state, log_state_changed_ite_trace,
      modem_cellular_idle_event_handler, modem_cellular_power_on_event_handler,
      modem_cellular_run_init_script_event_handler, modem_cellular_connect_cmux_event_handler,
      modem_cellular_open_dlci1_event_handler, modem_cellular_open_dlci2_event_handler,
      modem_cellular_run_dial_script_event_handler, modem_cellular_register_event_handler,
      modem_cellular_carrier_on_event_handler, modem_cellular_carrier_off_event_handler,
      modem_cellular_power_off_event_handler, modem_cellular_start_timer, call_snd, call_fst,
      call, hp, hr, Bool.or_self, Bool.or_true, Bool.or_false, Bool.false_eq_true, if_true,
      if_false] <;>
    (try split_ifs) <;>
    first
      | (left; rfl)
      | (right; exact ⟨_, _, rfl, by simp, by simp [documented_successors], rfl, rfl⟩)


/-! ### What the hooks and handlers leave alone -/

/-- The `on_leave` hook changes nothing but the trace. -/
theorem on_state_leave_frame (w : World) (data : modem_cellular_data) :
    (modem_cellular_on_state_leave w data).2 =
      { data with trace := (modem_cellular_on_state_leave w data).2.trace } := by
  unfold modem_cellular_on_state_leave
  split <;> rfl

/-- The `on_enter` hook changes nothing but the trace. -/
theorem on_state_enter_frame (config : modem_cellular_config) (w : World)
    (data : modem_cellular_data) :
    (modem_cellular_on_state_enter config w data).2 =
      { data with trace := (modem_cellular_on_state_enter config w data).2.trace } := by
  unfold modem_cellular_on_state_enter
  split <;>
    simp only [modem_cellular_on_power_on_state_enter,
      modem_cellular_on_run_init_script_state_enter, modem_cellular_on_connect_cmux_state_enter,
      modem_cellular_on_open_dlci1_state_enter, modem_cellular_on_open_dlci2_state_enter,
      modem_cellular_on_run_dial_script_state_enter, modem_cellular_on_register_state_enter,
      modem_cellular_on_carrier_on_state_enter, modem_cellular_on_carrier_off_state_enter,
      modem_cellular_on_power_off_state_enter, modem_cellular_start_timer, call_snd, call] <;>
    (try split) <;> rfl

/-- `modem_cellular_enter_state` changes nothing but state, trace and log, and
the log lines it adds are warnings. -/
theorem enter_state_frame (config : modem_cellular_config) (w : World)
    (data : modem_cellular_data) (state : modem_cellular_state) :
    modem_cellular_enter_state config w data state =
      { data with
        state := (modem_cellular_enter_state config w data state).state
        trace := (modem_cellular_enter_state config w data state).trace
        log := (modem_cellular_enter_state config w data state).log } ∧
    handled_events (modem_cellular_enter_state config w data state).log =
      handled_events data.log := by
  have hl := on_state_leave_frame w data
  have he := on_state_enter_frame config w
    { (modem_cellular_on_state_leave w data).2 with state := state }
  simp only [modem_cellular_enter_state]
  split
  · constructor
    · simp only [log_line]
      rw [hl]
    · simp only [log_line]
      rw [hl]
      simp [handled_events]
  · split
    · constructor
      · simp only [log_line]
        rw [he, hl]
      · simp only [log_line]
        rw [he, hl]
        simp [handled_events]
    · constructor
      · rw [he, hl]
      · rw [he, hl]

/-- `modem_cellular_enter_state` keeps what was framed. -/
theorem framed_enter_state (config : modem_cellular_config) (w : World)
    (data pre : modem_cellular_data) (state : modem_cellular_state) (h : Framed data pre) :
    Framed data (modem_cellular_enter_state config w pre state) := by
  obtain ⟨heq, hlog⟩ := enter_state_frame config w pre state
  obtain ⟨h1, h2, h3, h4, h5, h6, h7, h8⟩ := h
  refine ⟨?_, ?_, ?_, ?_, ?_, ?_, ?_, ?_⟩
  · rw [heq]; exact h1
  · rw [heq]; exact h2
  · rw [heq]; exact h3
  · rw [heq]; exact h4
  · rw [heq]; exact h5
  · rw [heq]; exact h6
  · rw [heq]; exact h7
  · rw [hlog]; exact h8

/-- The state-change log line keeps what was framed. -/
theorem framed_log_state_changed (data r : modem_cellular_data)
    (s t : modem_cellular_state) (h : Framed data r) :
    Framed data (modem_cellular_log_state_changed s t r) := by
  obtain ⟨h1, h2, h3, h4, h5, h6, h7, h8⟩ := h
  refine ⟨h1, h2, h3, h4, h5, h6, h7, ?_⟩
  rw [← h8]
  simp [modem_cellular_log_state_changed, log_line, handled_events]

/-- `modem_cellular_event_handler` changes nothing but state, trace and log;
what it adds to the log after its event line are no event lines. -/
theorem event_handler_framed (config : modem_cellular_config) (w : World)
    (data : modem_cellular_data) (evt : modem_cellular_event) :
    Framed (modem_cellular_log_event evt data)
      (modem_cellular_event_handler config w data evt) := by
  obtain ⟨im, hw, act, rs, ps, st, sa, rb, tr, lg⟩ := data
  cases st <;> cases evt <;>
    simp only [modem_cellular_event_handler, modem_cellular_log_event, log_line,
      modem_cellular_idle_event_handler, modem_cellular_power_on_event_handler,
      modem_cellular_run_init_script_event_handler, modem_cellular_connect_cmux_event_handler,
      modem_cellular_open_dlci1_event_handler, modem_cellular_open_dlci2_event_handler,
      modem_cellular_run_dial_script_event_handler, modem_cellular_register_event_handler,
      modem_cellular_carrier_on_event_handler, modem_cellular_carrier_off_event_handler,
      modem_cellular_power_off_event_handler, modem_cellular_start_timer, call_snd, call_fst,
      call] <;>
    (try split_ifs) <;>
    with_reducible
      first
        | exact ⟨rfl, rfl, rfl, rfl, rfl, rfl, rfl, rfl⟩
        | exact framed_enter_state _ _ _ _ _ ⟨rfl, rfl, rfl, rfl, rfl, rfl, rfl, rfl⟩
        | exact framed_log_state_changed _ _ _ _ ⟨rfl, rfl, rfl, rfl, rfl, rfl, rfl, rfl⟩
        | exact framed_log_state_changed _ _ _ _
            (framed_enter_state _ _ _ _ _ ⟨rfl, rfl, rfl, rfl, rfl, rfl, rfl, rfl⟩)

/-- `modem_cellular_event_handler` changes nothing but state, trace and log,
and it logs exactly one event line: the event it was invoked with. -/
theorem event_handler_frame (config : modem_cellular_config) (w : World)
    (data : modem_cellular_data) (evt : modem_cellular_event) :
    (modem_cellular_event_handler config w data evt).suspend_atomic = data.suspend_atomic ∧
    (modem_cellular_event_handler config w data evt).event_rb = data.event_rb ∧
    handled_events (modem_cellular_event_handler config w data evt).log =
      handled_events data.log ++ [evt] := by
  obtain ⟨_, _, _, _, _, h6, h7, h8⟩ := event_handler_framed config w data evt
  refine ⟨h6, h7, ?_⟩
  rw [h8]
  simp [modem_cellular_log_event, log_line, handled_events]

/-! ### C1: `modem_cellular_enter_state` -/

/-- C1 (as amended): for every current state, target state and world,
`modem_cellular_enter_state` first runs the `on_leave` hook of the current
state.  If the hook returns a negative value the transition is aborted: the
result is the data as the hook left it plus one warning in the log, so the
state field is unchanged and the `on_enter` hook of the target is not run.
If the hook returns zero or a positive value the state field is set to the
target, the `on_enter` hook of the target runs on it, and the state is the
target whatever `on_enter` returns. -/
theorem C1_enter_state_aborts_on_negative_leave (config : modem_cellular_config) (w : World)
    (data : modem_cellular_data) (state : modem_cellular_state) :
    (modem_cellular_on_state_leave w data).2.trace <+:
        (modem_cellular_enter_state config w data state).trace ∧
    ((modem_cellular_on_state_leave w data).1 < 0 →
      modem_cellular_enter_state config w data state =
        log_line (.failed_to_leave_state (modem_cellular_on_state_leave w data).1)
          (modem_cellular_on_state_leave w data).2 ∧
      (modem_cellular_enter_state config w data state).state = data.state ∧
      (modem_cellular_enter_state config w data state).trace =
        (modem_cellular_on_state_leave w data).2.trace) ∧
    (0 ≤ (modem_cellular_on_state_leave w data).1 →
      (modem_cellular_enter_state config w data state).state = state ∧
      (modem_cellular_enter_state config w data state).trace =
        (modem_cellular_on_state_enter config w
          { (modem_cellular_on_state_leave w data).2 with state := state }).2.trace) := by
  refine ⟨?_, ?_, ?_⟩
  · rcases lt_or_le (modem_cellular_on_state_leave w data).1 0 with h | h
    · rw [enter_state_of_leave_neg config w data state h]
      exact List.prefix_refl _
    · rw [(enter_state_of_leave_nonneg config w data state h).2]
      exact on_state_enter_trace config w
        { (modem_cellular_on_state_leave w data).2 with state := state }
  · intro h
    rw [enter_state_of_leave_neg config w data state h]
    exact ⟨rfl, on_state_leave_state w data, rfl⟩
  · intro h
    exact enter_state_of_leave_nonneg config w data state h

/-- C1, counterexample to the claim as stated: in `Idle`, with a world whose
calls all return 1, the `on_leave` hook returns the non-zero value 1 and the
transition to `RunInit` is not aborted: the state field changes and the
`on_enter` hook of `RunInit` runs (chat attach, init script). -/
theorem C1_counterexample_positive_leave_not_aborted :
    (modem_cellular_on_state_leave (constant_world 1) modem_cellular_data_zero).1 = 1 ∧
    modem_cellular_data_zero.state = .IDLE ∧
    (modem_cellular_enter_state ⟨⟨none⟩, ⟨none⟩⟩ (constant_world 1) modem_cellular_data_zero
        .RUN_INIT_SCRIPT).state = .RUN_INIT_SCRIPT ∧
    (modem_cellular_enter_state ⟨⟨none⟩, ⟨none⟩⟩ (constant_world 1) modem_cellular_data_zero
        .RUN_INIT_SCRIPT).trace =
      [.modem_pipe_open .uart_pipe, .modem_chat_attach .uart_pipe,
        .modem_chat_script_run .init_chat_script] := by
  decide

/-! ### C2: the transition graph -/

/-- C2: for every state, event, configuration, stored status and world, the
state after `modem_cellular_event_handler` is the state before it or one of
its documented successors; and when the state field has changed, the handler
ran the `on_leave` hook of the old state (which returned a non-negative
value) and then, as its last action, the `on_enter` hook of the new state:
the trace of the handler ends with the calls of these two hooks. -/
theorem C2_state_stays_or_moves_to_documented_successor (config : modem_cellular_config)
    (w : World) (data : modem_cellular_data) (evt : modem_cellular_event) :
    ((modem_cellular_event_handler config w data evt).state = data.state ∨
      (modem_cellular_event_handler config w data evt).state ∈
        documented_successors data.state) ∧
    ((modem_cellular_event_handler config w data evt).state ≠ data.state →
      ∃ pre, pre.state = data.state ∧ data.trace <+: pre.trace ∧
        0 ≤ (modem_cellular_on_state_leave w pre).1 ∧
        (modem_cellular_event_handler config w data evt).trace =
          (modem_cellular_on_state_enter config w
            { (modem_cellular_on_state_leave w pre).2 with
              state := (modem_cellular_event_handler config w data evt).state }).2.trace) := by
  rcases event_handler_cases config w data evt with h | ⟨pre, s, hpre, htr, hs, hst, htrace⟩
  · exact ⟨Or.inl h, fun hne => absurd h hne⟩
  · rcases lt_or_le (modem_cellular_on_state_leave w pre).1 0 with hneg | hpos
    · have hstay : (modem_cellular_event_handler config w data evt).state = data.state := by
        rw [hst, enter_state_of_leave_neg config w pre s hneg, log_line_state,
          on_state_leave_state, hpre]
      exact ⟨Or.inl hstay, fun hne => absurd hstay hne⟩
    · have h := enter_state_of_leave_nonneg config w pre s hpos
      have hnew : (modem_cellular_event_handler config w data evt).state = s := by
        rw [hst, h.1]
      refine ⟨Or.inr (by rw [hnew]; exact hs), fun _ => ⟨pre, hpre, htr, hpos, ?_⟩⟩
      rw [htrace, h.2, hnew]


/-! ### C3: one drain pass of the dispatcher -/

/-- Handling a list of events leaves the suspend flag and the event queue
alone and logs exactly these events, in order. -/
theorem run_frame (config : modem_cellular_config) (w : World)
    (evts : List modem_cellular_event) (data : modem_cellular_data) :
    (run config w data evts).suspend_atomic = data.suspend_atomic ∧
    (run config w data evts).event_rb = data.event_rb ∧
    handled_events (run config w data evts).log = handled_events data.log ++ evts := by
  induction evts generalizing data with
  | nil => simp [run]
  | cons e es ih =>
    obtain ⟨h1, h2, h3⟩ := ih (modem_cellular_event_handler config w data e)
    obtain ⟨g1, g2, g3⟩ := event_handler_frame config w data e
    simp only [run, List.foldl_cons] at h1 h2 h3 ⊢
    exact ⟨h1.trans g1, h2.trans g2, by rw [h3, g3]; simp⟩

/-- A drain pass over a queue of at most `sizeof(data->event_buf)` pending
events: the queue is emptied, every pending event is handled, then `Suspend`
when the flag is set. -/
theorem dispatch_eq (config : modem_cellular_config) (w : World) (data : modem_cellular_data)
    (h : data.event_rb.items.length ≤ sizeof_event_buf) :
    modem_cellular_event_dispatch_handler config w data =
      if data.suspend_atomic != 0 then
        modem_cellular_event_handler config w
          (run config w { data with event_rb := { data.event_rb with items := [] } }
            data.event_rb.items) .SUSPEND
      else
        run config w { data with event_rb := { data.event_rb with items := [] } }
          data.event_rb.items := by
  have hlen : data.event_rb.items.length % 256 = data.event_rb.items.length := by
    apply Nat.mod_eq_of_lt
    have : sizeof_event_buf = 8 := rfl
    omega
  have htake : List.take sizeof_event_buf data.event_rb.items = data.event_rb.items :=
    List.take_of_length_le h
  have hdrop : List.drop sizeof_event_buf data.event_rb.items = [] :=
    List.drop_of_length_le h
  have hs := (run_frame config w data.event_rb.items
    { data with event_rb := { data.event_rb with items := [] } }).1
  simp only [run] at hs
  simp only [modem_cellular_event_dispatch_handler, ring_buf_get, htake, hdrop, hlen,
    List.take_length, run]
  rw [hs]

/-- C3: one drain pass of `modem_cellular_event_dispatch_handler` over a queue
holding `e1..en` (`n ≤ 8`) with suspend flag `f` empties the queue and invokes
`modem_cellular_event_handler` on `e1`, ..., `en`, once each and in that
order, and then, exactly when `f` is set, once more with `Suspend`: the event
lines the pass adds to the log are `e1..en` followed by `Suspend` iff `f` is
set, and the resulting data is that of handling these events one after the
other. -/
theorem C3_drain_pass_handles_queue_then_suspend (config : modem_cellular_config) (w : World)
    (data : modem_cellular_data) (h : data.event_rb.items.length ≤ 8) :
    (modem_cellular_event_dispatch_handler config w data).event_rb.items = [] ∧
    handled_events (modem_cellular_event_dispatch_handler config w data).log =
      handled_events data.log ++ data.event_rb.items ++
        (if data.suspend_atomic ≠ 0 then [.SUSPEND] else []) ∧
    modem_cellular_event_dispatch_handler config w data =
      run config w { data with event_rb := { data.event_rb with items := [] } }
        (data.event_rb.items ++ (if data.suspend_atomic ≠ 0 then [.SUSPEND] else [])) := by
  have hd := dispatch_eq config w data h
  generalize hd0 : ({ data with event_rb := { data.event_rb with items := [] } } :
    modem_cellular_data) = d0 at hd ⊢
  have hlog : d0.log = data.log := by rw [← hd0]
  have hrb : d0.event_rb.items = [] := by rw [← hd0]
  obtain ⟨_, r2, r3⟩ := run_frame config w data.event_rb.items d0
  rw [hlog] at r3
  by_cases hf : data.suspend_atomic = 0
  · have hb : (data.suspend_atomic != 0) = false := by simp [hf]
    rw [hb] at hd
    simp only [Bool.false_eq_true, if_false] at hd
    rw [hd, if_neg (not_not.mpr hf), List.append_nil, List.append_nil]
    exact ⟨by rw [r2, hrb], r3, rfl⟩
  · have hb : (data.suspend_atomic != 0) = true := by simp [hf]
    rw [hb] at hd
    simp only [if_true] at hd
    obtain ⟨_, g2, g3⟩ := event_handler_frame config w
      (run config w d0 data.event_rb.items) .SUSPEND
    rw [hd, if_pos hf]
    refine ⟨by rw [g2, r2, hrb], by rw [g3, r3, List.append_assoc], ?_⟩
    simp [run, List.foldl_append]

/-- C3, witness: a pass over the queue `[Resume, Timeout]` with the suspend
flag set. -/
theorem C3_drain_pass_witness :
    ({ initial_data config_power_only with
        suspend_atomic := 1
        event_rb := { size := 8, items := [.RESUME, .TIMEOUT] } } :
      modem_cellular_data).event_rb.items.length ≤ 8 ∧
    handled_events (modem_cellular_event_dispatch_handler config_power_only ideal_world
      { initial_data config_power_only with
        suspend_atomic := 1
        event_rb := { size := 8, items := [.RESUME, .TIMEOUT] } }).log =
      [.RESUME, .TIMEOUT, .SUSPEND] :=
  ⟨by decide,
    (C3_drain_pass_handles_queue_then_suspend config_power_only ideal_world
      { initial_data config_power_only with
        suspend_atomic := 1
        event_rb := { size := 8, items := [.RESUME, .TIMEOUT] } } (by decide)).2.1⟩

/-! ### C4: the event queue is a FIFO of capacity 8 -/

/-- `modem_cellular_delegate_event` touches the event queue and the trace only. -/
theorem delegate_event_frame (w : World) (data : modem_cellular_data)
    (evt : modem_cellular_event) :
    (modem_cellular_delegate_event w data evt).event_rb = (ring_buf_put data.event_rb evt).2 ∧
    (modem_cellular_delegate_event w data evt).suspend_atomic = data.suspend_atomic ∧
    (modem_cellular_delegate_event w data evt).state = data.state ∧
    (modem_cellular_delegate_event w data evt).log = data.log :=
  ⟨rfl, rfl, rfl, rfl⟩

/-- `ring_buf_put` keeps the capacity and never exceeds it. -/
theorem ring_buf_put_size (rb : ring_buf) (x : modem_cellular_event) :
    (ring_buf_put rb x).2.size = rb.size := by
  unfold ring_buf_put
  split <;> rfl

/-- Delegating events to a queue that respects its capacity: the queue then
holds what was pending followed by the new events, cut at the capacity. -/
theorem delegate_all_frame (w : World) (evts : List modem_cellular_event)
    (data : modem_cellular_data) (h : data.event_rb.items.length ≤ data.event_rb.size) :
    (delegate_all w data evts).event_rb.items =
      (data.event_rb.items ++ evts).take data.event_rb.size ∧
    (delegate_all w data evts).suspend_atomic = data.suspend_atomic ∧
    (delegate_all w data evts).state = data.state ∧
    (delegate_all w data evts).log = data.log := by
  induction evts generalizing data with
  | nil => exact ⟨by simp [delegate_all, List.take_of_length_le h], rfl, rfl, rfl⟩
  | cons e es ih =>
    obtain ⟨f1, f2, f3, f4⟩ := delegate_event_frame w data e
    have hsz : (modem_cellular_delegate_event w data e).event_rb.size = data.event_rb.size := by
      rw [f1, ring_buf_put_size]
    have hitems : (modem_cellular_delegate_event w data e).event_rb.items =
        (data.event_rb.items ++ [e]).take data.event_rb.size := by
      rw [f1]
      unfold ring_buf_put
      split
      · rename_i hlt
        simp only
        rw [List.take_of_length_le]
        simp only [List.length_append, List.length_singleton]
        omega
      · rename_i hge
        have hle : data.event_rb.size ≤ data.event_rb.items.length := by omega
        rw [List.take_append_of_le_length hle, List.take_of_length_le h]
    have hlen : (modem_cellular_delegate_event w data e).event_rb.items.length ≤
        (modem_cellular_delegate_event w data e).event_rb.size := by
      rw [hsz, hitems, List.length_take]
      exact Nat.min_le_left _ _
    obtain ⟨g1, g2, g3, g4⟩ := ih (modem_cellular_delegate_event w data e) hlen
    simp only [delegate_all, List.foldl_cons] at g1 g2 g3 g4 ⊢
    refine ⟨?_, g2.trans f2, g3.trans f3, g4.trans f4⟩
    rw [g1, hsz, hitems]
    rcases lt_or_le data.event_rb.items.length data.event_rb.size with hlt | hge
    · rw [List.take_of_length_le (l := data.event_rb.items ++ [e])]
      · simp
      · simp only [List.length_append, List.length_singleton]
        omega
    · rw [List.take_append_of_le_length hge, List.take_of_length_le h,
        List.take_append_of_le_length hge, List.take_append_of_le_length hge,
        List.take_of_length_le h]

/-- C4: the event queue is a FIFO of capacity 8.  Starting from an empty
queue of capacity `sizeof(data->event_buf)`, after `e1..en` were passed to
`modem_cellular_delegate_event` with no drain in between, the queue holds the
first `min(n, 8)` of them in the order they were delegated, and the next
drain pass invokes the handler on exactly these, in that order (followed only
by the synthetic `Suspend` when the suspend flag is set) and leaves the queue
empty: events delegated while 8 are pending are not delivered. -/
theorem C4_event_queue_is_fifo_of_capacity_8 (config : modem_cellular_config) (w : World)
    (data : modem_cellular_data) (evts : List modem_cellular_event)
    (hempty : data.event_rb.items = []) (hsize : data.event_rb.size = sizeof_event_buf) :
    (delegate_all w data evts).event_rb.items = evts.take 8 ∧
    handled_events (modem_cellular_event_dispatch_handler config w
        (delegate_all w data evts)).log =
      handled_events data.log ++ evts.take 8 ++
        (if data.suspend_atomic ≠ 0 then [.SUSPEND] else []) ∧
    (modem_cellular_event_dispatch_handler config w
      (delegate_all w data evts)).event_rb.items = [] := by
  have hle : data.event_rb.items.length ≤ data.event_rb.size := by simp [hempty]
  obtain ⟨f1, f2, _, f4⟩ := delegate_all_frame w evts data hle
  have hitems : (delegate_all w data evts).event_rb.items = evts.take 8 := by
    rw [f1, hempty, hsize]
    rfl
  have hlen : (delegate_all w data evts).event_rb.items.length ≤ sizeof_event_buf := by
    rw [hitems, List.length_take]
    exact Nat.min_le_left _ _
  have hd := dispatch_eq config w (delegate_all w data evts) hlen
  generalize hd0 : ({ delegate_all w data evts with
    event_rb := { (delegate_all w data evts).event_rb with items := [] } } :
    modem_cellular_data) = d0 at hd
  have hlog : d0.log = data.log := by rw [← hd0]; exact f4
  have hrb : d0.event_rb.items = [] := by rw [← hd0]
  obtain ⟨_, r2, r3⟩ := run_frame config w (delegate_all w data evts).event_rb.items d0
  rw [hlog, hitems] at r3
  rw [hitems] at hd r2
  refine ⟨hitems, ?_, ?_⟩
  · rw [hd, f2]
    by_cases hf : data.suspend_atomic = 0
    · simp only [hf, bne_self_eq_false, Bool.false_eq_true, if_false, ne_eq, not_true_eq_false,
        List.append_nil]
      exact r3
    · have hb : (data.suspend_atomic != 0) = true := by simp [hf]
      rw [hb, if_pos rfl, if_pos hf]
      rw [(event_handler_frame config w _ .SUSPEND).2.2, r3]
  · rw [hd]
    split
    · rw [(event_handler_frame config w _ .SUSPEND).2.1, r2, hrb]
    · rw [r2, hrb]

/-- C4, witness: ten events delegated to the freshly initialised queue; the
ninth and tenth (`Dlci1Opened`, `Dlci2Opened`) are not delivered. -/
theorem C4_event_queue_witness :
    (initial_data config_power_only).event_rb.items = [] ∧
    (initial_data config_power_only).event_rb.size = sizeof_event_buf ∧
    handled_events (modem_cellular_event_dispatch_handler config_power_only ideal_world
        (delegate_all ideal_world (initial_data config_power_only)
          [.RESUME, .TIMEOUT, .TIMEOUT, .SCRIPT_FAILED, .TIMEOUT, .TIMEOUT, .SCRIPT_SUCCESS,
            .TIMEOUT, .DLCI1_OPENED, .DLCI2_OPENED])).log =
      [.RESUME, .TIMEOUT, .TIMEOUT, .SCRIPT_FAILED, .TIMEOUT, .TIMEOUT, .SCRIPT_SUCCESS,
        .TIMEOUT] :=
  ⟨by decide, by decide,
    (C4_event_queue_is_fifo_of_capacity_8 config_power_only ideal_world
      (initial_data config_power_only)
      [.RESUME, .TIMEOUT, .TIMEOUT, .SCRIPT_FAILED, .TIMEOUT, .TIMEOUT, .SCRIPT_SUCCESS,
        .TIMEOUT, .DLCI1_OPENED, .DLCI2_OPENED] (by decide) (by decide)).2.1⟩

/-! ### C5: the power-management action -/

/-- C5 (as amended): `modem_cellular_pm_action`.  For `Resume` it clears the
suspend flag, returns 0, keeps the lifecycle state, submits the dispatch work
and appends one `Resume` event to the event queue when the queue has room
(fewer pending events than its capacity); a full queue is left as it is.  For
`Suspend` it sets the suspend flag, appends no event, keeps the lifecycle
state and returns what `k_sem_take(&data->suspended_sem, K_SECONDS(30))`
returns.  For every other action it returns `-ENOTSUP` and changes nothing. -/
theorem C5_pm_action (w : World) (data : modem_cellular_data) :
    ((modem_cellular_pm_action w data .RESUME).1 = 0 ∧
      (modem_cellular_pm_action w data .RESUME).2.suspend_atomic = 0 ∧
      (modem_cellular_pm_action w data .RESUME).2.state = data.state ∧
      (modem_cellular_pm_action w data .RESUME).2.trace = data.trace ++ [.k_work_submit] ∧
      (modem_cellular_pm_action w data .RESUME).2.event_rb.items =
        (if data.event_rb.items.length < data.event_rb.size
          then data.event_rb.items ++ [.RESUME] else data.event_rb.items)) ∧
    ((modem_cellular_pm_action w data .SUSPEND).1 = w data.trace (.k_sem_take 30000) ∧
      (modem_cellular_pm_action w data .SUSPEND).2.suspend_atomic = 1 ∧
      (modem_cellular_pm_action w data .SUSPEND).2.state = data.state ∧
      (modem_cellular_pm_action w data .SUSPEND).2.event_rb = data.event_rb ∧
      (modem_cellular_pm_action w data .SUSPEND).2.trace =
        data.trace ++ [.k_sem_take 30000]) ∧
    (∀ action, action ≠ .RESUME → action ≠ .SUSPEND →
      modem_cellular_pm_action w data action = (-ENOTSUP, data)) := by
  refine ⟨⟨rfl, rfl, rfl, rfl, ?_⟩, ⟨rfl, rfl, rfl, rfl, rfl⟩, ?_⟩
  · simp only [modem_cellular_pm_action, modem_cellular_delegate_event, call_snd, ring_buf_put]
    split <;> rfl
  · intro action h1 h2
    cases action
    · exact absurd rfl h2
    · exact absurd rfl h1
    · rfl
    · rfl

/-- C5, counterexample to the claim as stated: with eight events pending the
`Resume` action returns 0 and clears the flag, but no `Resume` event is
appended: the queue still holds the eight `Timeout` events. -/
theorem C5_counterexample_resume_dropped_when_queue_full :
    full_queue_data.event_rb.items = List.replicate 8 .TIMEOUT ∧
    (modem_cellular_pm_action ideal_world full_queue_data .RESUME).1 = 0 ∧
    (modem_cellular_pm_action ideal_world full_queue_data .RESUME).2.event_rb.items =
      List.replicate 8 .TIMEOUT ∧
    modem_cellular_event.RESUME ∉
      (modem_cellular_pm_action ideal_world full_queue_data .RESUME).2.event_rb.items := by
  decide

/-! ### Scenarios -/

/-- The level of a GPIO line after more calls. -/
theorem gpio_level_append (g : gpio_line) (history calls : List Call) :
    gpio_level g (history ++ calls) = calls.foldl (gpio_level_step g) (gpio_level g history) := by
  simp [gpio_level, List.foldl_append]

/-- The carrier after more calls. -/
theorem carrier_is_up_append (history calls : List Call) :
    carrier_is_up (history ++ calls) =
      calls.foldl
        (fun up c =>
          match c with
          | .net_if_carrier_on => true
          | .net_if_carrier_off => false
          | _ => up)
        (carrier_is_up history) := by
  simp [carrier_is_up, List.foldl_append]

/-- What the status poll of the bring-up scenario stores. -/
theorem poll_registered_eq (data : modem_cellular_data) :
    poll_registered data =
      { data with access_tech := 0, registration_status := 5, packet_service_attached := 1 } := by
  have h0 : to_uint8 (atoi "0") = 0 := by decide
  have h5 : to_uint8 (atoi "5") = 5 := by decide
  have h1 : to_uint8 (atoi "1") = 1 := by decide
  simp [poll_registered, modem_cellular_chat_on_creg, modem_cellular_chat_on_cgatt, h0, h5, h1]

/-- What the status poll of the loss-of-registration scenario stores. -/
theorem poll_not_registered_eq (data : modem_cellular_data) :
    poll_not_registered data = { data with access_tech := 0, registration_status := 2 } := by
  have h0 : to_uint8 (atoi "0") = 0 := by decide
  have h2 : to_uint8 (atoi "2") = 2 := by decide
  simp [poll_not_registered, modem_cellular_chat_on_creg, h0, h2]

/-- The cold bring-up scenario, step by step: states, stored poll results and
calls. -/
theorem cold_bring_up_run (config : modem_cellular_config) (data : modem_cellular_data)
    (hpower : modem_cellular_gpio_is_enabled config.power_gpio = true)
    (hreset : modem_cellular_gpio_is_enabled config.reset_gpio = false)
    (hstate : data.state = .IDLE) :
    run_states config ideal_world data cold_bring_up_events =
      [.IDLE, .POWER_ON, .POWER_ON, .RUN_INIT_SCRIPT, .CONNECT_CMUX, .CONNECT_CMUX, .OPEN_DLCI1,
        .OPEN_DLCI2, .RUN_DIAL_SCRIPT, .RUN_DIAL_SCRIPT, .REGISTER] ∧
    (poll_registered (run config ideal_world data cold_bring_up_events)).registration_status
      = 5 ∧
    (poll_registered (run config ideal_world data cold_bring_up_events)).packet_service_attached
      = 1 ∧
    (cold_bring_up config ideal_world data).state = .CARRIER_ON ∧
    (cold_bring_up config ideal_world data).trace = data.trace ++
      [.modem_pipe_open .uart_pipe,
        .gpio_pin_set_dt .power_gpio 1, .k_work_schedule 1500,
        .gpio_pin_get_dt .power_gpio, .gpio_pin_set_dt .power_gpio 0, .k_work_schedule 10000,
        .gpio_pin_get_dt .power_gpio,
        .modem_chat_attach .uart_pipe, .modem_chat_script_run .init_chat_script,
        .net_if_set_link_addr data.imei,
        .modem_chat_release, .modem_cmux_attach .uart_pipe, .k_work_schedule 500,
        .modem_cmux_connect_async,
        .modem_pipe_attach .dlci1_pipe, .modem_pipe_open_async .dlci1_pipe,
        .modem_pipe_release .dlci1_pipe,
        .modem_pipe_attach .dlci2_pipe, .modem_pipe_open_async .dlci2_pipe,
        .modem_pipe_release .dlci2_pipe,
        .modem_chat_attach .dlci2_pipe, .k_work_schedule 500,
        .modem_chat_script_run .connect_chat_script,
        .modem_chat_release, .modem_ppp_attach .dlci2_pipe,
        .modem_chat_attach .dlci1_pipe, .k_work_schedule 2000,
        .modem_chat_script_run .net_stat_chat_script,
        .k_work_cancel_delayable, .modem_chat_release,
        .net_if_carrier_on, .modem_chat_attach .dlci1_pipe,
        .modem_chat_script_run .net_stat_chat_script, .k_work_schedule 4000] ∧
    carrier_is_up (cold_bring_up config ideal_world data).trace = true := by
  obtain ⟨im, hwi, act, rs, ps, st, sa, rb, tr, lg⟩ := data
  simp only at hstate
  subst hstate
  simp [cold_bring_up, poll_registered_eq, cold_bring_up_events, run_states, run,
    modem_cellular_event_handler, modem_cellular_log_event, log_line,
    modem_cellular_log_state_changed, modem_cellular_is_registered,
    modem_cellular_idle_event_handler, modem_cellular_power_on_event_handler,
    modem_cellular_run_init_script_event_handler, modem_cellular_connect_cmux_event_handler,
    modem_cellular_open_dlci1_event_handler, modem_cellular_open_dlci2_event_handler,
    modem_cellular_run_dial_script_event_handler, modem_cellular_register_event_handler,
    modem_cellular_enter_state, modem_cellular_on_state_leave, modem_cellular_on_state_enter,
    modem_cellular_on_idle_state_leave, modem_cellular_on_power_on_state_enter,
    modem_cellular_on_run_init_script_state_enter, modem_cellular_on_run_init_script_state_leave,
    modem_cellular_on_connect_cmux_state_enter, modem_cellular_on_open_dlci1_state_enter,
    modem_cellular_on_open_dlci1_state_leave, modem_cellular_on_open_dlci2_state_enter,
    modem_cellular_on_open_dlci2_state_leave, modem_cellular_on_run_dial_script_state_enter,
    modem_cellular_on_run_dial_script_state_leave, modem_cellular_on_register_state_enter,
    modem_cellular_on_register_state_leave, modem_cellular_on_carrier_on_state_enter,
    modem_cellular_start_timer, modem_cellular_stop_timer, hpower, hreset, ideal_world,
    gpio_level_append, gpio_level_step, carrier_is_up_append, K_SECONDS, K_MSEC,
    MODEM_CELLULAR_POWER_GPIO_PULSE, MODEM_CELLULAR_STARTUP_TIME]

/-- C6 (as amended): cold bring-up.  With a power GPIO and no reset GPIO
configured and every collaborator call succeeding, starting in `Idle` the
events `Resume, Timeout, Timeout, ScriptSuccess, Timeout, CmuxConnected,
Dlci1Opened, Dlci2Opened, Timeout, ScriptSuccess`, a status poll storing
`registration_status = 5` and `packet_service_attached = 1`, and a last
`ScriptSuccess` visit exactly `Idle, PowerOn, RunInit, ConnectCmux, OpenDlci1,
OpenDlci2, RunDial, Register, CarrierOn` in that order.  The effect trace
begins with: UART pipe opened, power GPIO set to 1, timer armed 1500 ms,
power GPIO set to 0, timer armed 10000 ms, chat attached to the UART pipe,
init script run (the power GPIO is read before it is set to 0 and again
before the chat is attached).  The last calls are: timer stopped, chat
released, PPP carrier set up, chat attached to DLCI 1, status poll script
run, timer armed 4000 ms; the run ends with the PPP carrier up. -/
theorem C6_cold_bring_up (config : modem_cellular_config) (data : modem_cellular_data)
    (hpower : modem_cellular_gpio_is_enabled config.power_gpio = true)
    (hreset : modem_cellular_gpio_is_enabled config.reset_gpio = false)
    (hstate : data.state = .IDLE) :
    (cold_bring_up_states config ideal_world data).destutter (· ≠ ·) =
      [.IDLE, .POWER_ON, .RUN_INIT_SCRIPT, .CONNECT_CMUX, .OPEN_DLCI1, .OPEN_DLCI2,
        .RUN_DIAL_SCRIPT, .REGISTER, .CARRIER_ON] ∧
    (poll_registered (run config ideal_world data cold_bring_up_events)).registration_status
      = 5 ∧
    (poll_registered (run config ideal_world data cold_bring_up_events)).packet_service_attached
      = 1 ∧
    (calls_since data (cold_bring_up config ideal_world data)).take 9 =
      [.modem_pipe_open .uart_pipe,
        .gpio_pin_set_dt .power_gpio 1, .k_work_schedule 1500,
        .gpio_pin_get_dt .power_gpio, .gpio_pin_set_dt .power_gpio 0, .k_work_schedule 10000,
        .gpio_pin_get_dt .power_gpio,
        .modem_chat_attach .uart_pipe, .modem_chat_script_run .init_chat_script] ∧
    (effects (calls_since data (cold_bring_up config ideal_world data))).take 7 =
      [.modem_pipe_open .uart_pipe,
        .gpio_pin_set_dt .power_gpio 1, .k_work_schedule 1500,
        .gpio_pin_set_dt .power_gpio 0, .k_work_schedule 10000,
        .modem_chat_attach .uart_pipe, .modem_chat_script_run .init_chat_script] ∧
    (calls_since data (cold_bring_up config ideal_world data)).drop 28 =
      [.k_work_cancel_delayable, .modem_chat_release,
        .net_if_carrier_on, .modem_chat_attach .dlci1_pipe,
        .modem_chat_script_run .net_stat_chat_script, .k_work_schedule 4000] ∧
    carrier_is_up (cold_bring_up config ideal_world data).trace = true := by
  obtain ⟨h1, h2, h3, h4, h5, h6⟩ := cold_bring_up_run config data hpower hreset hstate
  refine ⟨?_, h2, h3, ?_, ?_, ?_, h6⟩
  · rw [cold_bring_up_states, h1, h4]
    decide
  · rw [calls_since, h5, List.drop_left]
    rfl
  · rw [calls_since, h5, List.drop_left]
    simp [effects]
  · rw [calls_since, h5, List.drop_left]
    rfl

/-- C6, witness: the bring-up of a freshly initialised instance. -/
theorem C6_cold_bring_up_witness :
    modem_cellular_gpio_is_enabled config_power_only.power_gpio = true ∧
    modem_cellular_gpio_is_enabled config_power_only.reset_gpio = false ∧
    (initial_data config_power_only).state = .IDLE ∧
    (cold_bring_up_states config_power_only ideal_world
        (initial_data config_power_only)).destutter (· ≠ ·) =
      [.IDLE, .POWER_ON, .RUN_INIT_SCRIPT, .CONNECT_CMUX, .OPEN_DLCI1, .OPEN_DLCI2,
        .RUN_DIAL_SCRIPT, .REGISTER, .CARRIER_ON] :=
  ⟨by decide, by decide, by decide,
    (C6_cold_bring_up config_power_only (initial_data config_power_only)
      (by decide) (by decide) (by decide)).1⟩

/-- C6, counterexample to the claim as stated: in the bring-up of a freshly
initialised instance the first call is the opening of the UART pipe (the
`on_leave` hook of `Idle`), so the calls do not begin with "power GPIO set to
1, timer armed 1500 ms, power GPIO set to 0, timer armed 10000 ms, chat
attached to the UART pipe, init script run", whether or not the reads of the
power GPIO are counted among them. -/
theorem C6_counterexample_trace_begins_with_pipe_open :
    (calls_since (initial_data config_power_only)
      (cold_bring_up config_power_only ideal_world (initial_data config_power_only))).head? =
      some (.modem_pipe_open .uart_pipe) ∧
    ¬ ([.gpio_pin_set_dt .power_gpio 1, .k_work_schedule 1500, .gpio_pin_set_dt .power_gpio 0,
        .k_work_schedule 10000, .modem_chat_attach .uart_pipe,
        .modem_chat_script_run .init_chat_script] <+:
      calls_since (initial_data config_power_only)
        (cold_bring_up config_power_only ideal_world (initial_data config_power_only))) ∧
    ¬ ([.gpio_pin_set_dt .power_gpio 1, .k_work_schedule 1500, .gpio_pin_set_dt .power_gpio 0,
        .k_work_schedule 10000, .modem_chat_attach .uart_pipe,
        .modem_chat_script_run .init_chat_script] <+:
      effects (calls_since (initial_data config_power_only)
        (cold_bring_up config_power_only ideal_world (initial_data config_power_only)))) := by
  decide

/-- C7: suspend with a power GPIO.  For every world in which reading the
power GPIO returns the level last written to it: starting in `CarrierOn`, the
events `Suspend, Timeout, Timeout, Timeout` produce the states `CarrierOn,
CarrierOff, PowerOff, PowerOff, Idle`; entering `PowerOff` sets the power GPIO
to 1 and arms the timer for 1500 ms; the next `Timeout` sets the power GPIO to
0 and arms the timer for 10000 ms; and the suspended signal is given exactly
once, by the last `Timeout` (on leaving `PowerOff` for `Idle`) and by no
earlier step. -/
theorem C7_suspend_with_power_gpio (config : modem_cellular_config) (w : World)
    (data : modem_cellular_data)
    (hw : ∀ history, w history (.gpio_pin_get_dt .power_gpio) = gpio_level .power_gpio history)
    (hpower : modem_cellular_gpio_is_enabled config.power_gpio = true)
    (hstate : data.state = .CARRIER_ON) :
    run_states config w data [.SUSPEND, .TIMEOUT, .TIMEOUT, .TIMEOUT] =
      [.CARRIER_ON, .CARRIER_OFF, .POWER_OFF, .POWER_OFF, .IDLE] ∧
    (run config w data [.SUSPEND]).trace = data.trace ++
      [.k_work_cancel_delayable, .modem_chat_script_abort, .modem_chat_release,
        .modem_ppp_release, .net_if_carrier_off, .k_work_schedule 1000] ∧
    (run config w data [.SUSPEND, .TIMEOUT]).trace = (run config w data [.SUSPEND]).trace ++
      [.modem_cmux_release, .modem_pipe_close .uart_pipe, .gpio_pin_set_dt .power_gpio 1,
        .k_work_schedule 1500] ∧
    (run config w data [.SUSPEND, .TIMEOUT, .TIMEOUT]).trace =
      (run config w data [.SUSPEND, .TIMEOUT]).trace ++
      [.gpio_pin_get_dt .power_gpio, .gpio_pin_set_dt .power_gpio 0, .k_work_schedule 10000] ∧
    (run config w data [.SUSPEND, .TIMEOUT, .TIMEOUT, .TIMEOUT]).trace =
      (run config w data [.SUSPEND, .TIMEOUT, .TIMEOUT]).trace ++
      [.gpio_pin_get_dt .power_gpio, .k_sem_give] ∧
    (run config w data [.SUSPEND, .TIMEOUT, .TIMEOUT]).trace.count .k_sem_give =
      data.trace.count .k_sem_give ∧
    (run config w data [.SUSPEND, .TIMEOUT, .TIMEOUT, .TIMEOUT]).trace.count .k_sem_give =
      data.trace.count .k_sem_give + 1 := by
  obtain ⟨im, hwi, act, rs, ps, st, sa, rb, tr, lg⟩ := data
  simp only at hstate
  subst hstate
  simp [run_states, run, modem_cellular_event_handler, modem_cellular_log_event, log_line,
    modem_cellular_log_state_changed,
    modem_cellular_carrier_on_event_handler, modem_cellular_carrier_off_event_handler,
    modem_cellular_power_off_event_handler, modem_cellular_enter_state,
    modem_cellular_on_state_leave, modem_cellular_on_state_enter,
    modem_cellular_on_carrier_on_state_leave, modem_cellular_on_carrier_off_state_enter,
    modem_cellular_on_power_off_state_enter, modem_cellular_on_power_off_state_leave,
    modem_cellular_start_timer, modem_cellular_stop_timer, hpower, hw, gpio_level_append,
    gpio_level_step, K_SECONDS, MODEM_CELLULAR_POWER_GPIO_PULSE, MODEM_CELLULAR_SHUTDOWN_TIME]

/-- C7, witness: the suspend of an instance brought up to `CarrierOn`. -/
theorem C7_suspend_with_power_gpio_witness :
    (∀ history, ideal_world history (.gpio_pin_get_dt .power_gpio) =
      gpio_level .power_gpio history) ∧
    modem_cellular_gpio_is_enabled config_power_only.power_gpio = true ∧
    (carrier_on_data config_power_only).state = .CARRIER_ON ∧
    run_states config_power_only ideal_world (carrier_on_data config_power_only)
        [.SUSPEND, .TIMEOUT, .TIMEOUT, .TIMEOUT] =
      [.CARRIER_ON, .CARRIER_OFF, .POWER_OFF, .POWER_OFF, .IDLE] :=
  ⟨fun _ => rfl, by decide, by decide,
    (C7_suspend_with_power_gpio config_power_only ideal_world
      (carrier_on_data config_power_only) (fun _ => rfl) (by decide) (by decide)).1⟩

/-- C8, the code at the failing input: in `Register` with no power GPIO
configured, for every world, handling `Suspend` stops the timer, releases the
chat and leaves the machine in `Idle`, and these two calls are all it makes:
the suspended signal is not given (`k_sem_give` is not called). -/
theorem C8_register_suspend_without_power_gpio (config : modem_cellular_config) (w : World)
    (data : modem_cellular_data)
    (hpower : modem_cellular_gpio_is_enabled config.power_gpio = false)
    (hstate : data.state = .REGISTER) :
    (modem_cellular_event_handler config w data .SUSPEND).state = .IDLE ∧
    (modem_cellular_event_handler config w data .SUSPEND).trace =
      data.trace ++ [.k_work_cancel_delayable, .modem_chat_release] ∧
    (modem_cellular_event_handler config w data .SUSPEND).trace.count .k_sem_give =
      data.trace.count .k_sem_give := by
  obtain ⟨im, hwi, act, rs, ps, st, sa, rb, tr, lg⟩ := data
  simp only at hstate
  subst hstate
  simp [modem_cellular_event_handler, modem_cellular_log_event, log_line,
    modem_cellular_log_state_changed, modem_cellular_register_event_handler,
    modem_cellular_enter_state, modem_cellular_on_state_leave, modem_cellular_on_state_enter,
    modem_cellular_on_register_state_leave, modem_cellular_stop_timer, hpower]

/-- C8, witness: the instance brought up to `Register` without GPIOs. -/
theorem C8_register_suspend_without_power_gpio_witness :
    modem_cellular_gpio_is_enabled config_no_gpio.power_gpio = false ∧
    (register_data config_no_gpio).state = .REGISTER ∧
    (modem_cellular_event_handler config_no_gpio ideal_world (register_data config_no_gpio)
      .SUSPEND).state = .IDLE ∧
    (modem_cellular_event_handler config_no_gpio ideal_world (register_data config_no_gpio)
      .SUSPEND).trace.count .k_sem_give = 0 :=
  ⟨by decide, by decide,
    (C8_register_suspend_without_power_gpio config_no_gpio ideal_world
      (register_data config_no_gpio) (by decide) (by decide)).1,
    ((C8_register_suspend_without_power_gpio config_no_gpio ideal_world
      (register_data config_no_gpio) (by decide) (by decide)).2.2).trans (by decide)⟩

/-- In `Idle` a `Timeout` event changes neither the state nor the trace. -/
theorem idle_timeout (config : modem_cellular_config) (w : World) (data : modem_cellular_data)
    (hstate : data.state = .IDLE) :
    (modem_cellular_event_handler config w data .TIMEOUT).state = .IDLE ∧
    (modem_cellular_event_handler config w data .TIMEOUT).trace = data.trace := by
  obtain ⟨im, hwi, act, rs, ps, st, sa, rb, tr, lg⟩ := data
  simp only at hstate
  subst hstate
  simp [modem_cellular_event_handler, modem_cellular_log_event, log_line,
    modem_cellular_idle_event_handler]

/-- In `Idle` any number of `Timeout` events change neither the state nor the
trace. -/
theorem idle_timeouts (config : modem_cellular_config) (w : World) (n : Nat)
    (data : modem_cellular_data) (hstate : data.state = .IDLE) :
    (run config w data (List.replicate n .TIMEOUT)).state = .IDLE ∧
    (run config w data (List.replicate n .TIMEOUT)).trace = data.trace := by
  induction n generalizing data with
  | zero => exact ⟨hstate, rfl⟩
  | succ k ih =>
    obtain ⟨h1, h2⟩ := idle_timeout config w data hstate
    obtain ⟨g1, g2⟩ := ih (modem_cellular_event_handler config w data .TIMEOUT) h1
    simp only [run, List.replicate_succ, List.foldl_cons] at g1 g2 ⊢
    exact ⟨g1, g2.trans h2⟩

/-- C9, the code at the failing input: with no power GPIO configured, for
every world and every reset GPIO configuration, starting in `CarrierOn` a
`Suspend` event followed by one or more `Timeout` events brings the machine
to `Idle` through `CarrierOff`, and on the way the suspended signal is not
given at all: the calls made are those of leaving `CarrierOn`, entering
`CarrierOff` and, when a reset GPIO is configured, asserting it. -/
theorem C9_suspend_without_power_gpio_never_signals (config : modem_cellular_config)
    (w : World) (data : modem_cellular_data) (n : Nat)
    (hpower : modem_cellular_gpio_is_enabled config.power_gpio = false)
    (hstate : data.state = .CARRIER_ON) :
    (run config w data [.SUSPEND]).state = .CARRIER_OFF ∧
    (run config w data (.SUSPEND :: .TIMEOUT :: List.replicate n .TIMEOUT)).state = .IDLE ∧
    (run config w data (.SUSPEND :: .TIMEOUT :: List.replicate n .TIMEOUT)).trace =
      data.trace ++
        [.k_work_cancel_delayable, .modem_chat_script_abort, .modem_chat_release,
          .modem_ppp_release, .net_if_carrier_off, .k_work_schedule 1000] ++
        (if modem_cellular_gpio_is_enabled config.reset_gpio
          then [.gpio_pin_set_dt .reset_gpio 1] else []) ∧
    (run config w data (.SUSPEND :: .TIMEOUT :: List.replicate n .TIMEOUT)).trace.count
        .k_sem_give = data.trace.count .k_sem_give := by
  have key : (run config w data [.SUSPEND]).state = .CARRIER_OFF ∧
      (run config w data [.SUSPEND, .TIMEOUT]).state = .IDLE ∧
      (run config w data [.SUSPEND, .TIMEOUT]).trace =
        data.trace ++
          [.k_work_cancel_delayable, .modem_chat_script_abort, .modem_chat_release,
            .modem_ppp_release, .net_if_carrier_off, .k_work_schedule 1000] ++
          (if modem_cellular_gpio_is_enabled config.reset_gpio
            then [.gpio_pin_set_dt .reset_gpio 1] else []) := by
    obtain ⟨im, hwi, act, rs, ps, st, sa, rb, tr, lg⟩ := data
    simp only at hstate
    subst hstate
    cases hreset : modem_cellular_gpio_is_enabled config.reset_gpio <;>
      simp [run, modem_cellular_event_handler, modem_cellular_log_event, log_line,
        modem_cellular_log_state_changed, modem_cellular_carrier_on_event_handler,
        modem_cellular_carrier_off_event_handler, modem_cellular_enter_state,
        modem_cellular_on_state_leave, modem_cellular_on_state_enter,
        modem_cellular_on_carrier_on_state_leave, modem_cellular_on_carrier_off_state_enter,
        modem_cellular_start_timer, modem_cellular_stop_timer, hpower, hreset, K_SECONDS]
  obtain ⟨k1, k2, k3⟩ := key
  obtain ⟨t1, t2⟩ := idle_timeouts config w n (run config w data [.SUSPEND, .TIMEOUT]) k2
  have hrun : run config w data (.SUSPEND :: .TIMEOUT :: List.replicate n .TIMEOUT) =
      run config w (run config w data [.SUSPEND, .TIMEOUT]) (List.replicate n .TIMEOUT) := rfl
  rw [hrun, t2, k3]
  refine ⟨k1, t1, rfl, ?_⟩
  split <;> simp

/-- C9, witness: the instance brought up to `CarrierOn` without GPIOs, then
`Suspend` and three `Timeout` events. -/
theorem C9_suspend_without_power_gpio_witness :
    modem_cellular_gpio_is_enabled config_no_gpio.power_gpio = false ∧
    (carrier_on_data config_no_gpio).state = .CARRIER_ON ∧
    (run config_no_gpio ideal_world (carrier_on_data config_no_gpio)
      [.SUSPEND, .TIMEOUT, .TIMEOUT, .TIMEOUT]).state = .IDLE ∧
    (run config_no_gpio ideal_world (carrier_on_data config_no_gpio)
      [.SUSPEND, .TIMEOUT, .TIMEOUT, .TIMEOUT]).trace.count .k_sem_give = 0 :=
  ⟨by decide, by decide,
    (C9_suspend_without_power_gpio_never_signals config_no_gpio ideal_world
      (carrier_on_data config_no_gpio) 2 (by decide) (by decide)).2.1,
    ((C9_suspend_without_power_gpio_never_signals config_no_gpio ideal_world
      (carrier_on_data config_no_gpio) 2 (by decide) (by decide)).2.2.2).trans (by decide)⟩

/-! ### C10: loss of registration -/

/-- C10, the code at the failing input: loss of registration.  In `CarrierOn`,
after the `+CREG` callback has stored registration status 2 (line
`+CREG: 0,2`), for every world and configuration, handling `ScriptSuccess`
moves the machine to `RunDial` (not `Register`) and, on entering `RunDial`,
attaches the chat to the DLCI 2 pipe (arming the 500 ms timer when the attach
succeeds).  The `CarrierOn` leave stops the timer, aborts the chat script,
releases the chat and releases PPP, and these are all the calls the handler
makes: `net_if_carrier_off` is not among them, so the PPP carrier is as it was
before the event (up, after `CarrierOn` was entered) although PPP has been
released from its pipe. -/
theorem C10_loss_of_registration (config : modem_cellular_config) (w : World)
    (data : modem_cellular_data) (hstate : data.state = .CARRIER_ON) :
    (poll_not_registered data).registration_status = 2 ∧
    (modem_cellular_event_handler config w (poll_not_registered data) .SCRIPT_SUCCESS).state =
      .RUN_DIAL_SCRIPT ∧
    (modem_cellular_event_handler config w (poll_not_registered data) .SCRIPT_SUCCESS).trace =
      data.trace ++
        [.k_work_cancel_delayable, .modem_chat_script_abort, .modem_chat_release,
          .modem_ppp_release, .modem_chat_attach .dlci2_pipe] ++
        (if w (data.trace ++ [.k_work_cancel_delayable, .modem_chat_script_abort,
              .modem_chat_release, .modem_ppp_release]) (.modem_chat_attach .dlci2_pipe) < 0
          then [] else [.k_work_schedule 500]) ∧
    Call.net_if_carrier_off ∉
      calls_since data
        (modem_cellular_event_handler config w (poll_not_registered data) .SCRIPT_SUCCESS) ∧
    Call.modem_ppp_release ∈
      calls_since data
        (modem_cellular_event_handler config w (poll_not_registered data) .SCRIPT_SUCCESS) ∧
    carrier_is_up
        (modem_cellular_event_handler config w (poll_not_registered data)
          .SCRIPT_SUCCESS).trace =
      carrier_is_up data.trace := by
  obtain ⟨im, hwi, act, rs, ps, st, sa, rb, tr, lg⟩ := data
  simp only at hstate
  subst hstate
  rw [poll_not_registered_eq]
  by_cases hneg : w (tr ++ [.k_work_cancel_delayable, .modem_chat_script_abort,
      .modem_chat_release, .modem_ppp_release]) (.modem_chat_attach .dlci2_pipe) < 0 <;>
    simp [calls_since, carrier_is_up_append, modem_cellular_event_handler,
      modem_cellular_log_event, log_line,
      modem_cellular_log_state_changed, modem_cellular_carrier_on_event_handler,
      modem_cellular_is_registered, modem_cellular_enter_state, modem_cellular_on_state_leave,
      modem_cellular_on_state_enter, modem_cellular_on_carrier_on_state_leave,
      modem_cellular_on_run_dial_script_state_enter, modem_cellular_start_timer,
      modem_cellular_stop_timer, K_MSEC, EAGAIN, hneg]

/-- C10, witness: the instance brought up to `CarrierOn` loses registration. -/
theorem C10_loss_of_registration_witness :
    (carrier_on_data config_power_only).state = .CARRIER_ON ∧
    (modem_cellular_event_handler config_power_only ideal_world
      (poll_not_registered (carrier_on_data config_power_only)) .SCRIPT_SUCCESS).state =
      .RUN_DIAL_SCRIPT :=
  ⟨by decide,
    (C10_loss_of_registration config_power_only ideal_world
      (carrier_on_data config_power_only) (by decide)).2.1⟩

/-- C10, the failing input evaluated: when the instance brought up to
`CarrierOn` loses registration, the handler moves to `RunDial` and makes six
calls, none of which is `net_if_carrier_off`: the `CarrierOn` leave does not
bring the PPP carrier down, and the carrier is still up afterwards.  The
sibling exit from `CarrierOn`, on `Suspend`, brings it down on entering
`CarrierOff`. -/
theorem C10_counterexample_carrier_not_brought_down :
    (modem_cellular_event_handler config_power_only ideal_world
      (poll_not_registered (carrier_on_data config_power_only)) .SCRIPT_SUCCESS).state =
      .RUN_DIAL_SCRIPT ∧
    calls_since (carrier_on_data config_power_only)
      (modem_cellular_event_handler config_power_only ideal_world
        (poll_not_registered (carrier_on_data config_power_only)) .SCRIPT_SUCCESS) =
      [.k_work_cancel_delayable, .modem_chat_script_abort, .modem_chat_release,
        .modem_ppp_release, .modem_chat_attach .dlci2_pipe, .k_work_schedule 500] ∧
    Call.net_if_carrier_off ∉
      calls_since (carrier_on_data config_power_only)
        (modem_cellular_event_handler config_power_only ideal_world
          (poll_not_registered (carrier_on_data config_power_only)) .SCRIPT_SUCCESS) ∧
    carrier_is_up
      (modem_cellular_event_handler config_power_only ideal_world
        (poll_not_registered (carrier_on_data config_power_only)) .SCRIPT_SUCCESS).trace =
      true := by
  decide

/-! ### C11: the CMUX handshake -/

/-- C11 (as amended): in `ConnectCmux`, for every world and configuration, a
`Timeout` event issues `connect_async` and makes no other call (it keeps the
state and does not arm the timer); the 500 ms timer is armed by the `on_enter`
hook of `ConnectCmux`, once, when the CMUX attach succeeds; and a
`CmuxConnected` event moves the machine to `OpenDlci1`, whose `on_enter`
attaches the DLCI 1 pipe handler and opens the pipe. -/
theorem C11_connect_cmux_timeout_and_connected (config : modem_cellular_config) (w : World)
    (data : modem_cellular_data) (hstate : data.state = .CONNECT_CMUX) :
    (modem_cellular_event_handler config w data .TIMEOUT).state = .CONNECT_CMUX ∧
    (modem_cellular_event_handler config w data .TIMEOUT).trace =
      data.trace ++ [.modem_cmux_connect_async] ∧
    (modem_cellular_on_connect_cmux_state_enter w data).2.trace =
      data.trace ++ [.modem_cmux_attach .uart_pipe] ++
        (if w data.trace (.modem_cmux_attach .uart_pipe) < 0 then []
          else [.k_work_schedule 500]) ∧
    (modem_cellular_event_handler config w data .CMUX_CONNECTED).state = .OPEN_DLCI1 ∧
    (modem_cellular_event_handler config w data .CMUX_CONNECTED).trace =
      data.trace ++ [.modem_pipe_attach .dlci1_pipe, .modem_pipe_open_async .dlci1_pipe] := by
  obtain ⟨im, hwi, act, rs, ps, st, sa, rb, tr, lg⟩ := data
  simp only at hstate
  subst hstate
  refine ⟨?_, ?_, ?_, ?_, ?_⟩
  · simp [modem_cellular_event_handler, modem_cellular_log_event, log_line,
      modem_cellular_connect_cmux_event_handler]
  · simp [modem_cellular_event_handler, modem_cellular_log_event, log_line,
      modem_cellular_connect_cmux_event_handler]
  · simp only [modem_cellular_on_connect_cmux_state_enter, modem_cellular_start_timer,
      call_snd, call_fst, call, K_MSEC]
    split <;> simp
  · simp [modem_cellular_event_handler, modem_cellular_log_event, log_line,
      modem_cellular_log_state_changed, modem_cellular_connect_cmux_event_handler,
      modem_cellular_enter_state, modem_cellular_on_state_leave,
      modem_cellular_on_state_enter, modem_cellular_on_open_dlci1_state_enter]
    split <;> rfl
  · simp [modem_cellular_event_handler, modem_cellular_log_event, log_line,
      modem_cellular_log_state_changed, modem_cellular_connect_cmux_event_handler,
      modem_cellular_enter_state, modem_cellular_on_state_leave,
      modem_cellular_on_state_enter, modem_cellular_on_open_dlci1_state_enter]
    split <;> simp

/-- C11, witness: the instance brought up to `ConnectCmux`. -/
theorem C11_connect_cmux_witness :
    (connect_cmux_data config_power_only).state = .CONNECT_CMUX ∧
    (modem_cellular_event_handler config_power_only ideal_world
      (connect_cmux_data config_power_only) .CMUX_CONNECTED).state = .OPEN_DLCI1 :=
  ⟨by decide,
    (C11_connect_cmux_timeout_and_connected config_power_only ideal_world
      (connect_cmux_data config_power_only) (by decide)).2.2.2.1⟩

/-- C11, counterexample to the claim as stated: in the instance brought up to
`ConnectCmux` a `Timeout` event makes exactly one call, `connect_async`; it
does not arm the timer, and neither does a second `Timeout`: over both events
`k_work_schedule` is not called at all. -/
theorem C11_counterexample_timeout_does_not_arm_timer :
    calls_since (connect_cmux_data config_power_only)
      (modem_cellular_event_handler config_power_only ideal_world
        (connect_cmux_data config_power_only) .TIMEOUT) = [.modem_cmux_connect_async] ∧
    calls_since (connect_cmux_data config_power_only)
      (run config_power_only ideal_world (connect_cmux_data config_power_only)
        [.TIMEOUT, .TIMEOUT]) = [.modem_cmux_connect_async, .modem_cmux_connect_async] ∧
    Call.k_work_schedule 500 ∉
      calls_since (connect_cmux_data config_power_only)
        (run config_power_only ideal_world (connect_cmux_data config_power_only)
          [.TIMEOUT, .TIMEOUT]) := by
  decide

/-! ### C12: dial failure retry -/

/-- One failed dial attempt in `RunDial`: `ScriptFailed` arms the 500 ms timer,
the `Timeout` that follows runs the connect script, and the state stays
`RunDial`. -/
theorem dial_retry_once (config : modem_cellular_config) (w : World)
    (data : modem_cellular_data) (hstate : data.state = .RUN_DIAL_SCRIPT) :
    (modem_cellular_event_handler config w data .SCRIPT_FAILED).state = .RUN_DIAL_SCRIPT ∧
    (modem_cellular_event_handler config w data .SCRIPT_FAILED).trace =
      data.trace ++ [.k_work_schedule 500] ∧
    (run config w data [.SCRIPT_FAILED, .TIMEOUT]).state = .RUN_DIAL_SCRIPT ∧
    (run config w data [.SCRIPT_FAILED, .TIMEOUT]).trace =
      data.trace ++ [.k_work_schedule 500, .modem_chat_script_run .connect_chat_script] := by
  obtain ⟨im, hwi, act, rs, ps, st, sa, rb, tr, lg⟩ := data
  simp only at hstate
  subst hstate
  simp [run, modem_cellular_event_handler, modem_cellular_log_event, log_line,
    modem_cellular_run_dial_script_event_handler, modem_cellular_start_timer, K_MSEC]

/-- C12: dial failure retry.  In `RunDial`, for every world and configuration,
a `ScriptFailed` event keeps the state `RunDial` and arms the 500 ms timer,
and the `Timeout` that follows runs the connect script again; after every
number `n` of consecutive (`ScriptFailed`, `Timeout`) pairs the machine is
still in `RunDial`, the calls made are `n` times "arm 500 ms, run the connect
script", and the connect script has been run `n` more times. -/
theorem C12_dial_failure_retry (config : modem_cellular_config) (w : World) (n : Nat)
    (data : modem_cellular_data) (hstate : data.state = .RUN_DIAL_SCRIPT) :
    (modem_cellular_event_handler config w data .SCRIPT_FAILED).state = .RUN_DIAL_SCRIPT ∧
    (modem_cellular_event_handler config w data .SCRIPT_FAILED).trace =
      data.trace ++ [.k_work_schedule 500] ∧
    (modem_cellular_event_handler config w
      (modem_cellular_event_handler config w data .SCRIPT_FAILED) .TIMEOUT).trace =
      data.trace ++ [.k_work_schedule 500, .modem_chat_script_run .connect_chat_script] ∧
    (run config w data (dial_retry_events n)).state = .RUN_DIAL_SCRIPT ∧
    (run config w data (dial_retry_events n)).trace =
      data.trace ++
        (List.replicate n
          [.k_work_schedule 500, .modem_chat_script_run .connect_chat_script]).flatten ∧
    (run config w data (dial_retry_events n)).trace.count
        (.modem_chat_script_run .connect_chat_script) =
      data.trace.count (.modem_chat_script_run .connect_chat_script) + n := by
  have hrun : ∀ (k : Nat) (d : modem_cellular_data), d.state = .RUN_DIAL_SCRIPT →
      (run config w d (dial_retry_events k)).state = .RUN_DIAL_SCRIPT ∧
      (run config w d (dial_retry_events k)).trace =
        d.trace ++
          (List.replicate k
            [.k_work_schedule 500, .modem_chat_script_run .connect_chat_script]).flatten := by
    intro k
    induction k with
    | zero => intro d hd; simp [dial_retry_events, run, hd]
    | succ k ih =>
      intro d hd
      obtain ⟨_, _, h3, h4⟩ := dial_retry_once config w d hd
      obtain ⟨g1, g2⟩ := ih (run config w d [.SCRIPT_FAILED, .TIMEOUT]) h3
      have hsplit : run config w d (dial_retry_events (k + 1)) =
          run config w (run config w d [.SCRIPT_FAILED, .TIMEOUT]) (dial_retry_events k) := by
        simp [dial_retry_events, run, List.replicate_succ]
      rw [hsplit, g2, h4]
      exact ⟨g1, by simp [List.replicate_succ]⟩
  obtain ⟨h1, h2, _, h4⟩ := dial_retry_once config w data hstate
  obtain ⟨g1, g2⟩ := hrun n data hstate
  refine ⟨h1, h2, h4, g1, g2, ?_⟩
  have hcount : ∀ k : Nat,
      List.count (Call.modem_chat_script_run .connect_chat_script)
        (List.replicate k
          [.k_work_schedule 500, .modem_chat_script_run .connect_chat_script]).flatten = k := by
    intro k
    induction k with
    | zero => simp
    | succ k ih =>
      have hone : List.count (Call.modem_chat_script_run .connect_chat_script)
          [.k_work_schedule 500, .modem_chat_script_run .connect_chat_script] = 1 := by decide
      rw [List.replicate_succ, List.flatten_cons, List.count_append, ih, hone]
      omega
  rw [g2, List.count_append, hcount n]

/-- C12, witness: three failed dial attempts of the instance brought up to
`RunDial`. -/
theorem C12_dial_failure_retry_witness :
    (run_dial_data config_power_only).state = .RUN_DIAL_SCRIPT ∧
    (run config_power_only ideal_world (run_dial_data config_power_only)
      (dial_retry_events 3)).state = .RUN_DIAL_SCRIPT ∧
    (run config_power_only ideal_world (run_dial_data config_power_only)
      (dial_retry_events 3)).trace.count (.modem_chat_script_run .connect_chat_script) = 3 :=
  ⟨by decide,
    (C12_dial_failure_retry config_power_only ideal_world 3
      (run_dial_data config_power_only) (by decide)).2.2.2.1,
    (C12_dial_failure_retry config_power_only ideal_world 3
      (run_dial_data config_power_only) (by decide)).2.2.2.2.2.trans (by decide)⟩

/-! ### C13: `CarrierOn` is entered only when registered -/

/-- After `modem_cellular_enter_state` the state is the old one or the target. -/
theorem enter_state_state (config : modem_cellular_config) (w : World)
    (data : modem_cellular_data) (state : modem_cellular_state) :
    (modem_cellular_enter_state config w data state).state = data.state ∨
    (modem_cellular_enter_state config w data state).state = state := by
  rcases lt_or_le (modem_cellular_on_state_leave w data).1 0 with h | h
  · left
    rw [enter_state_of_leave_neg config w data state h, log_line_state, on_state_leave_state]
  · right
    exact (enter_state_of_leave_nonneg config w data state h).1

/-- The state after an event is the state before it or a documented successor. -/
theorem event_handler_state_mem (config : modem_cellular_config) (w : World)
    (data : modem_cellular_data) (evt : modem_cellular_event) :
    (modem_cellular_event_handler config w data evt).state = data.state ∨
    (modem_cellular_event_handler config w data evt).state ∈
      documented_successors data.state := by
  rcases event_handler_cases config w data evt with h | ⟨pre, s, hpre, _, hs, hst, _⟩
  · exact Or.inl h
  · rcases enter_state_state config w pre s with h | h
    · exact Or.inl (by rw [hst, h, hpre])
    · exact Or.inr (by rw [hst, h]; exact hs)

/-- What an event does to the state in `Register`: only `ScriptSuccess` with
the stored poll results `registration_status = 5` and
`packet_service_attached = 1` leads to `CarrierOn`, and it always does. -/
theorem register_event_state (config : modem_cellular_config) (w : World)
    (data : modem_cellular_data) (evt : modem_cellular_event)
    (hstate : data.state = .REGISTER) :
    ((modem_cellular_event_handler config w data evt).state = .CARRIER_ON →
      evt = .SCRIPT_SUCCESS ∧ data.registration_status = 5 ∧
        data.packet_service_attached = 1) ∧
    (data.registration_status = 5 → data.packet_service_attached = 1 →
      (modem_cellular_event_handler config w data .SCRIPT_SUCCESS).state = .CARRIER_ON) ∧
    (¬ (data.registration_status = 5 ∧ data.packet_service_attached = 1) →
      (modem_cellular_event_handler config w data .SCRIPT_SUCCESS).state = .REGISTER) := by
  obtain ⟨im, hwi, act, rs, ps, st, sa, rb, tr, lg⟩ := data
  simp only at hstate
  subst hstate
  refine ⟨?_, ?_, ?_⟩
  · cases hp : modem_cellular_gpio_is_enabled config.power_gpio <;> cases evt <;>
      simp [modem_cellular_event_handler, modem_cellular_log_event, log_line,
        modem_cellular_log_state_changed, modem_cellular_register_event_handler,
        modem_cellular_is_registered, modem_cellular_enter_state,
        modem_cellular_on_state_leave, modem_cellular_on_state_enter,
        modem_cellular_on_register_state_leave, modem_cellular_on_power_off_state_enter,
        modem_cellular_on_carrier_on_state_enter, modem_cellular_start_timer,
        modem_cellular_stop_timer, hp]
    all_goals
      intro h
      by_contra hne
      simp only [not_and] at hne
      have : ¬ (rs = 5 ∧ ps = 1) := fun hh => hne hh.1 hh.2
      simp [this] at h
  · intro h5 h1
    simp only at h5 h1
    subst h5 h1
    simp [modem_cellular_event_handler, modem_cellular_log_event, log_line,
      modem_cellular_log_state_changed, modem_cellular_register_event_handler,
      modem_cellular_is_registered, modem_cellular_enter_state,
      modem_cellular_on_state_leave, modem_cellular_on_state_enter,
      modem_cellular_on_register_state_leave, modem_cellular_on_carrier_on_state_enter,
      modem_cellular_start_timer, modem_cellular_stop_timer]
  · intro hne
    simp only at hne
    simp [modem_cellular_event_handler, modem_cellular_log_event, log_line,
      modem_cellular_register_event_handler, modem_cellular_is_registered, hne]

/-- C13: `CarrierOn` is never entered unless the stored poll results are
`registration_status = 5` and `packet_service_attached = 1`.  For every state,
event, configuration and world: if `modem_cellular_event_handler` changes the
state to `CarrierOn`, the previous state was `Register`, the event was
`ScriptSuccess`, and the stored values were 5 and 1 at that moment.
Conversely, in `Register` a `ScriptSuccess` with these values always moves to
`CarrierOn`, and with any other values leaves the state `Register`. -/
theorem C13_carrier_on_only_when_registered (config : modem_cellular_config) (w : World)
    (data : modem_cellular_data) (evt : modem_cellular_event) :
    ((modem_cellular_event_handler config w data evt).state = .CARRIER_ON →
      data.state ≠ .CARRIER_ON →
      data.state = .REGISTER ∧ evt = .SCRIPT_SUCCESS ∧
        data.registration_status = 5 ∧ data.packet_service_attached = 1) ∧
    (data.state = .REGISTER →
      data.registration_status = 5 → data.packet_service_attached = 1 →
      (modem_cellular_event_handler config w data .SCRIPT_SUCCESS).state = .CARRIER_ON) ∧
    (data.state = .REGISTER →
      ¬ (data.registration_status = 5 ∧ data.packet_service_attached = 1) →
      (modem_cellular_event_handler config w data .SCRIPT_SUCCESS).state = .REGISTER) := by
  refine ⟨?_, ?_, ?_⟩
  · intro hnew hold
    have hreg : data.state = .REGISTER := by
      rcases event_handler_state_mem config w data evt with h | h
      · exact absurd (h ▸ hnew) hold
      · rw [hnew] at h
        revert h hold
        cases data.state <;> simp [documented_successors]
    exact ⟨hreg, (register_event_state config w data evt hreg).1 hnew⟩
  · intro hreg
    exact (register_event_state config w data evt hreg).2.1
  · intro hreg
    exact (register_event_state config w data evt hreg).2.2

/-! ### C16: `Resume` outside `Idle` -/

/-- C16: `Resume` events while not in `Idle` are no-ops.  For every state
other than `Idle`, every configuration and every world,
`modem_cellular_event_handler` with event `Resume` returns the data it was
given with one more line in the log (the event): the state, the stored modem
data, the suspend flag and the event queue are unchanged, and the trace is
unchanged, that is, no collaborator call is made. -/
theorem C16_resume_outside_idle_is_noop (config : modem_cellular_config) (w : World)
    (data : modem_cellular_data) (hstate : data.state ≠ .IDLE) :
    modem_cellular_event_handler config w data .RESUME =
      { data with log := data.log ++ [.event .RESUME] } ∧
    (modem_cellular_event_handler config w data .RESUME).state = data.state ∧
    (modem_cellular_event_handler config w data .RESUME).trace = data.trace := by
  obtain ⟨im, hwi, act, rs, ps, st, sa, rb, tr, lg⟩ := data
  simp only at hstate
  cases st <;>
    first
      | exact absurd rfl hstate
      | simp [modem_cellular_event_handler, modem_cellular_log_event, log_line,
          modem_cellular_power_on_event_handler, modem_cellular_run_init_script_event_handler,
          modem_cellular_connect_cmux_event_handler, modem_cellular_open_dlci1_event_handler,
          modem_cellular_open_dlci2_event_handler, modem_cellular_run_dial_script_event_handler,
          modem_cellular_register_event_handler, modem_cellular_carrier_on_event_handler,
          modem_cellular_carrier_off_event_handler, modem_cellular_power_off_event_handler]

/-- C16, witness: a `Resume` event in the instance brought up to `CarrierOn`. -/
theorem C16_resume_outside_idle_witness :
    (carrier_on_data config_power_only).state ≠ .IDLE ∧
    (modem_cellular_event_handler config_power_only ideal_world
      (carrier_on_data config_power_only) .RESUME).trace =
      (carrier_on_data config_power_only).trace :=
  ⟨by decide,
    (C16_resume_outside_idle_is_noop config_power_only ideal_world
      (carrier_on_data config_power_only) (by decide)).2.2⟩

/-! ### C14, C15: the IMEI callback -/

/-- Reading every position of a list and mapping is mapping the list. -/
theorem map_range_getD (f : Nat → Nat) (d : List Nat) :
    (List.range d.length).map (fun i => f (d.getD i 0)) = d.map f := by
  apply List.ext_getElem
  · simp
  · intro i h1 h2
    simp only [List.length_map, List.length_range] at h1
    simp [List.getD_eq_getElem?_getD, List.getElem?_eq_getElem h1]

/-- Narrowing `b - '0'` to `uint8_t` for a digit character `b`. -/
theorem to_uint8_digit (b : Nat) (h1 : 48 ≤ b) (h2 : b ≤ 57) :
    to_uint8 ((b : Int) - 48) = b - 48 := by
  unfold to_uint8
  omega

/-- C15: for every string `d` of exactly 15 decimal digit characters,
`modem_cellular_chat_on_imei` called with `argc = 2` and `argv[1] = d` stores
`imei[i] = ` the numeric value of `d[i]` for every `i < 15` and changes no
other field; for `"123456789012345"` the stored bytes are
1,2,3,4,5,6,7,8,9,0,1,2,3,4,5; when `argc ≠ 2` or the length of `argv[1]` is
not 15 the data, and with it the stored IMEI, is left unchanged. -/
theorem C15_imei_callback_stores_digit_values (data : modem_cellular_data)
    (argv : List (List Nat)) :
    ((argv.getD 1 []).length = 15 → (∀ b ∈ argv.getD 1 [], 48 ≤ b ∧ b ≤ 57) →
      modem_cellular_chat_on_imei data argv 2 =
        { data with imei := (argv.getD 1 []).map (fun b => b - 48) }) ∧
    (modem_cellular_chat_on_imei data [[], c_str "123456789012345"] 2).imei =
      [1, 2, 3, 4, 5, 6, 7, 8, 9, 0, 1, 2, 3, 4, 5] ∧
    (∀ argc, argc ≠ 2 → modem_cellular_chat_on_imei data argv argc = data) ∧
    (∀ argc, (argv.getD 1 []).length ≠ 15 →
      modem_cellular_chat_on_imei data argv argc = data) := by
  refine ⟨?_, rfl, ?_, ?_⟩
  · intro hlen hdig
    have hmap : (List.range 15).map
        (fun i => to_uint8 (((argv.getD 1 []).getD i 0 : Int) - 48)) =
        (argv.getD 1 []).map (fun b : Nat => to_uint8 ((b : Int) - 48)) := by
      rw [← hlen]
      exact map_range_getD (fun b : Nat => to_uint8 ((b : Int) - 48)) (argv.getD 1 [])
    have hval : (argv.getD 1 []).map (fun b : Nat => to_uint8 ((b : Int) - 48)) =
        (argv.getD 1 []).map (fun b => b - 48) := by
      apply List.map_congr_left
      intro b hb
      exact to_uint8_digit b (hdig b hb).1 (hdig b hb).2
    simp only [modem_cellular_chat_on_imei, hlen, bne_self_eq_false, Bool.false_eq_true,
      if_false, hmap, hval]
  · intro argc hargc
    have h : (argc != 2) = true := by simpa [bne_iff_ne] using hargc
    simp only [modem_cellular_chat_on_imei, h, if_true]
  · intro argc hlen
    have h : ((argv.getD 1 []).length != 15) = true := bne_iff_ne.mpr hlen
    simp only [modem_cellular_chat_on_imei, h, if_true]
    split <;> rfl

/-- One invocation of `modem_cellular_chat_on_imei` that is rejected or
carries 15 digit characters keeps the stored IMEI 15 digit-valued bytes. -/
theorem chat_on_imei_keeps_digits (data : modem_cellular_data) (c : List (List Nat) × Nat)
    (hc : rejected_or_digits c)
    (h : data.imei.length = 15 ∧ ∀ b ∈ data.imei, b ≤ 9) :
    (modem_cellular_chat_on_imei data c.1 c.2).imei.length = 15 ∧
    ∀ b ∈ (modem_cellular_chat_on_imei data c.1 c.2).imei, b ≤ 9 := by
  unfold modem_cellular_chat_on_imei
  split
  · exact h
  · rename_i hargc
    split
    · exact h
    · rename_i hlen
      have hargc2 : c.2 = 2 := by simpa using hargc
      have hlen15 : (c.1.getD 1 []).length = 15 := by simpa using hlen
      refine ⟨by simp, ?_⟩
      intro b hb
      simp only [List.mem_map, List.mem_range] at hb
      obtain ⟨i, hi, rfl⟩ := hb
      have hmem : (c.1.getD 1 []).getD i 0 ∈ c.1.getD 1 [] := by
        have hi2 : i < (c.1.getD 1 []).length := by rw [hlen15]; exact hi
        rw [List.getD_eq_getElem (l := c.1.getD 1 []) 0 hi2]
        exact List.getElem_mem hi2
      obtain ⟨h1, h2⟩ := hc hargc2 hlen15 _ hmem
      rw [to_uint8_digit _ h1 h2]
      omega

/-- The stored IMEI is 15 digit-valued bytes as long as the arguments are
digits: starting from an IMEI of 15 digit-valued bytes (the initial all-zero
IMEI is one), after any sequence of calls to `modem_cellular_chat_on_imei` in
which every call is either rejected (`argc ≠ 2`, or `argv[1]` not 15 bytes
long) or carries 15 decimal digit characters, every one of the 15 stored bytes
is a value in 0..9. -/
theorem imei_stays_digits_for_digit_arguments (data : modem_cellular_data)
    (calls : List (List (List Nat) × Nat))
    (hcalls : ∀ c ∈ calls, rejected_or_digits c)
    (h : data.imei.length = 15 ∧ ∀ b ∈ data.imei, b ≤ 9) :
    (imei_calls data calls).imei.length = 15 ∧
    ∀ b ∈ (imei_calls data calls).imei, b ≤ 9 := by
  induction calls generalizing data with
  | nil => exact h
  | cons c cs ih =>
    exact ih (modem_cellular_chat_on_imei data c.1 c.2)
      (fun c1 hc1 => hcalls c1 (List.mem_cons_of_mem c hc1))
      (chat_on_imei_keeps_digits data c (hcalls c (List.mem_cons_self c cs)) h)

/-- An example of digit arguments: from the all-zero IMEI, a call with
`argc = 3`, a call with a 14-character line and a call with the 15 digits
`123456789012345`. -/
theorem imei_stays_digits_example :
    (∀ c ∈ [([[], c_str "123456789012345"], 3), ([[], c_str "+CME ERROR: 10"], 2),
        ([[], c_str "123456789012345"], 2)], rejected_or_digits c) ∧
    (modem_cellular_data_zero.imei.length = 15 ∧ ∀ b ∈ modem_cellular_data_zero.imei, b ≤ 9) ∧
    ∀ b ∈ (imei_calls modem_cellular_data_zero
        [([[], c_str "123456789012345"], 3), ([[], c_str "+CME ERROR: 10"], 2),
          ([[], c_str "123456789012345"], 2)]).imei, b ≤ 9 :=
  ⟨by unfold rejected_or_digits; decide, by decide,
    (imei_stays_digits_for_digit_arguments modem_cellular_data_zero
      [([[], c_str "123456789012345"], 3), ([[], c_str "+CME ERROR: 10"], 2),
        ([[], c_str "123456789012345"], 2)]
      (by unfold rejected_or_digits; decide) (by decide)).2⟩

/-- C14, the code at the failing input: `modem_cellular_chat_on_imei` checks
`argc` and the length of `argv[1]` and nothing else.  For every modem data and
every `argv[1]` of 15 bytes, a call with `argc = 2` stores 15 bytes, and at
every position `i` whose character is not a decimal digit the stored byte is
`argv[1][i] - '0'` narrowed to `uint8_t`, a value above 9: the stored IMEI is
not digit-valued. -/
theorem C14_non_digit_argument_is_stored (data : modem_cellular_data)
    (argv : List (List Nat)) (i : Nat)
    (hlen : (argv.getD 1 []).length = 15) (hi : i < 15)
    (hbyte : (argv.getD 1 []).getD i 0 < 256)
    (hnd : ¬ (48 ≤ (argv.getD 1 []).getD i 0 ∧ (argv.getD 1 []).getD i 0 ≤ 57)) :
    (modem_cellular_chat_on_imei data argv 2).imei.length = 15 ∧
    (modem_cellular_chat_on_imei data argv 2).imei.getD i 0 =
      to_uint8 (((argv.getD 1 []).getD i 0 : Int) - 48) ∧
    9 < (modem_cellular_chat_on_imei data argv 2).imei.getD i 0 := by
  have h2 : ((2 : Nat) != 2) = false := by decide
  have h15 : ((argv.getD 1 []).length != 15) = false := by rw [hlen]; decide
  simp only [modem_cellular_chat_on_imei, h2, h15, Bool.false_eq_true, if_false]
  have hget : ((List.range 15).map
      (fun i => to_uint8 (((argv.getD 1 []).getD i 0 : Int) - 48))).getD i 0 =
      to_uint8 (((argv.getD 1 []).getD i 0 : Int) - 48) := by
    simp [List.getD_eq_getElem?_getD, List.getElem?_range hi]
  refine ⟨by simp, hget, ?_⟩
  rw [hget]
  generalize (argv.getD 1 []).getD i 0 = b at hbyte hnd
  unfold to_uint8
  omega

/-- C14, witness: the first character of the line `+CME ERROR: 100` is `+`
(43), not a digit. -/
theorem C14_non_digit_argument_witness :
    ([[], c_str "+CME ERROR: 100"].getD 1 []).length = 15 ∧
    ([[], c_str "+CME ERROR: 100"].getD 1 []).getD 0 0 = 43 ∧
    9 < (modem_cellular_chat_on_imei modem_cellular_data_zero
      [[], c_str "+CME ERROR: 100"] 2).imei.getD 0 0 :=
  ⟨by decide, by decide,
    (C14_non_digit_argument_is_stored modem_cellular_data_zero
      [[], c_str "+CME ERROR: 100"] 0 (by decide) (by decide) (by decide) (by decide)).2.2⟩

/-- C14, the failing input evaluated: the line `+CME ERROR: 100` (an error
answer the modem may give to `AT+CGSN` after `AT+CMEE=1`; `imei_match` accepts
any line and only `ERROR` aborts the script) is 15 characters long, so
`modem_cellular_chat_on_imei` called with `argc = 2` and this line as
`argv[1]` overwrites the all-zero IMEI with the bytes `c - '0'` narrowed to
`uint8_t`, most of which are not digit values. -/
theorem C14_counterexample_non_digit_line_is_stored :
    (c_str "+CME ERROR: 100").length = 15 ∧
    modem_cellular_data_zero.imei = List.replicate 15 0 ∧
    (modem_cellular_chat_on_imei modem_cellular_data_zero [[], c_str "+CME ERROR: 100"] 2).imei =
      [251, 19, 29, 21, 240, 21, 34, 34, 31, 34, 10, 240, 1, 0, 0] ∧
    ¬ (∀ b ∈ (modem_cellular_chat_on_imei modem_cellular_data_zero
        [[], c_str "+CME ERROR: 100"] 2).imei, b ≤ 9) := by
  decide

/-! ### C20: how often a suspend request is observed -/

/-- Delegating events keeps the capacity of the queue. -/
theorem delegate_all_size (w : World) (evts : List modem_cellular_event)
    (data : modem_cellular_data) :
    (delegate_all w data evts).event_rb.size = data.event_rb.size := by
  induction evts generalizing data with
  | nil => rfl
  | cons e es ih =>
    have h := ih (modem_cellular_delegate_event w data e)
    simp only [delegate_all, List.foldl_cons] at h ⊢
    rw [h, (delegate_event_frame w data e).1, ring_buf_put_size]

/-- Handling events keeps the capacity of the queue. -/
theorem dispatch_size (config : modem_cellular_config) (w : World)
    (data : modem_cellular_data)
    (h : data.event_rb.items.length ≤ sizeof_event_buf) :
    (modem_cellular_event_dispatch_handler config w data).event_rb.size =
      data.event_rb.size := by
  rw [dispatch_eq config w data h]
  split
  · rw [(event_handler_frame config w _ .SUSPEND).2.1, (run_frame config w _ _).2.1]
  · rw [(run_frame config w _ _).2.1]

/-- One drain pass on an empty queue of capacity 8: the queue is empty again
afterwards, capacity and suspend flag are kept, and the handler is invoked on
the first 8 events of the batch, then on `Suspend` when the flag is set. -/
theorem drain_pass_frame (config : modem_cellular_config) (w : World)
    (data : modem_cellular_data) (batch : List modem_cellular_event)
    (hempty : data.event_rb.items = []) (hsize : data.event_rb.size = sizeof_event_buf) :
    (drain_pass config w data batch).event_rb.items = [] ∧
    (drain_pass config w data batch).event_rb.size = sizeof_event_buf ∧
    (drain_pass config w data batch).suspend_atomic = data.suspend_atomic ∧
    handled_events (drain_pass config w data batch).log =
      handled_events data.log ++ (batch.take 8 ++
        (if data.suspend_atomic ≠ 0 then [.SUSPEND] else [])) := by
  have hle : data.event_rb.items.length ≤ data.event_rb.size := by simp [hempty]
  obtain ⟨f1, f2, _, f4⟩ := delegate_all_frame w batch data hle
  have hitems : (delegate_all w data batch).event_rb.items = batch.take 8 := by
    rw [f1, hempty, hsize]
    rfl
  have hlen : (delegate_all w data batch).event_rb.items.length ≤ sizeof_event_buf := by
    rw [hitems, List.length_take]
    exact Nat.min_le_left _ _
  have hqsize := dispatch_size config w (delegate_all w data batch) hlen
  rw [delegate_all_size, hsize] at hqsize
  have hd := dispatch_eq config w (delegate_all w data batch) hlen
  generalize hd0 : ({ delegate_all w data batch with
    event_rb := { (delegate_all w data batch).event_rb with items := [] } } :
    modem_cellular_data) = d0 at hd
  have hlog : d0.log = data.log := by rw [← hd0]; exact f4
  have hrb : d0.event_rb.items = [] := by rw [← hd0]
  have hflag : d0.suspend_atomic = data.suspend_atomic := by rw [← hd0]; exact f2
  obtain ⟨r1, r2, r3⟩ := run_frame config w (delegate_all w data batch).event_rb.items d0
  rw [hlog, hitems] at r3
  rw [hitems] at hd r1 r2
  refine ⟨?_, hqsize, ?_, ?_⟩
  · unfold drain_pass
    rw [hd]
    split
    · rw [(event_handler_frame config w _ .SUSPEND).2.1, r2, hrb]
    · rw [r2, hrb]
  · unfold drain_pass
    rw [hd]
    split
    · rw [(event_handler_frame config w _ .SUSPEND).1, r1, hflag]
    · rw [r1, hflag]
  · unfold drain_pass
    rw [hd, f2]
    by_cases hf : data.suspend_atomic = 0
    · simp only [hf, bne_self_eq_false, Bool.false_eq_true, if_false, ne_eq, not_true_eq_false,
        List.append_nil]
      exact r3
    · have hb : (data.suspend_atomic != 0) = true := by simp [hf]
      rw [hb, if_pos rfl, if_pos hf]
      rw [(event_handler_frame config w _ .SUSPEND).2.2, r3, List.append_assoc]

/-- A sequence of drain passes with the suspend flag set, starting from an
empty queue of capacity 8: every pass handles the first 8 events of its batch
and then `Suspend`. -/
theorem drain_passes_frame (config : modem_cellular_config) (w : World)
    (batches : List (List modem_cellular_event)) (data : modem_cellular_data)
    (hflag : data.suspend_atomic ≠ 0)
    (hempty : data.event_rb.items = []) (hsize : data.event_rb.size = sizeof_event_buf) :
    handled_events (drain_passes config w data batches).log =
      handled_events data.log ++
        (batches.map (fun batch => batch.take 8 ++ [.SUSPEND])).flatten := by
  induction batches generalizing data with
  | nil => simp [drain_passes]
  | cons b bs ih =>
    obtain ⟨p1, p2, p3, p4⟩ := drain_pass_frame config w data b hempty hsize
    have h := ih (drain_pass config w data b) (by rw [p3]; exact hflag) p1 p2
    simp only [drain_passes, List.foldl_cons] at h ⊢
    rw [h, p4, if_pos hflag]
    simp

/-- The number of `Suspend` events in what a sequence of passes handles, when
no batch holds one: one per pass. -/
theorem count_suspend_per_pass (batches : List (List modem_cellular_event))
    (hreal : ∀ batch ∈ batches, modem_cellular_event.SUSPEND ∉ batch) :
    List.count modem_cellular_event.SUSPEND
        (batches.map (fun batch => batch.take 8 ++ [.SUSPEND])).flatten =
      batches.length := by
  induction batches with
  | nil => simp
  | cons b bs ih =>
    have hb : List.count modem_cellular_event.SUSPEND (b.take 8) = 0 := by
      rw [List.count_eq_zero]
      intro hmem
      exact hreal b (List.mem_cons_self b bs) (List.mem_of_mem_take hmem)
    have hrest := ih (fun batch hbatch => hreal batch (List.mem_cons_of_mem b hbatch))
    rw [List.map_cons, List.flatten_cons, List.count_append, List.count_append, hb, hrest,
      List.length_cons]
    simp
    omega

/-- C20 (as amended): once the suspend flag is set (and not cleared by a
`Resume` action), every drain pass that follows invokes
`modem_cellular_event_handler` with the `Suspend` event exactly once, as the
last event of the pass, after the real events of that pass: starting from an
empty queue, the events handled over a sequence of passes are, pass by pass,
the delegated events (the first 8 of them) followed by `Suspend`; so over `k`
passes of real events the handler is invoked with `Suspend` `k` times. -/
theorem C20_suspend_handled_once_per_pass (config : modem_cellular_config) (w : World)
    (batches : List (List modem_cellular_event)) (data : modem_cellular_data)
    (hflag : data.suspend_atomic ≠ 0)
    (hempty : data.event_rb.items = []) (hsize : data.event_rb.size = sizeof_event_buf) :
    handled_events (drain_passes config w data batches).log =
      handled_events data.log ++
        (batches.map (fun batch => batch.take 8 ++ [.SUSPEND])).flatten ∧
    ((∀ batch ∈ batches, modem_cellular_event.SUSPEND ∉ batch) →
      List.count modem_cellular_event.SUSPEND
          (handled_events (drain_passes config w data batches).log) =
        List.count modem_cellular_event.SUSPEND (handled_events data.log) +
          batches.length) := by
  have h := drain_passes_frame config w batches data hflag hempty hsize
  refine ⟨h, fun hreal => ?_⟩
  rw [h, List.count_append, count_suspend_per_pass batches hreal]

/-- C20, witness: a suspend request to the instance brought up to `CarrierOn`
(the flag is set by `modem_cellular_pm_action`), followed by three passes of
one `Timeout` each. -/
theorem C20_suspend_handled_once_per_pass_witness :
    (suspend_requested_data config_power_only).suspend_atomic ≠ 0 ∧
    (suspend_requested_data config_power_only).event_rb.items = [] ∧
    (suspend_requested_data config_power_only).event_rb.size = sizeof_event_buf ∧
    handled_events (drain_passes config_power_only ideal_world
        (suspend_requested_data config_power_only) [[.TIMEOUT], [.TIMEOUT], [.TIMEOUT]]).log =
      handled_events (suspend_requested_data config_power_only).log ++
        [.TIMEOUT, .SUSPEND, .TIMEOUT, .SUSPEND, .TIMEOUT, .SUSPEND] :=
  ⟨by decide, by decide, by decide,
    (C20_suspend_handled_once_per_pass config_power_only ideal_world
      [[.TIMEOUT], [.TIMEOUT], [.TIMEOUT]] (suspend_requested_data config_power_only)
      (by decide) (by decide) (by decide)).1⟩

/-- C20, counterexample to the claim as stated: after one suspend request to
the instance brought up to `CarrierOn`, two drain passes of one `Timeout` each
invoke the handler with `Suspend` twice, not once: the first pass moves the
machine to `CarrierOff`, and the second pass ends with `Suspend` again. -/
theorem C20_counterexample_suspend_handled_in_every_pass :
    List.count modem_cellular_event.SUSPEND
      (handled_events (suspend_requested_data config_power_only).log) = 0 ∧
    (drain_pass config_power_only ideal_world (suspend_requested_data config_power_only)
      [.TIMEOUT]).state = .CARRIER_OFF ∧
    (handled_events (drain_passes config_power_only ideal_world
        (suspend_requested_data config_power_only) [[.TIMEOUT], [.TIMEOUT]]).log).drop
      (handled_events (suspend_requested_data config_power_only).log).length =
      [.TIMEOUT, .SUSPEND, .TIMEOUT, .SUSPEND] ∧
    List.count modem_cellular_event.SUSPEND
      (handled_events (drain_passes config_power_only ideal_world
        (suspend_requested_data config_power_only) [[.TIMEOUT], [.TIMEOUT]]).log) = 2 := by
  decide

/-! ### C17, C18, C19: attachments of the protocol stacks -/

/-- The `on_leave` hook returns a negative value only in `Idle` (the UART
pipe fails to open) and in `RunDial` (PPP fails to attach). -/
theorem leave_neg_state (w : World) (data : modem_cellular_data)
    (h : (modem_cellular_on_state_leave w data).1 < 0) :
    data.state = .IDLE ∨ data.state = .RUN_DIAL_SCRIPT := by
  obtain ⟨im, hwi, act, rs, ps, st, sa, rb, tr, lg⟩ := data
  cases st <;>
    simp [modem_cellular_on_state_leave, modem_cellular_on_idle_state_leave,
      modem_cellular_on_run_init_script_state_leave, modem_cellular_on_open_dlci1_state_leave,
      modem_cellular_on_open_dlci2_state_leave, modem_cellular_on_run_dial_script_state_leave,
      modem_cellular_on_register_state_leave, modem_cellular_on_carrier_on_state_leave,
      modem_cellular_on_power_off_state_leave, modem_cellular_stop_timer] at h ⊢

/-- A chat callback changes neither the state nor the trace. -/
theorem chat_step_frame (config : modem_cellular_config) (w : World)
    (data : modem_cellular_data) (input : Input) (h : ∀ evt, input ≠ .event evt) :
    (step config w data input).state = data.state ∧
    (step config w data input).trace = data.trace := by
  cases input with
  | event evt => exact absurd rfl (h evt)
  | chat_on_imei argv argc =>
    simp only [step]
    unfold modem_cellular_chat_on_imei
    split
    · exact ⟨rfl, rfl⟩
    · split <;> exact ⟨rfl, rfl⟩
  | chat_on_cgmm argv argc =>
    simp only [step]
    unfold modem_cellular_chat_on_cgmm
    split <;> exact ⟨rfl, rfl⟩
  | chat_on_creg argv argc =>
    simp only [step]
    unfold modem_cellular_chat_on_creg
    split <;> exact ⟨rfl, rfl⟩
  | chat_on_cgatt argv argc =>
    simp only [step]
    unfold modem_cellular_chat_on_cgatt
    split <;> exact ⟨rfl, rfl⟩

/-- The scan of a history extended by one call. -/
theorem attach_run_append (w : World) (history : List Call) (c : Call) :
    attach_run w (history ++ [c]) = attach_scan w (attach_run w history) c := by
  simp [attach_run, List.foldl_append]

/-- The scan carries the history it has gone through. -/
theorem attach_run_history (w : World) (history : List Call) :
    (attach_run w history).2.1 = history := by
  induction history using List.reverseRecOn with
  | nil => rfl
  | append_singleton h c ih =>
    rw [attach_run_append]
    simp only [attach_scan, ih]

/-- C17, the code at the failing input: without a power GPIO, bring the
instance up to `Register`, suspend it (the machine goes straight to `Idle`,
CMUX is not released) and resume it.  The machine is then in `RunInit` with
the chat attached to the UART pipe while CMUX is still attached to it: two
consumers on the UART pipe.  The same holds when the instance is suspended in
`CarrierOn` (through `CarrierOff` to `Idle`) and resumed. -/
theorem C17_chat_and_cmux_on_uart_after_resume :
    (run config_no_gpio ideal_world (initial_data config_no_gpio)
      suspend_in_register_events).state = .RUN_INIT_SCRIPT ∧
    (attachments (run config_no_gpio ideal_world (initial_data config_no_gpio)
      suspend_in_register_events).trace).chat = some .uart_pipe ∧
    (attachments (run config_no_gpio ideal_world (initial_data config_no_gpio)
      suspend_in_register_events).trace).cmux = some .uart_pipe ∧
    consumers (attachments (run config_no_gpio ideal_world (initial_data config_no_gpio)
      suspend_in_register_events).trace) .uart_pipe = 2 ∧
    Call.modem_cmux_release ∉
      (run config_no_gpio ideal_world (initial_data config_no_gpio)
        suspend_in_register_events).trace ∧
    (run config_no_gpio ideal_world (carrier_on_data config_no_gpio)
      [.SUSPEND, .TIMEOUT, .RESUME]).state = .RUN_INIT_SCRIPT ∧
    consumers (attachments (run config_no_gpio ideal_world (carrier_on_data config_no_gpio)
      [.SUSPEND, .TIMEOUT, .RESUME]).trace) .uart_pipe = 2 := by
  decide

set_option maxRecDepth 4096 in
/-- C18, the code at the failing input: with a power GPIO, bring the instance
up to `Register` (PPP was attached to the DLCI 2 pipe on leaving `RunDial`),
suspend it there (PPP is not released) and bring it up again.  The machine is
then in `RunDial` with the chat attached to the DLCI 2 pipe while PPP is still
attached to it: two consumers on the DLCI 2 pipe.  The same holds without
GPIOs. -/
theorem C18_chat_and_ppp_on_dlci2_after_suspend_in_register :
    (run config_power_only ideal_world (initial_data config_power_only)
      redial_after_suspend_events).state = .RUN_DIAL_SCRIPT ∧
    (attachments (run config_power_only ideal_world (initial_data config_power_only)
      redial_after_suspend_events).trace).chat = some .dlci2_pipe ∧
    (attachments (run config_power_only ideal_world (initial_data config_power_only)
      redial_after_suspend_events).trace).ppp = some .dlci2_pipe ∧
    consumers (attachments (run config_power_only ideal_world (initial_data config_power_only)
      redial_after_suspend_events).trace) .dlci2_pipe = 2 ∧
    Call.modem_ppp_release ∉
      (run config_power_only ideal_world (initial_data config_power_only)
        redial_after_suspend_events).trace ∧
    (run config_no_gpio ideal_world (initial_data config_no_gpio)
      redial_after_suspend_no_gpio_events).state = .RUN_DIAL_SCRIPT ∧
    consumers (attachments (run config_no_gpio ideal_world (initial_data config_no_gpio)
      redial_after_suspend_no_gpio_events).trace) .dlci2_pipe = 2 := by
  decide

/-! ### The outcomes of a step -/

/-- The trace after the `on_leave` hook: the calls of `leave_calls` are appended. -/
theorem leave_trace_eq (w : World) (data : modem_cellular_data) :
    (modem_cellular_on_state_leave w data).2.trace = data.trace ++ leave_calls data.state := by
  obtain ⟨im, hwi, act, rs, ps, st, sa, rb, tr, lg⟩ := data
  cases st <;>
    simp [modem_cellular_on_state_leave, modem_cellular_on_idle_state_leave,
      modem_cellular_on_run_init_script_state_leave, modem_cellular_on_open_dlci1_state_leave,
      modem_cellular_on_open_dlci2_state_leave, modem_cellular_on_run_dial_script_state_leave,
      modem_cellular_on_register_state_leave, modem_cellular_on_carrier_on_state_leave,
      modem_cellular_on_power_off_state_leave, modem_cellular_stop_timer, leave_calls]

/-- The trace after the `on_enter` hook: one of the call lists of `enter_outcomes`
is appended. -/
theorem enter_trace_mem (config : modem_cellular_config) (w : World)
    (data : modem_cellular_data) :
    ∃ cs ∈ enter_outcomes (modem_cellular_gpio_is_enabled config.power_gpio) data.state,
      (modem_cellular_on_state_enter config w data).2.trace = data.trace ++ cs := by
  obtain ⟨im, hwi, act, rs, ps, st, sa, rb, tr, lg⟩ := data
  cases hp : modem_cellular_gpio_is_enabled config.power_gpio <;>
  cases st <;>
    simp only [modem_cellular_on_state_enter, modem_cellular_on_power_on_state_enter,
      modem_cellular_on_run_init_script_state_enter, modem_cellular_on_connect_cmux_state_enter,
      modem_cellular_on_open_dlci1_state_enter, modem_cellular_on_open_dlci2_state_enter,
      modem_cellular_on_run_dial_script_state_enter, modem_cellular_on_register_state_enter,
      modem_cellular_on_carrier_on_state_enter, modem_cellular_on_carrier_off_state_enter,
      modem_cellular_on_power_off_state_enter, modem_cellular_start_timer, call_snd, call_fst,
      call, hp] <;>
    (try split) <;>
    simp_all [enter_outcomes, enter_calls, K_MSEC, K_SECONDS, MODEM_CELLULAR_POWER_GPIO_PULSE,
      MODEM_CELLULAR_RESET_GPIO_PULSE]

/-- State and trace after `modem_cellular_enter_state` are one of the
outcomes of the transition. -/
theorem enter_state_outcome (config : modem_cellular_config) (w : World)
    (data : modem_cellular_data) (t : modem_cellular_state) :
    ∃ o ∈ transition_outcomes (modem_cellular_gpio_is_enabled config.power_gpio) data.state t,
      (modem_cellular_enter_state config w data t).state = o.1 ∧
      (modem_cellular_enter_state config w data t).trace = data.trace ++ o.2 := by
  rcases lt_or_le (modem_cellular_on_state_leave w data).1 0 with h | h
  · refine ⟨(data.state, leave_calls data.state), ?_, ?_, ?_⟩
    · rcases leave_neg_state w data h with h0 | h0 <;> simp [transition_outcomes, h0]
    · rw [enter_state_of_leave_neg config w data t h, log_line_state, on_state_leave_state]
    · rw [enter_state_of_leave_neg config w data t h, log_line_trace, leave_trace_eq]
  · obtain ⟨h1, h2⟩ := enter_state_of_leave_nonneg config w data t h
    obtain ⟨cs, hcs, htr⟩ := enter_trace_mem config w
      { (modem_cellular_on_state_leave w data).2 with state := t }
    refine ⟨(t, leave_calls data.state ++ cs), ?_, h1, ?_⟩
    · simp only [transition_outcomes, List.mem_append, List.mem_map]
      right
      exact ⟨cs, hcs, rfl⟩
    · rw [h2, htr]
      simp only
      rw [leave_trace_eq, List.append_assoc]

set_option maxHeartbeats 4000000 in
/-- Every run of `modem_cellular_event_handler` takes one of the alternatives
of `handler_branches`. -/
theorem event_handler_branch (config : modem_cellular_config) (w : World)
    (data : modem_cellular_data) (evt : modem_cellular_event) :
    ∃ b ∈ handler_branches (modem_cellular_gpio_is_enabled config.power_gpio)
        (modem_cellular_gpio_is_enabled config.reset_gpio) data.imei data.state evt,
      branch_taken config w data evt b := by
  obtain ⟨im, hw, act, rs, ps, st, sa, rb, tr, lg⟩ := data
  cases hp : modem_cellular_gpio_is_enabled config.power_gpio <;>
  cases hr : modem_cellular_gpio_is_enabled config.reset_gpio <;>
  cases st <;> cases evt <;>
    simp only [modem_cellular_event_handler, modem_cellular_log_event, log_line,
      log_state_changed_ite_state, log_state_changed_ite_trace,
      modem_cellular_idle_event_handler, modem_cellular_power_on_event_handler,
      modem_cellular_run_init_script_event_handler, modem_cellular_connect_cmux_event_handler,
      modem_cellular_open_dlci1_event_handler, modem_cellular_open_dlci2_event_handler,
      modem_cellular_run_dial_script_event_handler, modem_cellular_register_event_handler,
      modem_cellular_carrier_on_event_handler, modem_cellular_carrier_off_event_handler,
      modem_cellular_power_off_event_handler, modem_cellular_start_timer, call_snd, call_fst,
      call, hp, hr, Bool.or_self, Bool.or_true, Bool.or_false, Bool.false_eq_true, if_true,
      if_false, branch_taken] <;>
    (try split_ifs) <;>
    simp [handler_branches, modem_cellular_log_state_changed, log_line, K_MSEC, K_SECONDS,
      MODEM_CELLULAR_STARTUP_TIME, MODEM_CELLULAR_SHUTDOWN_TIME]

/-- State and trace after `modem_cellular_event_handler` are one of the
outcomes listed by `outcomes`. -/
theorem event_handler_outcome (config : modem_cellular_config) (w : World)
    (data : modem_cellular_data) (evt : modem_cellular_event) :
    ∃ o ∈ outcomes (modem_cellular_gpio_is_enabled config.power_gpio)
        (modem_cellular_gpio_is_enabled config.reset_gpio) data.imei data.state evt,
      (modem_cellular_event_handler config w data evt).state = o.1 ∧
      (modem_cellular_event_handler config w data evt).trace = data.trace ++ o.2 := by
  obtain ⟨⟨cs, t⟩, hb, ht⟩ := event_handler_branch config w data evt
  cases t with
  | none =>
    refine ⟨(data.state, cs), ?_, ht.1, ht.2⟩
    simp only [outcomes, List.mem_flatMap]
    exact ⟨(cs, none), hb, by simp⟩
  | some t =>
    obtain ⟨o, ho, h1, h2⟩ := enter_state_outcome config w
      { modem_cellular_log_event evt data with trace := data.trace ++ cs } t
    refine ⟨(o.1, cs ++ o.2), ?_, ht.1.trans h1, ?_⟩
    · simp only [outcomes, List.mem_flatMap]
      exact ⟨(cs, some t), hb, List.mem_map.mpr ⟨o, ho, rfl⟩⟩
    · rw [ht.2, h2, List.append_assoc]

/-! ### C21: timer discipline -/

/-- Every outcome of the event handler passes `timer_check`. -/
theorem outcomes_timer_check (power reset : Bool) (imei : List Nat) (s : modem_cellular_state)
    (evt : modem_cellular_event) :
    (outcomes power reset imei s evt).all (timer_check s) = true := by
  cases power <;> cases reset <;> cases s <;> cases evt <;> rfl

/-- A list of calls arms the timer when it contains a `k_work_schedule`. -/
theorem any_is_schedule (cs : List Call) :
    cs.any is_schedule = true ↔ ∃ ms, Call.k_work_schedule ms ∈ cs := by
  constructor
  · intro h
    obtain ⟨c, hc, hs⟩ := List.any_eq_true.mp h
    cases c <;> simp [is_schedule] at hs
    exact ⟨_, hc⟩
  · rintro ⟨ms, h⟩
    exact List.any_eq_true.mpr ⟨_, h, rfl⟩

/-- C21 (as amended): timer discipline, in terms of the calls that arm and
cancel the timer.  For every configuration, world, modem data and event, one
run of `modem_cellular_event_handler` (1) calls `k_work_schedule` only if it
ends in one of the states PowerOn, ConnectCmux, RunDial, Register, CarrierOn,
CarrierOff, PowerOff, never if it ends in Idle, RunInit, OpenDlci1 or
OpenDlci2; (2) calls `k_work_cancel_delayable` exactly when it leaves
`Register` or `CarrierOn` for another state; and (3) when it cancels the
timer, the cancel is its first call and its only cancel, so it precedes the
`k_work_schedule` of the successor's `on_enter` hook.  No other state cancels
the timer when it is left. -/
theorem C21_timer_is_armed_and_cancelled_by_these_steps (config : modem_cellular_config)
    (w : World) (data : modem_cellular_data) (evt : modem_cellular_event) :
    ((∃ ms, Call.k_work_schedule ms ∈
        calls_since data (modem_cellular_event_handler config w data evt)) →
      (modem_cellular_event_handler config w data evt).state ∈ timer_states) ∧
    (Call.k_work_cancel_delayable ∈
        calls_since data (modem_cellular_event_handler config w data evt) ↔
      (data.state = .REGISTER ∨ data.state = .CARRIER_ON) ∧
        (modem_cellular_event_handler config w data evt).state ≠ data.state) ∧
    (Call.k_work_cancel_delayable ∈
        calls_since data (modem_cellular_event_handler config w data evt) →
      (calls_since data (modem_cellular_event_handler config w data evt)).head? =
        some .k_work_cancel_delayable ∧
      (calls_since data (modem_cellular_event_handler config w data evt)).count
        .k_work_cancel_delayable = 1) := by
  obtain ⟨o, ho, h1, h2⟩ := event_handler_outcome config w data evt
  have hc : calls_since data (modem_cellular_event_handler config w data evt) = o.2 := by
    rw [calls_since, h2, List.drop_left]
  have hchk := List.all_eq_true.mp (outcomes_timer_check _ _ _ _ _) o ho
  rw [hc, h1]
  generalize data.state = s at hchk
  obtain ⟨ha, hb, hcc⟩ := of_decide_eq_true hchk
  exact ⟨fun hs => ha ((any_is_schedule o.2).mpr hs), hb, hcc⟩

/-- C21, witness: the `Suspend` handled by the instance brought up to
`CarrierOn` leaves `CarrierOn`, so it cancels the timer, first of all its
calls, and arms it again on entering `CarrierOff`. -/
theorem C21_timer_witness :
    Call.k_work_cancel_delayable ∈
      calls_since (carrier_on_data config_power_only)
        (modem_cellular_event_handler config_power_only ideal_world
          (carrier_on_data config_power_only) .SUSPEND) ∧
    (calls_since (carrier_on_data config_power_only)
      (modem_cellular_event_handler config_power_only ideal_world
        (carrier_on_data config_power_only) .SUSPEND)).head? =
      some .k_work_cancel_delayable ∧
    (∃ ms, Call.k_work_schedule ms ∈
      calls_since (carrier_on_data config_power_only)
        (modem_cellular_event_handler config_power_only ideal_world
          (carrier_on_data config_power_only) .SUSPEND)) ∧
    (modem_cellular_event_handler config_power_only ideal_world
      (carrier_on_data config_power_only) .SUSPEND).state ∈ timer_states :=
  ⟨by decide,
    ((C21_timer_is_armed_and_cancelled_by_these_steps config_power_only ideal_world
      (carrier_on_data config_power_only) .SUSPEND).2.2 (by decide)).1,
    ⟨1000, by decide⟩,
    (C21_timer_is_armed_and_cancelled_by_these_steps config_power_only ideal_world
      (carrier_on_data config_power_only) .SUSPEND).1 ⟨1000, by decide⟩⟩

/-- C21, counterexample to the claim as stated: without GPIOs, the events
`Resume, ScriptSuccess` bring the freshly initialised instance to
`ConnectCmux`, whose `on_enter` hook arms the 500 ms timer.  A `CmuxConnected`
event handled before that timer expires moves the machine to `OpenDlci1`:
`ConnectCmux` has no `on_leave` hook, nothing cancels the timer, no `Timeout`
was handled, and the timer is still armed in `OpenDlci1` and, after
`Dlci1Opened`, in `OpenDlci2`.  After `Dlci2Opened` the machine is in
`RunDial`, whose `on_enter` hook armed the timer; a `ScriptSuccess` handled
there leaves `RunDial` with the timer armed, and the calls of that step are
the release of the chat, the attach of PPP and the `on_enter` calls of
`Register`, which arm the timer again: no cancel comes before them. -/
theorem C21_counterexample_timer_armed_in_open_dlci1 :
    (run config_no_gpio ideal_world (initial_data config_no_gpio)
      [.RESUME, .SCRIPT_SUCCESS]).state = .CONNECT_CMUX ∧
    (timed_run config_no_gpio ideal_world (initial_data config_no_gpio, false)
      [.RESUME, .SCRIPT_SUCCESS]).2 = true ∧
    (timed_run config_no_gpio ideal_world (initial_data config_no_gpio, false)
      [.RESUME, .SCRIPT_SUCCESS, .CMUX_CONNECTED]).1.state = .OPEN_DLCI1 ∧
    (timed_run config_no_gpio ideal_world (initial_data config_no_gpio, false)
      [.RESUME, .SCRIPT_SUCCESS, .CMUX_CONNECTED]).2 = true ∧
    calls_since (initial_data config_no_gpio)
      (run config_no_gpio ideal_world (initial_data config_no_gpio)
        [.RESUME, .SCRIPT_SUCCESS, .CMUX_CONNECTED]) =
      [.modem_pipe_open .uart_pipe, .modem_chat_attach .uart_pipe,
        .modem_chat_script_run .init_chat_script, .net_if_set_link_addr (List.replicate 15 0),
        .modem_chat_release, .modem_cmux_attach .uart_pipe, .k_work_schedule 500,
        .modem_pipe_attach .dlci1_pipe, .modem_pipe_open_async .dlci1_pipe] ∧
    (timed_run config_no_gpio ideal_world (initial_data config_no_gpio, false)
      [.RESUME, .SCRIPT_SUCCESS, .CMUX_CONNECTED, .DLCI1_OPENED]).1.state = .OPEN_DLCI2 ∧
    (timed_run config_no_gpio ideal_world (initial_data config_no_gpio, false)
      [.RESUME, .SCRIPT_SUCCESS, .CMUX_CONNECTED, .DLCI1_OPENED]).2 = true ∧
    (timed_run config_no_gpio ideal_world (initial_data config_no_gpio, false)
      [.RESUME, .SCRIPT_SUCCESS, .CMUX_CONNECTED, .DLCI1_OPENED, .DLCI2_OPENED]) =
      (run_dial_data_early, true) ∧
    run_dial_data_early.state = .RUN_DIAL_SCRIPT ∧
    (modem_cellular_event_handler config_no_gpio ideal_world run_dial_data_early
      .SCRIPT_SUCCESS).state = .REGISTER ∧
    calls_since run_dial_data_early
      (modem_cellular_event_handler config_no_gpio ideal_world run_dial_data_early
        .SCRIPT_SUCCESS) =
      [.modem_chat_release, .modem_ppp_attach .dlci2_pipe, .modem_chat_attach .dlci1_pipe,
        .k_work_schedule 2000, .modem_chat_script_run .net_stat_chat_script] := by
  decide

/-! ### C22: a failed attach is not retried -/

/-- C22 (as amended): busy attach.  For every configuration and world: when
`modem_cellular_enter_state` enters RunInit, ConnectCmux, RunDial or Register
(the `on_leave` hook of the old state not failing) and the attach call the
`on_enter` hook starts with returns a negative value, the machine is in the
new state afterwards, the attach is the only call of the hook (no script is
run and the timer is not armed), and the log gets the line "failed to enter
state" with `-EAGAIN`.  A `Timeout` handled afterwards does not run the
`on_enter` hook again: in every world, in RunInit it does nothing at all, in
ConnectCmux it only calls `modem_cmux_connect_async`, in RunDial it only runs
the dial script, in Register it only arms the 2 s timer and runs the status
poll script; none of them calls an attach, and the state stays as it is. -/
theorem C22_busy_attach_is_not_retried_on_timeout (config : modem_cellular_config) (w : World)
    (data : modem_cellular_data) (s : modem_cellular_state) (c : Call)
    (hs : enter_attach_call s = some c)
    (hleave : 0 ≤ (modem_cellular_on_state_leave w data).1)
    (hbusy : w (modem_cellular_on_state_leave w data).2.trace c < 0) :
    (modem_cellular_enter_state config w data s).state = s ∧
    (modem_cellular_enter_state config w data s).trace =
      (modem_cellular_on_state_leave w data).2.trace ++ [c] ∧
    (modem_cellular_enter_state config w data s).log =
      data.log ++ [.failed_to_enter_state (-EAGAIN)] ∧
    (∀ (w2 : World) (d : modem_cellular_data), d.state = .RUN_INIT_SCRIPT →
      modem_cellular_event_handler config w2 d .TIMEOUT = log_line (.event .TIMEOUT) d) ∧
    (∀ (w2 : World) (d : modem_cellular_data), d.state = .CONNECT_CMUX →
      (modem_cellular_event_handler config w2 d .TIMEOUT).state = .CONNECT_CMUX ∧
      calls_since d (modem_cellular_event_handler config w2 d .TIMEOUT) =
        [.modem_cmux_connect_async]) ∧
    (∀ (w2 : World) (d : modem_cellular_data), d.state = .RUN_DIAL_SCRIPT →
      (modem_cellular_event_handler config w2 d .TIMEOUT).state = .RUN_DIAL_SCRIPT ∧
      calls_since d (modem_cellular_event_handler config w2 d .TIMEOUT) =
        [.modem_chat_script_run .connect_chat_script]) ∧
    (∀ (w2 : World) (d : modem_cellular_data), d.state = .REGISTER →
      (modem_cellular_event_handler config w2 d .TIMEOUT).state = .REGISTER ∧
      calls_since d (modem_cellular_event_handler config w2 d .TIMEOUT) =
        [.k_work_schedule 2000, .modem_chat_script_run .net_stat_chat_script]) := by
  have htimeout : (∀ (w2 : World) (d : modem_cellular_data), d.state = .RUN_INIT_SCRIPT →
      modem_cellular_event_handler config w2 d .TIMEOUT = log_line (.event .TIMEOUT) d) ∧
    (∀ (w2 : World) (d : modem_cellular_data), d.state = .CONNECT_CMUX →
      (modem_cellular_event_handler config w2 d .TIMEOUT).state = .CONNECT_CMUX ∧
      calls_since d (modem_cellular_event_handler config w2 d .TIMEOUT) =
        [.modem_cmux_connect_async]) ∧
    (∀ (w2 : World) (d : modem_cellular_data), d.state = .RUN_DIAL_SCRIPT →
      (modem_cellular_event_handler config w2 d .TIMEOUT).state = .RUN_DIAL_SCRIPT ∧
      calls_since d (modem_cellular_event_handler config w2 d .TIMEOUT) =
        [.modem_chat_script_run .connect_chat_script]) ∧
    (∀ (w2 : World) (d : modem_cellular_data), d.state = .REGISTER →
      (modem_cellular_event_handler config w2 d .TIMEOUT).state = .REGISTER ∧
      calls_since d (modem_cellular_event_handler config w2 d .TIMEOUT) =
        [.k_work_schedule 2000, .modem_chat_script_run .net_stat_chat_script]) := by
    refine ⟨?_, ?_, ?_, ?_⟩ <;>
      (intro w2 d hd
       obtain ⟨im, hwi, act, rs, ps, st, sa, rb, tr, lg⟩ := d
       simp only at hd
       subst hd
       simp [calls_since, modem_cellular_event_handler, modem_cellular_log_event, log_line,
         modem_cellular_run_init_script_event_handler,
         modem_cellular_connect_cmux_event_handler,
         modem_cellular_run_dial_script_event_handler, modem_cellular_register_event_handler,
         modem_cellular_start_timer, K_SECONDS])
  have hmain : (modem_cellular_enter_state config w data s).state = s ∧
      (modem_cellular_enter_state config w data s).trace =
        (modem_cellular_on_state_leave w data).2.trace ++ [c] ∧
      (modem_cellular_enter_state config w data s).log =
        data.log ++ [.failed_to_enter_state (-EAGAIN)] := by
    have hfr := on_state_leave_frame w data
    simp only [modem_cellular_enter_state]
    rw [if_neg (not_lt.mpr hleave)]
    have hlog : (modem_cellular_on_state_leave w data).2.log = data.log := by
      rw [hfr]
    generalize (modem_cellular_on_state_leave w data).2 = d at hlog hbusy ⊢
    obtain ⟨im, hwi, act, rs, ps, st, sa, rb, tr, lg⟩ := d
    simp only at hlog hbusy
    subst hlog
    cases s <;> simp only [enter_attach_call, Option.some.injEq] at hs <;>
      first
        | exact absurd hs (by simp)
        | (subst hs
           simp [modem_cellular_on_state_enter, modem_cellular_on_run_init_script_state_enter,
             modem_cellular_on_connect_cmux_state_enter,
             modem_cellular_on_run_dial_script_state_enter,
             modem_cellular_on_register_state_enter, hbusy, log_line, EAGAIN])
  exact ⟨hmain.1, hmain.2.1, hmain.2.2, htimeout⟩

/-- C22, witness: entering RunInit from the freshly initialised instance in
the world where every attach fails. -/
theorem C22_busy_attach_witness :
    enter_attach_call .RUN_INIT_SCRIPT = some (.modem_chat_attach .uart_pipe) ∧
    0 ≤ (modem_cellular_on_state_leave busy_world (initial_data config_no_gpio)).1 ∧
    busy_world (modem_cellular_on_state_leave busy_world (initial_data config_no_gpio)).2.trace
      (.modem_chat_attach .uart_pipe) < 0 ∧
    (modem_cellular_enter_state config_no_gpio busy_world (initial_data config_no_gpio)
      .RUN_INIT_SCRIPT).state = .RUN_INIT_SCRIPT :=
  ⟨rfl, by decide, by decide,
    (C22_busy_attach_is_not_retried_on_timeout config_no_gpio busy_world
      (initial_data config_no_gpio) .RUN_INIT_SCRIPT (.modem_chat_attach .uart_pipe) rfl
      (by decide) (by decide)).1⟩

/-- C22, counterexample to the claim as stated: in the world where every
attach fails, without GPIOs, `Resume` leaves the freshly initialised instance
in RunInit after the calls "open UART pipe, attach chat" and the log line
"failed to enter state" with `-EAGAIN`; the `Timeout` handled next makes no
call at all, so the attach is not retried.  Likewise in ConnectCmux (reached by
`ScriptSuccess`, its CMUX attach failing): the next `Timeout` only calls
`modem_cmux_connect_async`. -/
theorem C22_counterexample_timeout_does_not_retry_attach :
    (run config_no_gpio busy_world (initial_data config_no_gpio) [.RESUME]).state =
      .RUN_INIT_SCRIPT ∧
    calls_since (initial_data config_no_gpio)
      (run config_no_gpio busy_world (initial_data config_no_gpio) [.RESUME]) =
      [.modem_pipe_open .uart_pipe, .modem_chat_attach .uart_pipe] ∧
    (run config_no_gpio busy_world (initial_data config_no_gpio) [.RESUME]).log =
      [.event .RESUME, .failed_to_enter_state (-EAGAIN), .state_changed .IDLE .RUN_INIT_SCRIPT] ∧
    (run config_no_gpio busy_world (initial_data config_no_gpio) [.RESUME, .TIMEOUT]).state =
      .RUN_INIT_SCRIPT ∧
    calls_since (run config_no_gpio busy_world (initial_data config_no_gpio) [.RESUME])
      (run config_no_gpio busy_world (initial_data config_no_gpio) [.RESUME, .TIMEOUT]) = [] ∧
    calls_since (initial_data config_no_gpio)
      (run config_no_gpio busy_world (initial_data config_no_gpio)
        [.RESUME, .SCRIPT_SUCCESS]) =
      [.modem_pipe_open .uart_pipe, .modem_chat_attach .uart_pipe,
        .net_if_set_link_addr (List.replicate 15 0), .modem_chat_release,
        .modem_cmux_attach .uart_pipe] ∧
    (run config_no_gpio busy_world (initial_data config_no_gpio)
      [.RESUME, .SCRIPT_SUCCESS, .TIMEOUT]).state = .CONNECT_CMUX ∧
    calls_since
      (run config_no_gpio busy_world (initial_data config_no_gpio) [.RESUME, .SCRIPT_SUCCESS])
      (run config_no_gpio busy_world (initial_data config_no_gpio)
        [.RESUME, .SCRIPT_SUCCESS, .TIMEOUT]) = [.modem_cmux_connect_async] := by
  decide

/-! ### C23: suspend while a script runs -/

/-- C23 (as amended): suspend mid-script.  For every configuration, world and
modem data: in `CarrierOn`, handling `Suspend` moves to `CarrierOff`, and the
calls are "stop timer, abort chat script, release chat, release PPP" (the
`on_leave` hook, the abort before the release) followed by the `on_enter`
calls of `CarrierOff`.  In `Register`, handling `Suspend` moves to `PowerOff`
(power GPIO configured) or `Idle`, and the `on_leave` hook stops the timer
and releases the chat: it does not call `modem_chat_script_abort`.  In `Idle`,
`PowerOff` and `CarrierOff` a `ScriptSuccess` or `ScriptFailed` event only
writes the event log line: state, modem data and trace stay as they are. -/
theorem C23_suspend_mid_script (config : modem_cellular_config) (w : World)
    (data : modem_cellular_data) :
    (data.state = .CARRIER_ON →
      (modem_cellular_event_handler config w data .SUSPEND).state = .CARRIER_OFF ∧
      calls_since data (modem_cellular_event_handler config w data .SUSPEND) =
        [.k_work_cancel_delayable, .modem_chat_script_abort, .modem_chat_release,
          .modem_ppp_release, .net_if_carrier_off, .k_work_schedule 1000]) ∧
    (data.state = .REGISTER →
      (modem_cellular_event_handler config w data .SUSPEND).state =
        (if modem_cellular_gpio_is_enabled config.power_gpio then .POWER_OFF else .IDLE) ∧
      calls_since data (modem_cellular_event_handler config w data .SUSPEND) =
        [.k_work_cancel_delayable, .modem_chat_release] ++
          (if modem_cellular_gpio_is_enabled config.power_gpio
            then [.modem_cmux_release, .modem_pipe_close .uart_pipe,
              .gpio_pin_set_dt .power_gpio 1, .k_work_schedule 1500]
            else []) ∧
      Call.modem_chat_script_abort ∉
        calls_since data (modem_cellular_event_handler config w data .SUSPEND)) ∧
    (data.state = .IDLE ∨ data.state = .POWER_OFF ∨ data.state = .CARRIER_OFF →
      modem_cellular_event_handler config w data .SCRIPT_SUCCESS =
        log_line (.event .SCRIPT_SUCCESS) data ∧
      modem_cellular_event_handler config w data .SCRIPT_FAILED =
        log_line (.event .SCRIPT_FAILED) data) := by
  obtain ⟨im, hwi, act, rs, ps, st, sa, rb, tr, lg⟩ := data
  refine ⟨?_, ?_, ?_⟩
  · intro h
    simp only at h
    subst h
    simp [calls_since, modem_cellular_event_handler, modem_cellular_log_event, log_line,
      modem_cellular_log_state_changed, modem_cellular_carrier_on_event_handler,
      modem_cellular_enter_state, modem_cellular_on_state_leave, modem_cellular_on_state_enter,
      modem_cellular_on_carrier_on_state_leave, modem_cellular_on_carrier_off_state_enter,
      modem_cellular_start_timer, modem_cellular_stop_timer, K_SECONDS]
  · intro h
    simp only at h
    subst h
    cases hp : modem_cellular_gpio_is_enabled config.power_gpio <;>
      simp [calls_since, modem_cellular_event_handler, modem_cellular_log_event, log_line,
        modem_cellular_log_state_changed, modem_cellular_register_event_handler,
        modem_cellular_enter_state, modem_cellular_on_state_leave, modem_cellular_on_state_enter,
        modem_cellular_on_register_state_leave, modem_cellular_on_power_off_state_enter,
        modem_cellular_start_timer, modem_cellular_stop_timer, hp,
        MODEM_CELLULAR_POWER_GPIO_PULSE]
  · intro h
    simp only at h
    rcases h with h | h | h <;> subst h <;> exact ⟨rfl, rfl⟩

/-- C23, witness: the instance brought up to `CarrierOn` handles `Suspend`. -/
theorem C23_suspend_mid_script_witness :
    (carrier_on_data config_power_only).state = .CARRIER_ON ∧
    (modem_cellular_event_handler config_power_only ideal_world
      (carrier_on_data config_power_only) .SUSPEND).state = .CARRIER_OFF ∧
    (register_data config_power_only).state = .REGISTER ∧
    Call.modem_chat_script_abort ∉
      calls_since (register_data config_power_only)
        (modem_cellular_event_handler config_power_only ideal_world
          (register_data config_power_only) .SUSPEND) :=
  ⟨by decide,
    ((C23_suspend_mid_script config_power_only ideal_world
      (carrier_on_data config_power_only)).1 (by decide)).1,
    by decide,
    ((C23_suspend_mid_script config_power_only ideal_world
      (register_data config_power_only)).2.1 (by decide)).2.2⟩

/-- C23, counterexample to the claim as stated: the instance brought up to
`Register` has the status poll script running (started by the `on_enter`
hook).  Handling `Suspend` there makes the calls "stop timer, release chat"
without a power GPIO, and the same two calls followed by the `on_enter` calls
of `PowerOff` with one; `modem_chat_script_abort` is not among them. -/
theorem C23_counterexample_register_leave_does_not_abort :
    (register_data config_no_gpio).state = .REGISTER ∧
    (register_data config_no_gpio).trace.getLast? =
      some (.modem_chat_script_run .net_stat_chat_script) ∧
    calls_since (register_data config_no_gpio)
      (modem_cellular_event_handler config_no_gpio ideal_world (register_data config_no_gpio)
        .SUSPEND) = [.k_work_cancel_delayable, .modem_chat_release] ∧
    (register_data config_power_only).state = .REGISTER ∧
    calls_since (register_data config_power_only)
      (modem_cellular_event_handler config_power_only ideal_world
        (register_data config_power_only) .SUSPEND) =
      [.k_work_cancel_delayable, .modem_chat_release, .modem_cmux_release,
        .modem_pipe_close .uart_pipe, .gpio_pin_set_dt .power_gpio 1, .k_work_schedule 1500] ∧
    Call.modem_chat_script_abort ∉
      (modem_cellular_event_handler config_power_only ideal_world
        (register_data config_power_only) .SUSPEND).trace := by
  decide

/-! ### C24: the status poll callbacks -/

/-- `atoi_digits` on decimal digits computes the number they denote. -/
theorem atoi_digits_decimal (cs : List Char) (h : ∀ c ∈ cs, 48 ≤ c.toNat ∧ c.toNat ≤ 57)
    (acc : Nat) :
    atoi_digits (acc : Int) cs = ((cs.foldl (fun acc c => acc * 10 + (c.toNat - 48)) acc : Nat) : Int) := by
  induction cs generalizing acc with
  | nil => rfl
  | cons c cs ih =>
    have hc := h c (List.mem_cons_self _ _)
    have hcs : ∀ c ∈ cs, 48 ≤ c.toNat ∧ c.toNat ≤ 57 := fun x hx => h x (List.mem_cons_of_mem _ hx)
    simp only [atoi_digits, hc, and_self, if_true, List.foldl_cons]
    rw [← ih hcs (acc * 10 + (c.toNat - 48))]
    congr 1
    omega

/-- `atoi` on a string of decimal digits returns the number they denote. -/
theorem atoi_decimal (s : String) (h : is_decimal s) : atoi s = (decimal_value s : Int) := by
  unfold atoi decimal_value
  unfold is_decimal at h
  generalize s.toList = cs at h
  cases cs with
  | nil => rfl
  | cons c cs =>
    have hc := h c (List.mem_cons_self _ _)
    have h1 : ¬ (c.toNat = 32 ∨ (9 ≤ c.toNat ∧ c.toNat ≤ 13)) := by omega
    have h2 : ¬ c.toNat = 45 := by omega
    have h3 : ¬ c.toNat = 43 := by omega
    simp only [List.dropWhile_cons, h1, decide_False, Bool.false_eq_true, if_false, h2, h3]
    exact atoi_digits_decimal (c :: cs) h 0

/-- The conversion to `uint8_t` is the remainder modulo 256. -/
theorem to_uint8_mod (v : Int) : ((to_uint8 v : Nat) : Int) = v % 256 := by
  unfold to_uint8
  omega

/-- The conversion of a natural number to `uint8_t`. -/
theorem to_uint8_natCast (n : Nat) : to_uint8 (n : Int) = n % 256 := by
  unfold to_uint8
  omega

/-- C24 (as amended): the status poll callbacks.  For a `+CREG` line with
exactly two fields, `+CREG: n,stat` with `n` and `stat` decimal digits (the
chat engine passes `argv = ["+CREG: ", n, stat]`, `argc = 3`),
`modem_cellular_chat_on_creg` stores `n` as `access_tech` and `stat` as
`registration_status`, each reduced modulo 256 by the `uint8_t` field, and
changes nothing else; for a line `+CGATT: state` (`argc = 2`)
`modem_cellular_chat_on_cgatt` stores `state` as `packet_service_attached`.
With any other number of arguments the callbacks store nothing: a `+CREG` line
with further comma-separated fields has `argc > 3` and is ignored. -/
theorem C24_creg_cgatt_store_two_field_lines (data : modem_cellular_data)
    (n stat state : String)
    (hn : is_decimal n) (hstat : is_decimal stat) (hstate : is_decimal state) :
    modem_cellular_chat_on_creg data ["+CREG: ", n, stat] 3 =
      { data with
        access_tech := decimal_value n % 256
        registration_status := decimal_value stat % 256 } ∧
    modem_cellular_chat_on_cgatt data ["+CGATT: ", state] 2 =
      { data with packet_service_attached := decimal_value state % 256 } ∧
    (∀ (argv : List String) (argc : Nat), argc ≠ 3 →
      modem_cellular_chat_on_creg data argv argc = data) ∧
    (∀ (argv : List String) (argc : Nat), argc ≠ 2 →
      modem_cellular_chat_on_cgatt data argv argc = data) := by
  have h1 : to_uint8 (atoi n) = decimal_value n % 256 := by
    rw [atoi_decimal n hn, to_uint8_natCast]
  have h2 : to_uint8 (atoi stat) = decimal_value stat % 256 := by
    rw [atoi_decimal stat hstat, to_uint8_natCast]
  have h3 : to_uint8 (atoi state) = decimal_value state % 256 := by
    rw [atoi_decimal state hstate, to_uint8_natCast]
  refine ⟨?_, ?_, ?_, ?_⟩
  · simp [modem_cellular_chat_on_creg, h1, h2]
  · simp [modem_cellular_chat_on_cgatt, h3]
  · intro argv argc h
    have h2 : (argc != 3) = true := bne_iff_ne.mpr h
    simp only [modem_cellular_chat_on_creg, h2, if_true]
  · intro argv argc h
    have h2 : (argc != 2) = true := bne_iff_ne.mpr h
    simp only [modem_cellular_chat_on_cgatt, h2, if_true]

/-- C24, witness: the lines `+CREG: 0,5` and `+CGATT: 1` of the bring-up
scenario, with the arguments the chat engine splits them into. -/
theorem C24_creg_cgatt_witness :
    is_decimal "0" ∧ is_decimal "5" ∧ is_decimal "1" ∧
    chat_args "+CREG: " ',' "+CREG: 0,5" = ["+CREG: ", "0", "5"] ∧
    chat_args "+CGATT: " ',' "+CGATT: 1" = ["+CGATT: ", "1"] ∧
    modem_cellular_chat_on_creg (register_data config_power_only) ["+CREG: ", "0", "5"] 3 =
      { register_data config_power_only with
        access_tech := decimal_value "0" % 256
        registration_status := decimal_value "5" % 256 } ∧
    decimal_value "5" % 256 = 5 :=
  ⟨by decide, by decide, by decide, by decide, by decide,
    (C24_creg_cgatt_store_two_field_lines (register_data config_power_only) "0" "5" "1"
      (by decide) (by decide) (by decide)).1, by decide⟩

/-- C24, counterexample to the claim as stated: the line
`+CREG: 2,5,"1A2B","01C3D4E5",7` (two fields followed by further
comma-separated fields) reaches the callback with six arguments; the callback
returns at `argc != 3` and the modem data is unchanged: `registration_status`
is still 0, not 5, and `access_tech` is still 0, not 2.  The same holds for a
line with one further field, `+CREG: 0,5,7`. -/
theorem C24_counterexample_further_fields_are_ignored :
    chat_args "+CREG: " ',' "+CREG: 2,5,\"1A2B\",\"01C3D4E5\",7" =
      ["+CREG: ", "2", "5", "\"1A2B\"", "\"01C3D4E5\"", "7"] ∧
    modem_cellular_chat_on_creg (register_data config_power_only)
        (chat_args "+CREG: " ',' "+CREG: 2,5,\"1A2B\",\"01C3D4E5\",7") 6 =
      register_data config_power_only ∧
    (modem_cellular_chat_on_creg (register_data config_power_only)
      (chat_args "+CREG: " ',' "+CREG: 2,5,\"1A2B\",\"01C3D4E5\",7") 6).registration_status
      = 0 ∧
    (modem_cellular_chat_on_creg (register_data config_power_only)
      (chat_args "+CREG: " ',' "+CREG: 2,5,\"1A2B\",\"01C3D4E5\",7") 6).access_tech = 0 ∧
    (modem_cellular_chat_on_creg (register_data config_power_only)
      (chat_args "+CREG: " ',' "+CREG: 0,5,7") 4).registration_status = 0 := by
  decide

/-! ### C25: the init script -/

/-- C25: the init script.  The commands of `init_chat_script`, read as
"request and what it waits for", are exactly the documented sequence: `AT`
four times with no response and 100 ms dead-time; `ATE0`, `AT+CMEE=1`,
`AT+CREG=0`, each waiting for `OK`; `AT+CGSN` waiting for the IMEI line, then
a blank request waiting for `OK`; `AT+CGMM` waiting for the model line, then a
blank request waiting for `OK`; and last `AT+CMUX=0,0,5,127,10,3,30,10,2` with
no response and 100 ms dead-time: twelve commands.  Its only abort line is
`ERROR`.  The IMEI and model matches have an empty text and no separator, so
they accept any line.  It is the script the `on_enter` hook of RunInit
runs. -/
theorem C25_init_script_sequence :
    init_chat_script.script_chats.map cmd_expectation = documented_init_sequence ∧
    init_chat_script.script_chats.length = 12 ∧
    init_chat_script.abort_matches.map (fun m => m.match_) = ["ERROR"] ∧
    imei_match.match_ = "" ∧ imei_match.separators = "" ∧
    cgmm_match.match_ = "" ∧ cgmm_match.separators = "" ∧
    (∀ apn username password : String,
      script_of apn username password .init_chat_script = init_chat_script) ∧
    calls_since (initial_data config_no_gpio)
      (run config_no_gpio ideal_world (initial_data config_no_gpio) [.RESUME]) =
      [.modem_pipe_open .uart_pipe, .modem_chat_attach .uart_pipe,
        .modem_chat_script_run .init_chat_script] := by
  refine ⟨by decide, by decide, by decide, rfl, rfl, rfl, rfl, fun _ _ _ => rfl, by decide⟩

/-! ### C26: the hardware model string -/

/-- `strncpy` of 63 bytes into a 64-byte buffer whose last byte is 0. -/
theorem strncpy_63 (dest src : List Nat) (h : dest.length = 64) (h63 : dest[63]? = some 0) :
    strncpy dest src 63 = src.take 63 ++ List.replicate (64 - min src.length 63) 0 := by
  have hd : dest.drop 63 = [0] := by
    have h1 : (dest.drop 63).length = 1 := by simp [h]
    match hm : dest.drop 63, h1 with
    | [x], _ =>
      have : dest[63]? = some x := by
        have := congrArg (fun l => l[0]?) hm
        simpa using this
      rw [h63] at this
      simp at this
      rw [this]
  unfold strncpy
  rw [hd, List.append_assoc]
  congr 1
  have : List.replicate (63 - src.length) 0 ++ [0] = List.replicate (63 - src.length + 1) (0 : Nat) := by
    rw [List.replicate_succ']
  rw [this]
  congr 1
  omega

/-- `strncpy` of 63 bytes keeps the length of the buffer and its last byte. -/
theorem strncpy_63_inv (dest src : List Nat) (h : dest.length = 64) (h63 : dest[63]? = some 0) :
    (strncpy dest src 63).length = 64 ∧ (strncpy dest src 63)[63]? = some 0 := by
  rw [strncpy_63 dest src h h63]
  constructor
  · simp
    omega
  · rw [List.getElem?_append_right (by simp)]
    simp [List.getElem?_replicate]
    omega

/-- One call of the model callback keeps the buffer 64 bytes long and its last
byte 0. -/
theorem cgmm_inv (data : modem_cellular_data) (argv : List (List Nat)) (argc : Nat)
    (h : data.hwinfo.length = 64 ∧ data.hwinfo[63]? = some 0) :
    (modem_cellular_chat_on_cgmm data argv argc).hwinfo.length = 64 ∧
    (modem_cellular_chat_on_cgmm data argv argc).hwinfo[63]? = some 0 := by
  unfold modem_cellular_chat_on_cgmm
  split
  · exact h
  · exact strncpy_63_inv data.hwinfo _ h.1 h.2

/-- Any sequence of calls of the model callback keeps the buffer 64 bytes long
and its last byte 0. -/
theorem cgmm_calls_inv (calls : List (List (List Nat) × Nat)) (data : modem_cellular_data)
    (h : data.hwinfo.length = 64 ∧ data.hwinfo[63]? = some 0) :
    (cgmm_calls data calls).hwinfo.length = 64 ∧ (cgmm_calls data calls).hwinfo[63]? = some 0 := by
  induction calls generalizing data with
  | nil => exact h
  | cons c cs ih => exact ih _ (cgmm_inv data c.1 c.2 h)

/-- The string in front of a NUL byte is not longer than what precedes that
byte. -/
theorem takeWhile_length_le (pre : List Nat) :
    ((pre ++ [0]).takeWhile (fun b => b != 0)).length ≤ pre.length := by
  induction pre with
  | nil => simp
  | cons x xs ih =>
    simp only [List.cons_append, List.takeWhile_cons]
    split
    · simp
      exact ih
    · simp

/-- C26: the hardware model string.  Starting from the zero-initialised
buffer, after any sequence of calls of `modem_cellular_chat_on_cgmm` with
arguments of any length: `hwinfo` is 64 bytes long, `hwinfo[63]` is 0, and the
string stored in it (the bytes before the first 0) is at most 63 bytes long.
A further call with `argc = 2` leaves in `hwinfo` the first `min(len, 63)`
bytes of `argv[1]` followed by zero bytes up to the end of the buffer; a call
with `argc ≠ 2` changes nothing.  Example: the line `BG95-M3` is stored as its
seven bytes followed by 57 zero bytes. -/
theorem C26_hwinfo_stays_nul_terminated (calls : List (List (List Nat) × Nat))
    (argv : List (List Nat)) (argc : Nat) :
    (cgmm_calls modem_cellular_data_zero calls).hwinfo.length = 64 ∧
    (cgmm_calls modem_cellular_data_zero calls).hwinfo[63]? = some 0 ∧
    ((cgmm_calls modem_cellular_data_zero calls).hwinfo.takeWhile (fun b => b != 0)).length
      ≤ 63 ∧
    (modem_cellular_chat_on_cgmm (cgmm_calls modem_cellular_data_zero calls) argv 2).hwinfo =
      (argv.getD 1 []).take 63 ++ List.replicate (64 - min (argv.getD 1 []).length 63) 0 ∧
    (argc ≠ 2 →
      modem_cellular_chat_on_cgmm (cgmm_calls modem_cellular_data_zero calls) argv argc =
        cgmm_calls modem_cellular_data_zero calls) ∧
    (modem_cellular_chat_on_cgmm modem_cellular_data_zero [c_str "", c_str "BG95-M3"] 2).hwinfo =
      c_str "BG95-M3" ++ List.replicate 57 0 := by
  have hinv := cgmm_calls_inv calls modem_cellular_data_zero ⟨by decide, by decide⟩
  refine ⟨hinv.1, hinv.2, ?_, ?_, ?_, by decide⟩
  · generalize (cgmm_calls modem_cellular_data_zero calls).hwinfo = h at hinv
    have hsplit : h = h.take 63 ++ [0] := by
      have h0 := strncpy_63 h h hinv.1 hinv.2
      unfold strncpy at h0
      have h1 : min h.length 63 = 63 := by omega
      rw [h1] at h0
      have h2 : h.take 63 ++ List.replicate (63 - h.length) 0 ++ h.drop 63 = h := by
        have : 63 - h.length = 0 := by omega
        rw [this]
        simp
      rw [h2] at h0
      exact h0
    rw [hsplit]
    refine le_trans (takeWhile_length_le _) ?_
    simp
  · have h2 : ((2 : Nat) != 2) = false := by decide
    simp only [modem_cellular_chat_on_cgmm, h2, Bool.false_eq_true, if_false, sizeof_hwinfo]
    exact strncpy_63 _ _ hinv.1 hinv.2
  · intro h
    have h2 : (argc != 2) = true := bne_iff_ne.mpr h
    simp only [modem_cellular_chat_on_cgmm, h2, if_true]

/-! ### C27: GPIO lines that are not configured -/

/-- Every outcome of the event handler passes `gpio_check`. -/
theorem outcomes_gpio_check (power reset : Bool) (imei : List Nat) (s : modem_cellular_state)
    (evt : modem_cellular_event) :
    (outcomes power reset imei s evt).all (gpio_check power reset s) = true := by
  cases power <;> cases reset <;> cases s <;> cases evt <;> rfl

/-- Handling an event keeps the invariant of the GPIO discipline. -/
theorem gpio_inv_event (config : modem_cellular_config) (w : World)
    (data : modem_cellular_data) (evt : modem_cellular_event) (h : gpio_inv config data) :
    gpio_inv config (modem_cellular_event_handler config w data evt) := by
  obtain ⟨o, ho, h1, h2⟩ := event_handler_outcome config w data evt
  have hchk := List.all_eq_true.mp (outcomes_gpio_check _ _ _ _ _) o ho
  unfold gpio_inv at h ⊢
  rw [h1, h2, List.all_append]
  simp only [gpio_check, h.1, Bool.not_true, Bool.false_or, Bool.and_eq_true] at hchk
  exact ⟨hchk.1, by rw [h.2, hchk.2]; rfl⟩

/-- Every modem instance reached from one that has the invariant of the GPIO
discipline has it. -/
theorem gpio_inv_reach (config : modem_cellular_config) (w : World)
    (inputs : List Input) (data : modem_cellular_data) (h : gpio_inv config data) :
    gpio_inv config (reach config w data inputs) := by
  induction inputs generalizing data with
  | nil => exact h
  | cons i is ih =>
    refine ih (step config w data i) ?_
    by_cases hi : ∃ evt, i = .event evt
    · obtain ⟨evt, rfl⟩ := hi
      exact gpio_inv_event config w data evt h
    · obtain ⟨hs, ht⟩ := chat_step_frame config w data i (fun evt he => hi ⟨evt, he⟩)
      unfold gpio_inv at h ⊢
      rw [hs, ht]
      exact h

/-- `modem_cellular_init` establishes the invariant of the GPIO discipline: it
configures a GPIO line only when the line is configured, and leaves the state
`Idle`. -/
theorem initial_data_gpio_inv (config : modem_cellular_config) :
    gpio_inv config (initial_data config) := by
  unfold gpio_inv initial_data modem_cellular_init
  generalize modem_cellular_gpio_is_enabled config.power_gpio = p
  generalize modem_cellular_gpio_is_enabled config.reset_gpio = r
  cases p <;> cases r <;> exact ⟨rfl, rfl⟩

/-- A call that passes `gpio_call_ok` and configures, sets or reads the line
`g` targets a configured line. -/
theorem gpio_call_ok_spec (config : modem_cellular_config) (c : Call)
    (h : gpio_call_ok (modem_cellular_gpio_is_enabled config.power_gpio)
      (modem_cellular_gpio_is_enabled config.reset_gpio) c = true) (g : gpio_line) :
    ((∃ flags, c = .gpio_pin_configure_dt g flags) ∨ (∃ v, c = .gpio_pin_set_dt g v) ∨
      c = .gpio_pin_get_dt g) →
    modem_cellular_gpio_is_enabled (gpio_spec config g) = true := by
  rintro (⟨f, rfl⟩ | ⟨v, rfl⟩ | rfl) <;> cases g <;> exact h

/-- C27: GPIO lines that are not configured are never driven or read.  For
every configuration, every world and every sequence of steps (events and chat
callbacks) from the instance `modem_cellular_init` leaves: if the state
reached is `PowerOff`, a power GPIO is configured; if it is `PowerOn`, a power
GPIO or a reset GPIO is configured; and every `gpio_pin_set_dt`,
`gpio_pin_get_dt` and `gpio_pin_configure_dt` call made on the way, the
unguarded ones of the `PowerOff` hook and handler and of the reset branch of
the `PowerOn` hook included, targets a line whose `port` is not `NULL`. -/
theorem C27_gpio_calls_target_configured_lines (config : modem_cellular_config) (w : World)
    (inputs : List Input) :
    ((reach config w (initial_data config) inputs).state = .POWER_OFF →
      modem_cellular_gpio_is_enabled config.power_gpio = true) ∧
    ((reach config w (initial_data config) inputs).state = .POWER_ON →
      modem_cellular_gpio_is_enabled config.power_gpio = true ∨
      modem_cellular_gpio_is_enabled config.reset_gpio = true) ∧
    (∀ (g : gpio_line) (value : Int),
      Call.gpio_pin_set_dt g value ∈ (reach config w (initial_data config) inputs).trace →
      modem_cellular_gpio_is_enabled (gpio_spec config g) = true) ∧
    (∀ g : gpio_line,
      Call.gpio_pin_get_dt g ∈ (reach config w (initial_data config) inputs).trace →
      modem_cellular_gpio_is_enabled (gpio_spec config g) = true) ∧
    (∀ (g : gpio_line) (flags : gpio_flags),
      Call.gpio_pin_configure_dt g flags ∈
        (reach config w (initial_data config) inputs).trace →
      modem_cellular_gpio_is_enabled (gpio_spec config g) = true) := by
  obtain ⟨hs, ht⟩ := gpio_inv_reach config w inputs (initial_data config)
    (initial_data_gpio_inv config)
  have hall := List.all_eq_true.mp ht
  refine ⟨?_, ?_, ?_, ?_, ?_⟩
  · intro h
    rw [h] at hs
    exact hs
  · intro h
    rw [h] at hs
    simpa [gpio_state_ok] using hs
  · intro g v hmem
    exact gpio_call_ok_spec config _ (hall _ hmem) g (Or.inr (Or.inl ⟨v, rfl⟩))
  · intro g hmem
    exact gpio_call_ok_spec config _ (hall _ hmem) g (Or.inr (Or.inr rfl))
  · intro g f hmem
    exact gpio_call_ok_spec config _ (hall _ hmem) g (Or.inl ⟨f, rfl⟩)

/-- C27, witness: with a power GPIO, the bring-up to `Register` followed by
`Suspend` reaches `PowerOff`. -/
theorem C27_gpio_witness :
    (reach config_power_only ideal_world (initial_data config_power_only)
      (cold_bring_up_events.map .event ++ [.event .SUSPEND])).state = .POWER_OFF ∧
    modem_cellular_gpio_is_enabled config_power_only.power_gpio = true ∧
    Call.gpio_pin_set_dt .power_gpio 1 ∈
      (reach config_power_only ideal_world (initial_data config_power_only)
        (cold_bring_up_events.map .event ++ [.event .SUSPEND])).trace :=
  ⟨by decide,
    (C27_gpio_calls_target_configured_lines config_power_only ideal_world
      (cold_bring_up_events.map .event ++ [.event .SUSPEND])).1 (by decide),
    by decide⟩

/-! ### C28: status fields are stored modulo 256 -/

/-- C28: status fields are stored modulo 256.  For every argument vector of a
two-field `+CREG` line (`argc = 3`) and of a `+CGATT` line (`argc = 2`), with
`atoi` the integer parsed from a field: `access_tech`, `registration_status`
and `packet_service_attached` are the parsed integers modulo 256;
`modem_cellular_is_registered` is true exactly when the parsed `stat` is
congruent to 5 and the parsed `+CGATT` state congruent to 1 modulo 256; the
field `261` is parsed to 261, stored as 5 and treated as registered; and
every value from 0 to 255 is stored as it is. -/
theorem C28_status_fields_are_stored_modulo_256 (data : modem_cellular_data)
    (argv_creg argv_cgatt : List String) :
    (((modem_cellular_chat_on_creg data argv_creg 3).access_tech : Nat) : Int) =
      atoi (argv_creg.getD 1 "") % 256 ∧
    (((modem_cellular_chat_on_creg data argv_creg 3).registration_status : Nat) : Int) =
      atoi (argv_creg.getD 2 "") % 256 ∧
    (((modem_cellular_chat_on_cgatt data argv_cgatt 2).packet_service_attached : Nat) : Int) =
      atoi (argv_cgatt.getD 1 "") % 256 ∧
    (modem_cellular_is_registered
        (modem_cellular_chat_on_cgatt (modem_cellular_chat_on_creg data argv_creg 3)
          argv_cgatt 2) = true ↔
      atoi (argv_creg.getD 2 "") % 256 = 5 ∧ atoi (argv_cgatt.getD 1 "") % 256 = 1) ∧
    atoi "261" = 261 ∧
    (modem_cellular_chat_on_creg data ["+CREG: ", "0", "261"] 3).registration_status = 5 ∧
    modem_cellular_is_registered
      (modem_cellular_chat_on_cgatt (modem_cellular_chat_on_creg data ["+CREG: ", "0", "261"] 3)
        ["+CGATT: ", "1"] 2) = true ∧
    (∀ v : Int, 0 ≤ v → v ≤ 255 → ((to_uint8 v : Nat) : Int) = v) := by
  have h261 : to_uint8 (atoi "261") = 5 := by decide
  have h1 : to_uint8 (atoi "1") = 1 := by decide
  refine ⟨?_, ?_, ?_, ?_, by decide, ?_, ?_, ?_⟩
  · simp [modem_cellular_chat_on_creg, to_uint8_mod]
  · simp [modem_cellular_chat_on_creg, to_uint8_mod]
  · simp [modem_cellular_chat_on_cgatt, to_uint8_mod]
  · simp only [modem_cellular_is_registered, modem_cellular_chat_on_creg,
      modem_cellular_chat_on_cgatt, bne_self_eq_false, Bool.false_eq_true, if_false,
      Bool.and_eq_true, beq_iff_eq]
    rw [← to_uint8_mod, ← to_uint8_mod]
    constructor
    · rintro ⟨a, b⟩
      rw [a, b]
      exact ⟨rfl, rfl⟩
    · rintro ⟨a, b⟩
      exact ⟨by exact_mod_cast a, by exact_mod_cast b⟩
  · simp [modem_cellular_chat_on_creg, h261]
  · simp [modem_cellular_is_registered, modem_cellular_chat_on_creg,
      modem_cellular_chat_on_cgatt, h261, h1]
  · intro v h0 h255
    rw [to_uint8_mod]
    omega

/-! ### C29: where a `Suspend` event is acted upon -/

/-- C29: a `Suspend` event is acted upon only in `Register` and `CarrierOn`.
For every configuration, world and modem data: in every state other than
`Register` and `CarrierOn`, `modem_cellular_event_handler` with `Suspend` only
writes the event log line, so state, modem data and trace are unchanged and no
collaborator is called; in `Register` it always changes the state, to
`PowerOff` when a power GPIO is configured and to `Idle` otherwise; in
`CarrierOn` it always changes the state to `CarrierOff`. -/
theorem C29_suspend_acted_upon_only_in_register_and_carrier_on
    (config : modem_cellular_config) (w : World) (data : modem_cellular_data) :
    (data.state ≠ .REGISTER → data.state ≠ .CARRIER_ON →
      modem_cellular_event_handler config w data .SUSPEND = log_line (.event .SUSPEND) data) ∧
    (data.state = .REGISTER →
      (modem_cellular_event_handler config w data .SUSPEND).state =
        (if modem_cellular_gpio_is_enabled config.power_gpio then .POWER_OFF else .IDLE) ∧
      (modem_cellular_event_handler config w data .SUSPEND).state ≠ data.state) ∧
    (data.state = .CARRIER_ON →
      (modem_cellular_event_handler config w data .SUSPEND).state = .CARRIER_OFF) := by
  obtain ⟨im, hwi, act, rs, ps, st, sa, rb, tr, lg⟩ := data
  refine ⟨?_, ?_, ?_⟩
  · intro h1 h2
    cases st <;> first
      | exact absurd rfl h1
      | exact absurd rfl h2
      | rfl
  · intro h
    simp only at h
    subst h
    cases hp : modem_cellular_gpio_is_enabled config.power_gpio <;>
      simp [modem_cellular_event_handler, modem_cellular_log_event, log_line,
        modem_cellular_log_state_changed, modem_cellular_register_event_handler,
        modem_cellular_enter_state, modem_cellular_on_state_leave, modem_cellular_on_state_enter,
        modem_cellular_on_register_state_leave, modem_cellular_on_power_off_state_enter,
        modem_cellular_start_timer, modem_cellular_stop_timer, hp]
  · intro h
    simp only at h
    subst h
    simp [modem_cellular_event_handler, modem_cellular_log_event, log_line,
      modem_cellular_log_state_changed, modem_cellular_carrier_on_event_handler,
      modem_cellular_enter_state, modem_cellular_on_state_leave, modem_cellular_on_state_enter,
      modem_cellular_on_carrier_on_state_leave, modem_cellular_on_carrier_off_state_enter,
      modem_cellular_start_timer, modem_cellular_stop_timer]

/-- C29, witness: `Suspend` in `Idle` (ignored), in `Register` without a power
GPIO (to `Idle`) and in `CarrierOn` (to `CarrierOff`). -/
theorem C29_suspend_witness :
    modem_cellular_event_handler config_no_gpio ideal_world (initial_data config_no_gpio)
      .SUSPEND = log_line (.event .SUSPEND) (initial_data config_no_gpio) ∧
    (register_data config_no_gpio).state = .REGISTER ∧
    (modem_cellular_event_handler config_no_gpio ideal_world (register_data config_no_gpio)
      .SUSPEND).state = .IDLE ∧
    (carrier_on_data config_no_gpio).state = .CARRIER_ON ∧
    (modem_cellular_event_handler config_no_gpio ideal_world (carrier_on_data config_no_gpio)
      .SUSPEND).state = .CARRIER_OFF :=
  ⟨(C29_suspend_acted_upon_only_in_register_and_carrier_on config_no_gpio ideal_world
      (initial_data config_no_gpio)).1 (by decide) (by decide),
    by decide,
    ((C29_suspend_acted_upon_only_in_register_and_carrier_on config_no_gpio ideal_world
      (register_data config_no_gpio)).2.1 (by decide)).1.trans (by decide),
    by decide,
    (C29_suspend_acted_upon_only_in_register_and_carrier_on config_no_gpio ideal_world
      (carrier_on_data config_no_gpio)).2.2 (by decide)⟩

/-! ### C30: bring-up with both GPIOs -/

/-- C30: bring-up with both GPIOs.  For every world in which reading a GPIO
line returns the level last written to it and the UART pipe opens, starting
in `Idle`: with a power GPIO and a reset GPIO configured and the reset line
asserted, `Resume` enters `PowerOn` (power GPIO set to 1, timer 1500 ms) and
exactly three `Timeout` events are needed to reach RunInit, the first setting
the power GPIO to 0 and arming the timer for 10000 ms, the second setting the
reset GPIO to 0 and arming the timer for 10000 ms again, the third entering
RunInit; with only a power GPIO, or only a reset GPIO, configured, the second
`Timeout` enters RunInit. -/
theorem C30_bring_up_with_both_gpios (config : modem_cellular_config) (w : World)
    (data : modem_cellular_data)
    (hw : ∀ history g, w history (.gpio_pin_get_dt g) = gpio_level g history)
    (hopen : 0 ≤ w data.trace (.modem_pipe_open .uart_pipe))
    (hstate : data.state = .IDLE) :
    (modem_cellular_gpio_is_enabled config.power_gpio = true →
      modem_cellular_gpio_is_enabled config.reset_gpio = true →
      gpio_level .reset_gpio data.trace = 1 →
      run_states config w data [.RESUME, .TIMEOUT, .TIMEOUT, .TIMEOUT] =
        [.IDLE, .POWER_ON, .POWER_ON, .POWER_ON, .RUN_INIT_SCRIPT] ∧
      calls_since data (run config w data [.RESUME]) =
        [.modem_pipe_open .uart_pipe, .gpio_pin_set_dt .power_gpio 1, .k_work_schedule 1500] ∧
      calls_since (run config w data [.RESUME]) (run config w data [.RESUME, .TIMEOUT]) =
        [.gpio_pin_get_dt .power_gpio, .gpio_pin_set_dt .power_gpio 0, .k_work_schedule 10000] ∧
      calls_since (run config w data [.RESUME, .TIMEOUT])
          (run config w data [.RESUME, .TIMEOUT, .TIMEOUT]) =
        [.gpio_pin_get_dt .power_gpio, .gpio_pin_get_dt .reset_gpio,
          .gpio_pin_set_dt .reset_gpio 0, .k_work_schedule 10000]) ∧
    (modem_cellular_gpio_is_enabled config.power_gpio = true →
      modem_cellular_gpio_is_enabled config.reset_gpio = false →
      run_states config w data [.RESUME, .TIMEOUT, .TIMEOUT] =
        [.IDLE, .POWER_ON, .POWER_ON, .RUN_INIT_SCRIPT]) ∧
    (modem_cellular_gpio_is_enabled config.power_gpio = false →
      modem_cellular_gpio_is_enabled config.reset_gpio = true →
      run_states config w data [.RESUME, .TIMEOUT, .TIMEOUT] =
        [.IDLE, .POWER_ON, .POWER_ON, .RUN_INIT_SCRIPT]) := by
  obtain ⟨im, hwi, act, rs, ps, st, sa, rb, tr, lg⟩ := data
  simp only at hstate hopen
  subst hstate
  have hopen2 : ¬ w tr (.modem_pipe_open .uart_pipe) < 0 := not_lt.mpr hopen
  refine ⟨?_, ?_, ?_⟩
  · intro hp hr hlevel
    simp only at hlevel
    by_cases h1 : w (tr ++ [.modem_pipe_open .uart_pipe, .gpio_pin_set_dt .power_gpio 1,
        .k_work_schedule 1500, .gpio_pin_get_dt .power_gpio, .gpio_pin_set_dt .power_gpio 0,
        .k_work_schedule 10000, .gpio_pin_get_dt .power_gpio, .gpio_pin_get_dt .reset_gpio,
        .gpio_pin_set_dt .reset_gpio 0, .k_work_schedule 10000, .gpio_pin_get_dt .power_gpio,
        .gpio_pin_get_dt .reset_gpio]) (.modem_chat_attach .uart_pipe) < 0 <;>
    by_cases h2 : w (tr ++ [.modem_pipe_open .uart_pipe, .gpio_pin_set_dt .power_gpio 1,
        .k_work_schedule 1500, .gpio_pin_get_dt .power_gpio, .gpio_pin_set_dt .power_gpio 0,
        .k_work_schedule 10000, .gpio_pin_get_dt .power_gpio, .gpio_pin_get_dt .reset_gpio,
        .gpio_pin_set_dt .reset_gpio 0, .k_work_schedule 10000, .gpio_pin_get_dt .power_gpio,
        .gpio_pin_get_dt .reset_gpio, .modem_chat_attach .uart_pipe])
        (.modem_chat_script_run .init_chat_script) < 0 <;>
    simp [calls_since, run_states, run, modem_cellular_event_handler,
      modem_cellular_log_event, log_line, modem_cellular_log_state_changed,
      modem_cellular_idle_event_handler, modem_cellular_power_on_event_handler,
      modem_cellular_enter_state, modem_cellular_on_state_leave,
      modem_cellular_on_state_enter, modem_cellular_on_idle_state_leave,
      modem_cellular_on_power_on_state_enter, modem_cellular_on_run_init_script_state_enter,
      modem_cellular_start_timer, hp, hr, hw, hopen2, hlevel, gpio_level_append,
      gpio_level_step, MODEM_CELLULAR_POWER_GPIO_PULSE, MODEM_CELLULAR_STARTUP_TIME, EAGAIN, h1, h2]
  · intro hp hr
    by_cases h1 : w (tr ++ [.modem_pipe_open .uart_pipe, .gpio_pin_set_dt .power_gpio 1,
        .k_work_schedule 1500, .gpio_pin_get_dt .power_gpio, .gpio_pin_set_dt .power_gpio 0,
        .k_work_schedule 10000, .gpio_pin_get_dt .power_gpio])
        (.modem_chat_attach .uart_pipe) < 0 <;>
    by_cases h2 : w (tr ++ [.modem_pipe_open .uart_pipe, .gpio_pin_set_dt .power_gpio 1,
        .k_work_schedule 1500, .gpio_pin_get_dt .power_gpio, .gpio_pin_set_dt .power_gpio 0,
        .k_work_schedule 10000, .gpio_pin_get_dt .power_gpio, .modem_chat_attach .uart_pipe])
        (.modem_chat_script_run .init_chat_script) < 0 <;>
    simp [calls_since, run_states, run, modem_cellular_event_handler,
      modem_cellular_log_event, log_line, modem_cellular_log_state_changed,
      modem_cellular_idle_event_handler, modem_cellular_power_on_event_handler,
      modem_cellular_enter_state, modem_cellular_on_state_leave,
      modem_cellular_on_state_enter, modem_cellular_on_idle_state_leave,
      modem_cellular_on_power_on_state_enter, modem_cellular_on_run_init_script_state_enter,
      modem_cellular_start_timer, hp, hr, hw, hopen2, gpio_level_append,
      gpio_level_step, MODEM_CELLULAR_POWER_GPIO_PULSE, MODEM_CELLULAR_STARTUP_TIME, EAGAIN, h1, h2]
  · intro hp hr
    by_cases h1 : w (tr ++ [.modem_pipe_open .uart_pipe, .gpio_pin_set_dt .reset_gpio 1,
        .k_work_schedule 100, .gpio_pin_get_dt .reset_gpio, .gpio_pin_set_dt .reset_gpio 0,
        .k_work_schedule 10000, .gpio_pin_get_dt .reset_gpio])
        (.modem_chat_attach .uart_pipe) < 0 <;>
    by_cases h2 : w (tr ++ [.modem_pipe_open .uart_pipe, .gpio_pin_set_dt .reset_gpio 1,
        .k_work_schedule 100, .gpio_pin_get_dt .reset_gpio, .gpio_pin_set_dt .reset_gpio 0,
        .k_work_schedule 10000, .gpio_pin_get_dt .reset_gpio, .modem_chat_attach .uart_pipe])
        (.modem_chat_script_run .init_chat_script) < 0 <;>
    simp [calls_since, run_states, run, modem_cellular_event_handler,
      modem_cellular_log_event, log_line, modem_cellular_log_state_changed,
      modem_cellular_idle_event_handler, modem_cellular_power_on_event_handler,
      modem_cellular_enter_state, modem_cellular_on_state_leave,
      modem_cellular_on_state_enter, modem_cellular_on_idle_state_leave,
      modem_cellular_on_power_on_state_enter, modem_cellular_on_run_init_script_state_enter,
      modem_cellular_start_timer, hp, hr, hw, hopen2, gpio_level_append,
      gpio_level_step, MODEM_CELLULAR_RESET_GPIO_PULSE, MODEM_CELLULAR_STARTUP_TIME, EAGAIN, h1, h2]

/-- C30, witness: the freshly initialised instance with both GPIOs, whose
reset line `modem_cellular_init` has left asserted. -/
theorem C30_bring_up_with_both_gpios_witness :
    (∀ history g, ideal_world history (.gpio_pin_get_dt g) = gpio_level g history) ∧
    0 ≤ ideal_world (initial_data config_both).trace (.modem_pipe_open .uart_pipe) ∧
    (initial_data config_both).state = .IDLE ∧
    gpio_level .reset_gpio (initial_data config_both).trace = 1 ∧
    run_states config_both ideal_world (initial_data config_both)
        [.RESUME, .TIMEOUT, .TIMEOUT, .TIMEOUT] =
      [.IDLE, .POWER_ON, .POWER_ON, .POWER_ON, .RUN_INIT_SCRIPT] :=
  ⟨fun _ _ => rfl, by decide, by decide, by decide,
    ((C30_bring_up_with_both_gpios config_both ideal_world (initial_data config_both)
      (fun _ _ => rfl) (by decide) (by decide)).1 (by decide) (by decide) (by decide)).1⟩

end ModemCellular
